import Mathlib

/-!
# STM32-RTOS: task kernel and buddy allocator

A shallow embedding of `Core/Src/kernel.c`, `Core/Src/stm32f4xx_it.c` and
`Core/Src/k_mem.c`.  Machine integers are natural numbers (or integers for
`int`) with explicit wrap-around where the C code can overflow.  `U8` is the
unsigned 8-bit `char` of the ARM EABI, `U16` is 16 bits, `U32`, `task_t`,
`size_t` and pointers are 32 bits.  An array access outside the bounds of a
global array is undefined behaviour in C; operations that would perform one
return `none`.
-/

namespace RTOS

/-! ## Constants of `common.h`, `k_task.h` and `kernel.c` -/

def MAX_TASKS : Nat := 16
def TRUE : Nat := 1
def FALSE : Nat := 0
/-- The value `-1` stored in a `task_t` (unsigned 32 bit). -/
def TID_DORMANT : Nat := 4294967295
def DORMANT : Nat := 0
def READY : Nat := 1
def RUNNING : Nat := 2
def SLEEPING : Nat := 3
def TASK_DORMANT : Nat := 0
def TASK_READY : Nat := 1
def TASK_RUNNING : Nat := 2
def TASK_SLEEPING : Nat := 3
def RTX_ERR : Int := -1
def RTX_OK : Int := 1
def INT_MAX : Int := 2147483647
def STACK_SIZE : Nat := 512

/-- Conversion of an `int` to `unsigned int` (reduction modulo 2^32). -/
def toU32 (x : Int) : Nat := (x % 4294967296).toNat

/-- Conversion of an `unsigned int` to `int` (two's complement). -/
def toS32 (x : Nat) : Int :=
  if x % 4294967296 < 2147483648 then ((x % 4294967296 : Nat) : Int)
  else ((x % 4294967296 : Nat) : Int) - 4294967296

/-- Subtraction of two `U32` values, wrapping modulo 2^32. -/
def subU32 (a b : Nat) : Nat := (a + (4294967296 - b % 4294967296)) % 4294967296

/-! ## Task control blocks and the kernel state -/

/-- The struct `task_control_block`; pointers are stored as addresses. -/
structure TCB where
  ptask : Nat
  tid : Nat
  state : Nat
  stack_size : Nat
  stack_high : Nat
  SP : Nat
  p_stack_mem : Nat
  remaining_sleep_time : Nat
  deadline : Nat
  remaining_time : Nat
deriving DecidableEq, Repr

/-- The struct `kernel_config_t`.  `TCBS` is the array of `MAX_TASKS` control
blocks; only the indices below `MAX_TASKS` belong to it. -/
structure KERNEL_CONFIG where
  TCBS : Nat → TCB
  num_running_tasks : Nat
  is_running : Nat
  running_task : Nat

/-- The kernel state together with the two processor registers the kernel
uses: the pending bit of PendSV in `SCB->ICSR` and the process stack pointer. -/
structure Machine where
  kernel_config : KERNEL_CONFIG
  PENDSVSET : Bool
  PSP : Nat

/-- Assignment to `kernel_config.TCBS[i]`. -/
def setTCB (k : KERNEL_CONFIG) (i : Nat) (t : TCB) : KERNEL_CONFIG :=
  { k with TCBS := fun j => if j = i then t else k.TCBS j }

/-! ## The scheduler (`kernel.c`, `scheduler`) -/

/-- The local variables of `scheduler`. -/
structure SchedVars where
  next_task : Nat
  earliest_deadline : Int
  all_sleeping : Nat
  all_dormant : Nat
deriving DecidableEq, Repr

/-- One iteration of the `for` loop of `scheduler`.  The comparison of the
`U32` field `remaining_time` with the `int` variable `earliest_deadline` is
made in `unsigned int`. -/
def scheduler_body (k : KERNEL_CONFIG) (v : SchedVars) (i : Nat) : SchedVars :=
  if (k.TCBS i).state ≠ DORMANT then
    let v1 : SchedVars := { v with all_dormant := FALSE }
    if (k.TCBS i).state = READY then
      let v2 : SchedVars := { v1 with all_sleeping := FALSE }
      if (k.TCBS i).remaining_time < toU32 v2.earliest_deadline then
        { v2 with earliest_deadline := toS32 (k.TCBS i).remaining_time, next_task := i }
      else v2
    else if (k.TCBS i).state = RUNNING then
      { v1 with all_sleeping := FALSE }
    else v1
  else v

/-- The variables of `scheduler` after the iterations `i = 1, ..., n`. -/
def scheduler_loop (k : KERNEL_CONFIG) (n : Nat) : SchedVars :=
  (List.range' 1 n).foldl (scheduler_body k)
    { next_task := TID_DORMANT, earliest_deadline := INT_MAX,
      all_sleeping := TRUE, all_dormant := TRUE }

/-- The function `scheduler`: the loop runs for `i = 1 .. MAX_TASKS - 1`. -/
def scheduler (k : KERNEL_CONFIG) : Nat :=
  let v := scheduler_loop k (MAX_TASKS - 1)
  if v.all_dormant ≠ 0 ∨ v.all_sleeping ≠ 0 then 0 else v.next_task

/-! ## Context switch request and the tick handler -/

/-- The function `ContextSwitch`: pends PendSV unless the kernel is not running
or no task has been dispatched. -/
def ContextSwitch (m : Machine) : Machine :=
  if m.kernel_config.is_running = FALSE ∨ m.kernel_config.running_task = TID_DORMANT then m
  else { m with PENDSVSET := true }

/-- The body of the `for` loop of `SysTick_Handler` for slot `i`.  The two
decrements guarded by `> 0` cannot wrap; the decrement after the reload from
`deadline` is made in `U32`. -/
def SysTick_body (k : KERNEL_CONFIG) (i : Nat) : KERNEL_CONFIG :=
  let t := k.TCBS i
  if t.state = TASK_READY ∨ t.state = TASK_RUNNING then
    if t.remaining_time = 0 then
      setTCB k i { t with remaining_time := t.deadline }
    else if t.remaining_time > 0 then
      setTCB k i { t with remaining_time := t.remaining_time - 1 }
    else k
  else if t.state = TASK_SLEEPING then
    if t.remaining_sleep_time = 0 then
      setTCB k i { t with state := TASK_READY, remaining_time := subU32 t.deadline 1 }
    else if t.remaining_sleep_time > 0 then
      setTCB k i { t with remaining_sleep_time := t.remaining_sleep_time - 1 }
    else k
  else k

/-- The `for` loop of `SysTick_Handler` after the iterations `i = 1, ..., n`. -/
def SysTick_loop (k : KERNEL_CONFIG) (n : Nat) : KERNEL_CONFIG :=
  (List.range' 1 n).foldl SysTick_body k

/-- The function `SysTick_Handler` (the HAL tick counter is not part of the
kernel state). -/
def SysTick_Handler (m : Machine) : Machine :=
  if m.kernel_config.is_running = 0 then m
  else ContextSwitch { m with kernel_config := SysTick_loop m.kernel_config (MAX_TASKS - 1) }

/-- The function `osSleep`.  The access `TCBS[running_task]` is out of bounds
when `running_task` is not below `MAX_TASKS`. -/
def osSleep (m : Machine) (timeInMs : Int) : Option Machine :=
  if timeInMs ≤ 0 then some m
  else if m.kernel_config.running_task < MAX_TASKS then
    let k := m.kernel_config
    let k1 := setTCB k k.running_task { k.TCBS k.running_task with state := SLEEPING }
    let k2 := setTCB k1 k1.running_task
      { k1.TCBS k1.running_task with remaining_sleep_time := toU32 timeInMs }
    some (ContextSwitch { m with kernel_config := k2 })
  else none

/-- The tick handler invoked `n` times in a row. -/
def ticks : Nat → Machine → Machine
  | 0, m => m
  | n + 1, m => SysTick_Handler (ticks n m)

/-- The effect of one iteration of the loop of `SysTick_Handler` on the
control block it visits (read off `SysTick_body`). -/
def SysTick_slot (t : TCB) : TCB :=
  if t.state = TASK_READY ∨ t.state = TASK_RUNNING then
    if t.remaining_time = 0 then { t with remaining_time := t.deadline }
    else { t with remaining_time := t.remaining_time - 1 }
  else if t.state = TASK_SLEEPING then
    if t.remaining_sleep_time = 0 then
      { t with state := TASK_READY, remaining_time := subU32 t.deadline 1 }
    else { t with remaining_sleep_time := t.remaining_sleep_time - 1 }
  else t

/-- The loop invariant of `scheduler`: after the slots `1..n` have been
scanned, either no READY slot has been seen, or `next_task` is the first slot
of minimal `remaining_time` among the READY slots seen. -/
def SchedInv (k : KERNEL_CONFIG) (n : Nat) (v : SchedVars) : Prop :=
  (0 ≤ v.earliest_deadline ∧ v.earliest_deadline ≤ INT_MAX) ∧
  ((v.earliest_deadline = INT_MAX ∧ ∀ i, 1 ≤ i → i ≤ n → (k.TCBS i).state ≠ READY) ∨
   (1 ≤ v.next_task ∧ v.next_task ≤ n ∧ (k.TCBS v.next_task).state = READY ∧
    v.earliest_deadline = ((k.TCBS v.next_task).remaining_time : Int) ∧
    v.all_sleeping = 0 ∧ v.all_dormant = 0 ∧
    (∀ j, 1 ≤ j → j ≤ n → (k.TCBS j).state = READY →
      (k.TCBS v.next_task).remaining_time ≤ (k.TCBS j).remaining_time) ∧
    (∀ j, 1 ≤ j → j < v.next_task → (k.TCBS j).state = READY →
      (k.TCBS v.next_task).remaining_time < (k.TCBS j).remaining_time)))

/-! ## The buddy allocator (`k_mem.h`, `k_mem.c`)

Memory is byte addressed and little endian.  The struct `block_metadata` is
laid out as the ARM EABI lays it out: `secret_key` at offset 0, `is_allocated`
at 1, `task_tid` at 4, `level_pos` at 8, `next` at 12, `prev` at 16, `dummy`
at 20, 24 bytes in all. -/

def METADATA_SECRET_KEY : Nat := 153
def MAX_LEVEL : Nat := 15
/-- The value of `sizeof(metadata)`. -/
def SIZEOF_METADATA : Nat := 24
/-- The number of entries of `free_list`. -/
def FREE_LIST_LEN : Nat := 11
/-- The number of entries of `bitarray`. -/
def BITARRAY_LEN : Nat := 2047
def NULL : Nat := 0

/-- The globals of `k_mem.c` and the memory they point into. -/
structure KMem where
  init_called : Nat
  bitarray : Nat → Nat
  free_list : Nat → Nat
  heap_start : Nat
  mem : Nat → Nat

/-- Addition of two `U32` values. -/
def addU32 (a b : Nat) : Nat := (a + b) % 4294967296

def read8 (mem : Nat → Nat) (a : Nat) : Nat := mem a

def read16 (mem : Nat → Nat) (a : Nat) : Nat := mem a + 256 * mem (addU32 a 1)

def read32 (mem : Nat → Nat) (a : Nat) : Nat :=
  mem a + 256 * mem (addU32 a 1) + 65536 * mem (addU32 a 2) + 16777216 * mem (addU32 a 3)

def write8 (mem : Nat → Nat) (a v : Nat) : Nat → Nat :=
  fun x => if x = a then v % 256 else mem x

def write16 (mem : Nat → Nat) (a v : Nat) : Nat → Nat :=
  write8 (write8 mem a v) (addU32 a 1) (v / 256)

def write32 (mem : Nat → Nat) (a v : Nat) : Nat → Nat :=
  write8 (write8 (write8 (write8 mem a v) (addU32 a 1) (v / 256)) (addU32 a 2) (v / 65536))
    (addU32 a 3) (v / 16777216)

/-! Field accessors of `metadata *p`. -/

def get_secret_key (mem : Nat → Nat) (p : Nat) : Nat := read8 mem p
def get_is_allocated (mem : Nat → Nat) (p : Nat) : Nat := read8 mem (addU32 p 1)
def get_task_tid (mem : Nat → Nat) (p : Nat) : Nat := read32 mem (addU32 p 4)
def get_level_pos (mem : Nat → Nat) (p : Nat) : Nat := read16 mem (addU32 p 8)
def get_next (mem : Nat → Nat) (p : Nat) : Nat := read32 mem (addU32 p 12)
def get_prev (mem : Nat → Nat) (p : Nat) : Nat := read32 mem (addU32 p 16)

def set_secret_key (mem : Nat → Nat) (p v : Nat) : Nat → Nat := write8 mem p v
def set_is_allocated (mem : Nat → Nat) (p v : Nat) : Nat → Nat := write8 mem (addU32 p 1) v
def set_task_tid (mem : Nat → Nat) (p v : Nat) : Nat → Nat := write32 mem (addU32 p 4) v
def set_level_pos (mem : Nat → Nat) (p v : Nat) : Nat → Nat := write16 mem (addU32 p 8) v
def set_next (mem : Nat → Nat) (p v : Nat) : Nat → Nat := write32 mem (addU32 p 12) v
def set_prev (mem : Nat → Nat) (p v : Nat) : Nat → Nat := write32 mem (addU32 p 16) v

/-- Assignment to `bitarray[i]`. -/
def setBit (s : KMem) (i v : Nat) : KMem :=
  { s with bitarray := fun j => if j = i then v else s.bitarray j }

/-- Assignment to `free_list[l]`. -/
def setFree (s : KMem) (l p : Nat) : KMem :=
  { s with free_list := fun j => if j = l then p else s.free_list j }

/-- The function `osGetTID`. -/
def osGetTID (k : KERNEL_CONFIG) : Nat :=
  if k.is_running = FALSE ∨ k.running_task = TID_DORMANT then 0 else k.running_task

/-- The position of the highest set bit of `num`, by at most `fuel` halvings. -/
def highest_bit : Nat → Nat → Nat
  | 0, _ => 0
  | fuel + 1, num => if 2 ≤ num then highest_bit fuel (num / 2) + 1 else 0

/-- The function `integer_log2`: 0 for 0, else `31 - __builtin_clz(num)`, the
position of the highest set bit of the 32-bit number `num`. -/
def integer_log2 (num : Nat) : Nat := if num = 0 then 0 else highest_bit 32 num

/-- The function `get_parent` on `U16`: `(index - 1) >> 1` is computed in
`int` and truncated to 16 bits, so the parent of index 0 is 65535. -/
def get_parent (index : Nat) : Nat := if index = 0 then 65535 else (index - 1) / 2

/-- The function `get_buddy_level_level_pos`. -/
def get_buddy_level_level_pos (level level_pos : Nat) : Nat :=
  ((2 ^ level - 1) + (level_pos ^^^ 1)) % 65536

/-- The function `index_level_to_level_pos`. -/
def index_level_to_level_pos (index level : Nat) : Nat :=
  addU32 (subU32 index (2 ^ level)) 1 % 65536

/-- The function `level_level_pos_to_addr`. -/
def level_level_pos_to_addr (s : KMem) (level level_pos : Nat) : Nat :=
  addU32 s.heap_start (2 ^ (MAX_LEVEL - level) * level_pos)

/-- The function `fast_index_to_addr`: the addresses of the node `index` and
of the node to its right. -/
def fast_index_to_addr (s : KMem) (index : Nat) : Nat × Nat :=
  let level := integer_log2 (index + 1)
  let level_pos := addU32 (subU32 index (2 ^ level)) 1
  let level_offset := 2 ^ (MAX_LEVEL - level)
  (addU32 s.heap_start (level_offset * level_pos),
   addU32 s.heap_start (level_offset * (level_pos + 1)))

/-- The function `index_to_addr` (through `index_to_level_and_pos`). -/
def index_to_addr (s : KMem) (index : Nat) : Nat :=
  let level := integer_log2 (index + 1) % 256
  let level_pos := addU32 (subU32 index (2 ^ level)) 1 % 65536
  addU32 s.heap_start (2 ^ (MAX_LEVEL - level) * level_pos)

/-- The function `level_to_block_size`. -/
def level_to_block_size (level : Nat) : Nat := 2 ^ (MAX_LEVEL - level) + SIZEOF_METADATA

/-- The function `split_node`.  The two writes to `bitarray` are out of bounds
when the index is not below 2047. -/
def split_node (s : KMem) (parent lvl : Nat) : Option KMem :=
  let parent_index := 2 ^ lvl + get_level_pos s.mem parent - 1
  let parent_pos := get_level_pos s.mem parent
  let child_index := parent_index * 2 + 1
  if parent_index < BITARRAY_LEN ∧ child_index < BITARRAY_LEN then
    let s1 := setBit (setBit s parent_index 1) child_index 1
    let s2 := setFree s1 lvl (get_next s1.mem (s1.free_list lvl))
    let child := (fast_index_to_addr s2 child_index).1
    let child_buddy := (fast_index_to_addr s2 child_index).2
    let m1 := set_level_pos s2.mem child (parent_pos * 2)
    let m2 := set_level_pos m1 child_buddy (get_level_pos m1 child + 1)
    let m3 := set_next m2 child_buddy NULL
    let m4 := set_next m3 child child_buddy
    let m5 := set_prev m4 child NULL
    let m6 := set_prev m5 child_buddy child
    some (setFree { s2 with mem := m6 } (lvl + 1) child)
  else none

/-- The first `while` loop of `k_mem_alloc`, started at `lvl`: the level goes
down while the value of `level_to_block_size` is below `size`. -/
def alloc_level (size : Nat) : Nat → Nat
  | 0 => 0
  | lvl + 1 => if level_to_block_size (lvl + 1) < size then alloc_level size lvl else lvl + 1

/-- The second `while` loop of `k_mem_alloc`, started at `lvl`: the deepest
level not below 0 whose free list is not empty, `none` when the loop ends with
`free_node_lvl < 0`. -/
def find_free_level (free_list : Nat → Nat) : Nat → Option Nat
  | 0 => if free_list 0 = NULL then none else some 0
  | lvl + 1 => if free_list (lvl + 1) = NULL then find_free_level free_list lvl else some (lvl + 1)

/-- The `for` loop of `k_mem_alloc`: `n` calls of `split_node`, at the levels
`free_node_lvl`, `free_node_lvl + 1`, ... -/
def split_loop (s : KMem) (free_node_lvl : Nat) : Nat → Option KMem
  | 0 => some s
  | n + 1 =>
    match split_node s (s.free_list free_node_lvl) free_node_lvl with
    | none => none
    | some s1 => split_loop s1 (free_node_lvl + 1) n

/-- The end of `k_mem_alloc`: the head of `free_list[lvl]` is taken off the
list and its header is filled in. -/
def alloc_finish (k : KERNEL_CONFIG) (s : KMem) (lvl : Nat) : Nat × KMem :=
  let base_address := s.free_list lvl
  let s1 := setFree s lvl (get_next s.mem (s.free_list lvl))
  let m1 := set_task_tid s1.mem base_address (osGetTID k)
  let m2 := set_secret_key m1 base_address METADATA_SECRET_KEY
  let m3 := set_is_allocated m2 base_address 1
  (addU32 base_address SIZEOF_METADATA, { s1 with mem := m3 })

/-- The function `k_mem_alloc`.  The result is the returned pointer (`NULL` is
0) and the new state; `none` stands for an access outside `free_list` (11
entries) or `bitarray` (2047 entries). -/
def k_mem_alloc (k : KERNEL_CONFIG) (s : KMem) (size : Nat) : Option (Nat × KMem) :=
  if s.init_called = 0 ∨ size = 0 then some (NULL, s)
  else
    let lvl := alloc_level size MAX_LEVEL
    if lvl = 0 then some (NULL, s)
    else if ¬ lvl < FREE_LIST_LEN then none
    else if s.free_list lvl ≠ NULL then
      let pos := 2 ^ lvl + get_level_pos s.mem (s.free_list lvl) - 1
      if pos < BITARRAY_LEN then some (alloc_finish k (setBit s pos 1) lvl) else none
    else
      match find_free_level s.free_list lvl with
      | none => some (NULL, s)
      | some free_node_lvl =>
        match split_loop s free_node_lvl (lvl - free_node_lvl) with
        | none => none
        | some s1 => some (alloc_finish k s1 lvl)

/-- The function `transfer_memory`. -/
def transfer_memory (s : KMem) (ptr tid : Nat) : KMem :=
  { s with mem := set_task_tid s.mem (subU32 ptr SIZEOF_METADATA) tid }

/-- The `while` loop of `addr_to_index`: up the tree from `index` until a set
bit is found.  `none` stands for a read outside `bitarray`; the loop ends
within 12 iterations, since the parent of index 0 is outside `bitarray`. -/
def addr_to_index_loop (bitarray : Nat → Nat) : Nat → Nat → Nat → Option (Nat × Nat)
  | 0, _, _ => none
  | fuel + 1, level, index =>
    if ¬ index < BITARRAY_LEN then none
    else if bitarray index = 0 then
      addr_to_index_loop bitarray fuel ((level + 255) % 256) (get_parent index)
    else some (index, level)

/-- The function `addr_to_index`: the index in `bitarray` and the level of the
block that holds `ptr`. -/
def addr_to_index (s : KMem) (ptr : Nat) : Option (Nat × Nat) :=
  let bottom_level_offset := (subU32 ptr s.heap_start / 32) % 65536
  let bottom_level_index := (1023 + bottom_level_offset) % 65536
  addr_to_index_loop s.bitarray 12 10 bottom_level_index

/-- The `do ... while` loop of `k_mem_dealloc`, which ends by `return RTX_OK`
at the latest at the root.  `none` stands for an access outside `bitarray` or
`free_list`. -/
def coalesce_loop (s : KMem) : Nat → Nat → Nat → Nat → Option KMem
  | 0, _, _, _ => none
  | fuel + 1, bitarray_index, current_level, current_level_pos =>
    let buddy_index := get_buddy_level_level_pos current_level current_level_pos
    if ¬ (bitarray_index < BITARRAY_LEN ∧ buddy_index < BITARRAY_LEN ∧
        current_level < FREE_LIST_LEN) then none
    else
      let s1 := setBit s bitarray_index 0
      let current_node := level_level_pos_to_addr s1 current_level current_level_pos
      let m1 := set_is_allocated s1.mem current_node 0
      let m2 := set_level_pos m1 current_node current_level_pos
      let m3 := set_next m2 current_node NULL
      let m4 := set_prev m3 current_node NULL
      if s1.bitarray buddy_index ≠ 0 ∨ bitarray_index = 0 then
        let prev_head := s1.free_list current_level
        let m5 := set_next m4 current_node prev_head
        let m6 := set_prev m5 current_node NULL
        let m7 := if prev_head ≠ NULL then set_prev m6 prev_head current_node else m6
        some (setFree { s1 with mem := m7 } current_level current_node)
      else
        let free_buddy := level_level_pos_to_addr s1 current_level (current_level_pos ^^^ 1)
        let s2 : KMem := { s1 with mem := m4 }
        let s3 := if s2.free_list current_level = free_buddy
          then setFree s2 current_level (get_next s2.mem free_buddy) else s2
        let m8 := if get_next s3.mem free_buddy ≠ NULL
          then set_prev s3.mem (get_next s3.mem free_buddy) (get_prev s3.mem free_buddy)
          else s3.mem
        let m9 := if get_prev m8 free_buddy ≠ NULL
          then set_next m8 (get_prev m8 free_buddy) (get_next m8 free_buddy)
          else m8
        coalesce_loop { s3 with mem := m9 } fuel (get_parent bitarray_index)
          ((current_level + 255) % 256) (current_level_pos / 2)

/-- The function `k_mem_dealloc`: the returned code and the new state. -/
def k_mem_dealloc (k : KERNEL_CONFIG) (s : KMem) (ptr : Nat) : Option (Int × KMem) :=
  if s.init_called = 0 then some (RTX_ERR, s)
  else if ptr = NULL then some (RTX_ERR, s)
  else
    let block_metadata_p := subU32 ptr SIZEOF_METADATA
    if get_secret_key s.mem block_metadata_p ≠ METADATA_SECRET_KEY then some (RTX_ERR, s)
    else if get_is_allocated s.mem block_metadata_p = 0 then some (RTX_ERR, s)
    else if get_task_tid s.mem block_metadata_p ≠ osGetTID k then some (RTX_ERR, s)
    else
      match addr_to_index s ptr with
      | none => none
      | some (bitarray_index, level) =>
        let current_level_pos := index_level_to_level_pos bitarray_index level
        match coalesce_loop s 12 bitarray_index level current_level_pos with
        | none => none
        | some s1 => some (RTX_OK, s1)

/-- The function `k_mem_init`; `img_end` is the address of the linker symbol
`_img_end`. -/
def k_mem_init (k : KERNEL_CONFIG) (s : KMem) (img_end : Nat) : Int × KMem :=
  let s0 : KMem := { s with heap_start := img_end }
  if s0.init_called = 1 ∨ k.is_running = FALSE then (RTX_ERR, s0)
  else
    let s1 : KMem := { s0 with init_called := 1 }
    let head := index_to_addr s1 0
    let s2 := setFree s1 0 head
    let m1 := set_next s2.mem head NULL
    let m2 := set_prev m1 head NULL
    let m3 := set_level_pos m2 head 0
    let s3 : KMem := { s2 with mem := m3 }
    (RTX_OK, (List.range' 1 10).foldl (fun st i => setFree st i NULL) s3)

/-! ## Task lifecycle (`kernel.c`)

The functions below work on the kernel state and on the allocator state with
its memory.  A write to `TCBS` outside its 16 entries is not modelled: the
operation returns `none`.  A read of `TCBS[running_task]` is also made while no
task has been dispatched (`running_task == TID_DORMANT`); it yields the value
of `TCBS` at that index, which stands for whatever the memory holds there. -/

def DEFAULT_DEADLINE : Nat := 4294967295
def DEFAULT_SLEEP_TIME : Nat := 4294967295
def NULL_TASK_TID : Nat := 0
def MAIN_STACK_SIZE : Nat := 1024

/-- The statement `*(--stackptr) = v` on a memory and a stack pointer. -/
def push_word (st : (Nat → Nat) × Nat) (v : Nat) : (Nat → Nat) × Nat :=
  (write32 st.1 (subU32 st.2 4) v, subU32 st.2 4)

/-- The loop `for (i = 0; i < n; i++) *(--stackptr) = 0xA`. -/
def push_markers : Nat → (Nat → Nat) × Nat → (Nat → Nat) × Nat
  | 0, st => st
  | n + 1, st => push_markers n (push_word st 10)

/-- The initial stack frame of a task: xPSR with the Thumb bit, the entry
address as PC, and fourteen words 0xA; the result is the memory and the final
stack pointer. -/
def push_frame (mem : Nat → Nat) (sp ptask : Nat) : (Nat → Nat) × Nat :=
  push_markers 14 (push_word (push_word (mem, sp) (2 ^ 24)) ptask)

/-- The function `osNull_task`; `null_task` is the address of the idle
function.  The initial main stack pointer is the word at address 0, and the
subtraction of `MAIN_STACK_SIZE` is made on a `U32 *`. -/
def osNull_task (k : KERNEL_CONFIG) (mem : Nat → Nat) (null_task : Nat) :
    KERNEL_CONFIG × (Nat → Nat) :=
  let MSP_INIT_VAL := read32 mem 0
  let p_stack_mem := subU32 MSP_INIT_VAL (4 * MAIN_STACK_SIZE)
  let fr := push_frame mem p_stack_mem null_task
  (setTCB k 0 { k.TCBS 0 with tid := NULL_TASK_TID, ptask := null_task, stack_size := STACK_SIZE,
                              p_stack_mem := p_stack_mem, SP := fr.2 }, fr.1)

/-- The body of the loop of `osKernelInit` for slot `i`. -/
def osKernelInit_body (k : KERNEL_CONFIG) (i : Nat) : KERNEL_CONFIG :=
  setTCB k i { k.TCBS i with tid := TID_DORMANT, state := TASK_DORMANT, SP := NULL,
                             p_stack_mem := NULL, stack_size := 16384,
                             remaining_sleep_time := DEFAULT_SLEEP_TIME,
                             deadline := DEFAULT_DEADLINE, remaining_time := DEFAULT_DEADLINE }

/-- The function `osKernelInit` (the writes to the priority registers are not
part of the state). -/
def osKernelInit (k : KERNEL_CONFIG) (mem : Nat → Nat) (null_task : Nat) :
    KERNEL_CONFIG × (Nat → Nat) :=
  let k1 := (List.range MAX_TASKS).foldl osKernelInit_body k
  let k2 : KERNEL_CONFIG :=
    { k1 with num_running_tasks := 0, is_running := TRUE, running_task := TID_DORMANT }
  osNull_task k2 mem null_task

/-- The search loop of `osCreateDeadlineTask`, at slot `i` with `n` slots to
go: the first slot whose `tid` is `TID_DORMANT`; `none` stands for
`create_tid == -1`. -/
def find_dormant_slot (k : KERNEL_CONFIG) : Nat → Nat → Option Nat
  | _, 0 => none
  | i, n + 1 => if (k.TCBS i).tid = TID_DORMANT then some i else find_dormant_slot k (i + 1) n

/-- What a call of `osCreateDeadlineTask` leaves behind: the returned code, the
kernel, the allocator with its memory, and the caller's `TCB`. -/
structure CreateResult where
  ret : Int
  machine : Machine
  kmem : KMem
  task : Option TCB

/-- The function `osCreateDeadlineTask`; `task` is the caller's `TCB`, `none`
for a NULL pointer. -/
def osCreateDeadlineTask (m : Machine) (s : KMem) (deadline : Int) (task : Option TCB) :
    Option CreateResult :=
  match task with
  | none => some { ret := RTX_ERR, machine := m, kmem := s, task := none }
  | some t =>
    let k := m.kernel_config
    if k.num_running_tasks ≥ MAX_TASKS ∨ deadline ≤ 0 ∨ t.ptask = NULL ∨ t.stack_size < STACK_SIZE
    then some { ret := RTX_ERR, machine := m, kmem := s, task := some t }
    else
      match find_dormant_slot k 1 (MAX_TASKS - 1) with
      | none => some { ret := RTX_ERR, machine := m, kmem := s, task := some t }
      | some create_tid =>
        let t1 : TCB := { t with tid := create_tid }
        let k1 := setTCB k create_tid t1
        match k_mem_alloc k1 s t1.stack_size with
        | none => none
        | some (p, s1) =>
          let k2 := setTCB k1 create_tid { k1.TCBS create_tid with p_stack_mem := p }
          if p = NULL then
            some { ret := RTX_ERR, machine := { m with kernel_config := k2 }, kmem := s1,
                   task := some { t1 with tid := TID_DORMANT } }
          else
            let s2 := transfer_memory s1 p create_tid
            let stack_top := addU32 p t1.stack_size
            let fr := push_frame s2.mem stack_top t1.ptask
            let k3 := setTCB k2 create_tid
              { k2.TCBS create_tid with
                SP := fr.2, stack_high := stack_top, state := TASK_READY, tid := create_tid,
                deadline := toU32 deadline, remaining_time := toU32 deadline,
                remaining_sleep_time := DEFAULT_SLEEP_TIME }
            let k4 : KERNEL_CONFIG :=
              { k3 with num_running_tasks := (k3.num_running_tasks + 1) % 256 }
            let current_task_remaing_time := (k4.TCBS k4.running_task).remaining_time
            let m1 : Machine := { m with kernel_config := k4 }
            let m2 :=
              if (k4.TCBS create_tid).remaining_time < current_task_remaing_time ∧
                  k4.running_task ≠ TID_DORMANT
              then ContextSwitch m1 else m1
            some { ret := RTX_OK, machine := m2, kmem := { s2 with mem := fr.1 },
                   task := some t1 }

/-- The function `osCreateTask`. -/
def osCreateTask (m : Machine) (s : KMem) (task : Option TCB) : Option CreateResult :=
  osCreateDeadlineTask m s 5 task

/-- A sequence of `osCreateTask` calls, one for each `TCB` of the list: the
returned codes in call order and the final state; `none` when one of the calls
has no result. -/
def osCreateTask_seq : List TCB → Machine → KMem → Option (List Int × Machine × KMem)
  | [], m, s => some ([], m, s)
  | t :: ts, m, s =>
    match osCreateTask m s (some t) with
    | none => none
    | some r =>
      match osCreateTask_seq ts r.machine r.kmem with
      | none => none
      | some (rets, m1, s1) => some (r.ret :: rets, m1, s1)

/-- The user slots 1..`j` are taken and the user slots `j + 1`..15 are
dormant (`tid == TID_DORMANT`), with at most `j` tasks counted. -/
def SlotsTaken (k : KERNEL_CONFIG) (j : Nat) : Prop :=
  (∀ i, 1 ≤ i → i ≤ j → (k.TCBS i).tid ≠ TID_DORMANT) ∧
  (∀ i, j < i → i ≤ 15 → (k.TCBS i).tid = TID_DORMANT) ∧
  k.num_running_tasks ≤ j

/-- The search loop of `osTaskInfo`, at slot `i` with `n` slots to go: the
first slot whose `tid` is `TID`. -/
def find_tid (k : KERNEL_CONFIG) (TID : Nat) : Nat → Nat → Option Nat
  | _, 0 => none
  | i, n + 1 => if (k.TCBS i).tid = TID then some i else find_tid k TID (i + 1) n

/-- The function `osTaskInfo`: the returned code and the caller's `TCB`, into
which `memacopy` copies all `sizeof(TCB)` bytes of the slot found. -/
def osTaskInfo (k : KERNEL_CONFIG) (TID : Nat) (task_copy : TCB) : Int × TCB :=
  if k.num_running_tasks ≤ 1 then (RTX_ERR, task_copy)
  else
    match find_tid k TID 1 (MAX_TASKS - 1) with
    | some i => (RTX_OK, k.TCBS i)
    | none => (RTX_ERR, task_copy)

/-- The function `osSetDeadline` (the interrupt masking is not part of the
state). -/
def osSetDeadline (m : Machine) (deadline : Int) (TID : Nat) : Int × Machine :=
  let k := m.kernel_config
  if deadline ≤ 0 ∨ TID ≤ 0 ∨ TID ≥ MAX_TASKS ∨ (k.TCBS TID).tid = TID_DORMANT ∨
      TID = k.running_task
  then (RTX_ERR, m)
  else
    let k1 := setTCB k TID { k.TCBS TID with deadline := toU32 deadline }
    let k2 := setTCB k1 TID { k1.TCBS TID with remaining_time := toU32 deadline }
    let current_task_remaing_time := (k2.TCBS k2.running_task).remaining_time
    let m1 : Machine := { m with kernel_config := k2 }
    if (k2.TCBS TID).remaining_time < current_task_remaing_time
    then (RTX_OK, ContextSwitch m1) else (RTX_OK, m1)

/-- The function `osTaskExit`: the returned code, the kernel and the
allocator. -/
def osTaskExit (m : Machine) (s : KMem) : Option (Int × Machine × KMem) :=
  let k := m.kernel_config
  if k.is_running = FALSE ∨ k.running_task = TID_DORMANT then some (RTX_ERR, m, s)
  else
    let current_tid := osGetTID k
    if current_tid = TID_DORMANT then some (RTX_ERR, m, s)
    else
      match k_mem_dealloc k s (k.TCBS current_tid).p_stack_mem with
      | none => none
      | some (r, s1) =>
        if r = -1 then some (RTX_ERR, m, s1)
        else if ¬ current_tid < MAX_TASKS then none
        else
          let k1 := setTCB k current_tid { k.TCBS current_tid with state := DORMANT }
          let k2 := setTCB k1 current_tid { k1.TCBS current_tid with tid := TID_DORMANT }
          let k3 : KERNEL_CONFIG :=
            { k2 with num_running_tasks := (k2.num_running_tasks + 255) % 256 }
          some (RTX_OK, ContextSwitch { m with kernel_config := k3 }, s1)

/-- The machine `m` with the kernel state `k`. -/
def withKernel (m : Machine) (k : KERNEL_CONFIG) : Machine := { m with kernel_config := k }

/-- The control block `t` with `deadline` and `remaining_time` set to `d`. -/
def withDeadline (t : TCB) (d : Nat) : TCB := { t with deadline := d, remaining_time := d }

/-- The allocator states that a program can reach: the zero-initialised
globals of `k_mem.c` over any memory at program start, then calls of
`k_mem_init`, `k_mem_alloc` and `k_mem_dealloc` by any task, and stores to the
memory by other code. -/
inductive MemReachable : KMem → Prop where
  | start (mem : Nat → Nat) :
      MemReachable { init_called := 0, bitarray := fun _ => 0, free_list := fun _ => 0,
                     heap_start := 0, mem := mem }
  | init (k : KERNEL_CONFIG) (s : KMem) (img_end : Nat) :
      MemReachable s → MemReachable (k_mem_init k s img_end).2
  | alloc (k : KERNEL_CONFIG) (s : KMem) (size p : Nat) (s1 : KMem) :
      MemReachable s → k_mem_alloc k s size = some (p, s1) → MemReachable s1
  | dealloc (k : KERNEL_CONFIG) (s : KMem) (ptr : Nat) (r : Int) (s1 : KMem) :
      MemReachable s → k_mem_dealloc k s ptr = some (r, s1) → MemReachable s1
  | store (s : KMem) (mem : Nat → Nat) :
      MemReachable s → MemReachable { s with mem := mem }

/-! ## Dispatch (`kernel.c`: `new_task`, `osKernelStart`, `osPeriodYield`) -/

/-- The first part of `new_task`: the process stack pointer is stored in the
slot of the running task, and that slot goes from RUNNING to READY. -/
def new_task_save (m : Machine) : KERNEL_CONFIG :=
  let k := m.kernel_config
  let k1 := setTCB k k.running_task { k.TCBS k.running_task with SP := m.PSP }
  if (k1.TCBS k1.running_task).state = RUNNING
  then setTCB k1 k1.running_task { k1.TCBS k1.running_task with state := READY }
  else k1

/-- The function `new_task`, the C part of the PendSV handler.  `none` stands
for a write to `TCBS` outside its 16 entries. -/
def new_task (m : Machine) : Option Machine :=
  if ¬ m.kernel_config.running_task < MAX_TASKS then none
  else
    let k2 := new_task_save m
    let n := scheduler k2
    let k3 : KERNEL_CONFIG := { k2 with running_task := n }
    if ¬ n < MAX_TASKS then none
    else
      let k4 := setTCB k3 n { k3.TCBS n with state := RUNNING }
      some { m with kernel_config := k4, PSP := (k4.TCBS n).SP }

/-- The function `osKernelStart`: the returned code and the machine (the calls
of `HAL_Init` and of the supervisor call that restores the context of the first
task are not part of the state).  `none` stands for a write to `TCBS` outside
its 16 entries. -/
def osKernelStart (m : Machine) : Option (Int × Machine) :=
  let k := m.kernel_config
  if k.is_running = 0 ∨ (k.TCBS 1).state = DORMANT then some (RTX_ERR, m)
  else
    let k1 : KERNEL_CONFIG := { k with is_running := TRUE }
    let firstTask := scheduler k1
    let k2 : KERNEL_CONFIG := { k1 with running_task := firstTask }
    if ¬ k2.running_task < MAX_TASKS then none
    else
      let psp := (k2.TCBS k2.running_task).SP
      let k3 := setTCB k2 k2.running_task { k2.TCBS k2.running_task with state := RUNNING }
      some (RTX_OK, { m with kernel_config := k3, PSP := psp })

/-- The function `osPeriodYield`.  The access `TCBS[running_task]` is out of
bounds when `running_task` is not below `MAX_TASKS`. -/
def osPeriodYield (m : Machine) : Option Machine :=
  if m.kernel_config.running_task < MAX_TASKS then
    let k := m.kernel_config
    let k1 := setTCB k k.running_task { k.TCBS k.running_task with state := SLEEPING }
    let k2 := setTCB k1 k1.running_task
      { k1.TCBS k1.running_task with
        remaining_sleep_time := (k1.TCBS k1.running_task).remaining_time }
    some (ContextSwitch { m with kernel_config := k2 })
  else none

/-- The index of the read `kernel_config.TCBS[kernel_config.running_task]` that
`osCreateDeadlineTask` and `osSetDeadline` make on their success paths, before
any test of `running_task`. -/
def current_task_index (m : Machine) : Nat := m.kernel_config.running_task

/-- The function `osYield`: the running task's `remaining_time` is reset to
its `deadline` and PendSV is pended.  `none` stands for a write to `TCBS`
outside its 16 entries. -/
def osYield (m : Machine) : Option Machine :=
  let k := m.kernel_config
  if k.is_running = FALSE ∨ k.running_task = TID_DORMANT then some m
  else if k.running_task < MAX_TASKS then
    let k1 := setTCB k k.running_task
      { k.TCBS k.running_task with remaining_time := (k.TCBS k.running_task).deadline }
    some { m with kernel_config := k1, PENDSVSET := true }
  else none

/-! ## The left spine of the buddy tree

The allocation of a smallest block from a fresh heap splits the blocks that
start at `heap_start` on every level; the predicates below describe the
states on the way down and on the way back up. -/

/-- The bit array in which exactly the nodes `2 ^ j - 1` with `j < n`, the
leftmost nodes of the levels below `n`, are marked. -/
def spineBits : Nat → Nat → Nat
  | 0, _ => 0
  | n + 1, i => if i = 2 ^ n - 1 then 1 else spineBits n i

/-- The address of the second block of level `j`, the buddy of the block at
`heap_start`. -/
def buddyAddr (hs j : Nat) : Nat := hs + 2 ^ (15 - j)

/-- The headers of the buddies of the levels 1..`n` as `split_node` leaves
them: `level_pos` 1, no successor, and the block at `heap_start` as
predecessor. -/
def BuddyHdrs (hs : Nat) (mem : Nat → Nat) (n : Nat) : Prop :=
  ∀ j, 1 ≤ j → j ≤ n →
    get_level_pos mem (buddyAddr hs j) = 1 ∧ get_next mem (buddyAddr hs j) = NULL ∧
    get_prev mem (buddyAddr hs j) = hs

/-- The state after `l` calls of `split_node` down the left spine of a fresh
heap at `hs`: the block at `hs` is the head of `free_list[l]`, its buddies of
the levels below `l` are on their lists and the one of level `l` follows it. -/
def SplitInv (hs l : Nat) (s : KMem) : Prop :=
  s.init_called = 1 ∧ s.heap_start = hs ∧ s.free_list l = hs ∧
  (∀ j, j < l → s.free_list j = if j = 0 then NULL else buddyAddr hs j) ∧
  (∀ j, l < j → j ≤ 10 → s.free_list j = NULL) ∧
  (∀ i, s.bitarray i = if l = 0 then 0 else spineBits (l + 1) i) ∧
  get_level_pos s.mem hs = 0 ∧
  get_next s.mem hs = (if l = 0 then NULL else buddyAddr hs l) ∧
  BuddyHdrs hs s.mem l

/-- The state on the way back up at level `n`: the buddies of the levels
1..`n` are on their free lists, every other list is empty, and the bit array
is `bits`. -/
def SpineInv (hs n : Nat) (bits : Nat → Nat) (s : KMem) : Prop :=
  s.init_called = 1 ∧ s.heap_start = hs ∧ s.free_list 0 = NULL ∧
  (∀ j, 1 ≤ j → j ≤ n → s.free_list j = buddyAddr hs j) ∧
  (∀ j, n < j → j ≤ 10 → s.free_list j = NULL) ∧
  (∀ i, s.bitarray i = bits i) ∧ BuddyHdrs hs s.mem n

/-- The states around the two smallest blocks at `hs` and `hs + 32`: the
buddies of the levels 1..9 are on their free lists, `free_list[10]` is `top`
and the bit array is `bits`. -/
def LeafInv (hs top : Nat) (bits : Nat → Nat) (s : KMem) : Prop :=
  s.init_called = 1 ∧ s.heap_start = hs ∧ s.free_list 0 = NULL ∧
  (∀ j, 1 ≤ j → j ≤ 9 → s.free_list j = buddyAddr hs j) ∧
  s.free_list 10 = top ∧ (∀ i, s.bitarray i = bits i) ∧ BuddyHdrs hs s.mem 9

/-- The header at `p` is that of a block allocated by the task `tid`. -/
def AllocatedBy (mem : Nat → Nat) (p tid : Nat) : Prop :=
  get_secret_key mem p = METADATA_SECRET_KEY ∧ get_is_allocated mem p = 1 ∧
  get_task_tid mem p = tid

/-- The heap at `hs` with nothing allocated: the whole heap is the one block
of `free_list[0]`, the other lists are empty and no bit is set. -/
def WholeHeapFree (hs : Nat) (s : KMem) : Prop :=
  s.heap_start = hs ∧ s.free_list 0 = hs ∧ get_next s.mem hs = NULL ∧
  (∀ j, 1 ≤ j → j ≤ 10 → s.free_list j = NULL) ∧ ∀ i, s.bitarray i = 0

/-- The operations of a run. -/
inductive KernelOp where
  | tick : KernelOp
  | yield : KernelOp
  | sleep (timeInMs : Int) : KernelOp
  | periodYield : KernelOp
  | setDeadline (deadline : Int) (TID : Nat) : KernelOp
  | switch : KernelOp
deriving DecidableEq, Repr

/-- One operation of a run on the machine; `none` when the operation writes
outside `TCBS`. -/
def stepOp (op : KernelOp) (m : Machine) : Option Machine :=
  match op with
  | .tick => some (SysTick_Handler m)
  | .yield => osYield m
  | .sleep timeInMs => osSleep m timeInMs
  | .periodYield => osPeriodYield m
  | .setDeadline deadline TID => some (osSetDeadline m deadline TID).2
  | .switch => new_task m

/-- The record of the value each slot was last put to sleep with: `osSleep`
with a positive argument stores its argument (as `U32`) and `osPeriodYield`
stores the `remaining_time` of the running task in `remaining_sleep_time`; both
are recorded for the slot `running_task`. -/
def sleepStart (op : KernelOp) (m : Machine) (g : Nat → Nat) : Nat → Nat :=
  match op with
  | .sleep timeInMs =>
    if 0 < timeInMs then
      fun j => if j = m.kernel_config.running_task then toU32 timeInMs else g j
    else g
  | .periodYield =>
    fun j => if j = m.kernel_config.running_task
      then (m.kernel_config.TCBS m.kernel_config.running_task).remaining_time else g j
  | _ => g

/-- The machine after the operations `ops`, with the record of the values the
slots were put to sleep with. -/
def runKernelOps : List KernelOp → Machine → (Nat → Nat) → Option (Machine × (Nat → Nat))
  | [], m, g => some (m, g)
  | op :: rest, m, g =>
    match stepOp op m with
    | none => none
    | some m1 => runKernelOps rest m1 (sleepStart op m g)

/-- The bounds on the counters of a control block: `deadline` is a positive
`U32`, `remaining_time` is at most `deadline`, and while the block is SLEEPING
its `remaining_sleep_time` is at most `b`. -/
def CounterInv (t : TCB) (b : Nat) : Prop :=
  1 ≤ t.deadline ∧ t.deadline < 4294967296 ∧ t.remaining_time ≤ t.deadline ∧
    (t.state = SLEEPING → t.remaining_sleep_time ≤ b)

/-- The counters of `t1`, the block `t` one tick later, come from those of `t`
without a wrap: `remaining_time` is unchanged, one less, the deadline, or one
less than the deadline, and `remaining_sleep_time` is unchanged or one less. -/
def TickNoWrap (t t1 : TCB) : Prop :=
  (t1.remaining_time = t.remaining_time ∨ t1.remaining_time + 1 = t.remaining_time ∨
    t1.remaining_time = t.deadline ∨ t1.remaining_time + 1 = t.deadline) ∧
  (t1.remaining_sleep_time = t.remaining_sleep_time ∨
    t1.remaining_sleep_time + 1 = t.remaining_sleep_time)

/-! ## Example kernel states -/

/-- A control block as `osKernelInit` leaves it. -/
def tcbInit : TCB :=
  { ptask := 0, tid := TID_DORMANT, state := TASK_DORMANT, stack_size := 16384, stack_high := 0,
    SP := 0, p_stack_mem := 0, remaining_sleep_time := 4294967295, deadline := 4294967295,
    remaining_time := 4294967295 }

/-- A table with three READY user tasks: slot 1 has 7 ms left, slots 2 and 3
have 5 ms left. -/
def kThreeReady : KERNEL_CONFIG :=
  { TCBS := fun i =>
      if i = 1 then { tcbInit with tid := 1, state := READY, deadline := 9, remaining_time := 7 }
      else if i = 2 then { tcbInit with tid := 2, state := READY, deadline := 5, remaining_time := 5 }
      else if i = 3 then { tcbInit with tid := 3, state := READY, deadline := 8, remaining_time := 5 }
      else tcbInit,
    num_running_tasks := 3, is_running := 1, running_task := TID_DORMANT }

/-- A table whose only non-dormant user slot is slot 1, which is RUNNING. -/
def kOneRunning : KERNEL_CONFIG :=
  { TCBS := fun i =>
      if i = 1 then { tcbInit with tid := 1, state := RUNNING, deadline := 10, remaining_time := 10 }
      else tcbInit,
    num_running_tasks := 1, is_running := 1, running_task := 1 }

/-- A table whose only non-dormant user slot is slot 1, which is SLEEPING. -/
def kOneSleeping : KERNEL_CONFIG :=
  { TCBS := fun i =>
      if i = 1 then { tcbInit with tid := 1, state := SLEEPING, deadline := 10,
                                   remaining_time := 10, remaining_sleep_time := 0 }
      else tcbInit,
    num_running_tasks := 1, is_running := 1, running_task := 0 }

/-- A machine in which user task 1 is running. -/
def mOneRunning : Machine := { kernel_config := kOneRunning, PENDSVSET := false, PSP := 0 }

/-! ## Example allocator states -/

/-- The kernel state right after `osKernelInit`: every slot dormant, the
kernel marked running, no task dispatched. -/
def kInit : KERNEL_CONFIG :=
  { TCBS := fun _ => tcbInit, num_running_tasks := 0, is_running := 1,
    running_task := TID_DORMANT }

/-- The globals of `k_mem.c` at program start (zero initialised), over a
memory that holds zeros. -/
def memZero : KMem :=
  { init_called := 0, bitarray := fun _ => 0, free_list := fun _ => 0, heap_start := 0,
    mem := fun _ => 0 }

/-- An address for the linker symbol `_img_end` (0x20010000). -/
def HEAP : Nat := 536936448

/-- The allocator right after the first (successful) call of `k_mem_init`. -/
def memInit : KMem := (k_mem_init kInit memZero HEAP).2

/-- A call of the allocator interface. -/
inductive MemOp where
  | alloc (size : Nat)
  | dealloc (ptr : Nat)

/-- A sequence of `k_mem_alloc` and `k_mem_dealloc` calls made by the running
task of `k`; the returned values are dropped. -/
def runOps (k : KERNEL_CONFIG) : KMem → List MemOp → Option KMem
  | s, [] => some s
  | s, MemOp.alloc n :: r =>
    match k_mem_alloc k s n with
    | none => none
    | some (_, s1) => runOps k s1 r
  | s, MemOp.dealloc p :: r =>
    match k_mem_dealloc k s p with
    | none => none
    | some (_, s1) => runOps k s1 r

/-- Calls made by task 1 on a fresh heap.  Six 88-byte requests return the six
64-byte blocks at offsets 0, 64, ..., 320 (pointers at offset + 24); the blocks
at 320, 192 and 64 are freed; two 56-byte requests split the block at 64 into
the 32-byte blocks at 64 and 96 and return both; the block at 64 is freed, then
the 64-byte block at 128, then a 56-byte request takes the block at 64 again. -/
def opsStaleLink : List MemOp :=
  [.alloc 88, .alloc 88, .alloc 88, .alloc 88, .alloc 88, .alloc 88,
   .dealloc (HEAP + 344), .dealloc (HEAP + 216), .dealloc (HEAP + 88),
   .alloc 56, .alloc 56, .dealloc (HEAP + 88), .dealloc (HEAP + 152), .alloc 56]

/-- The allocator state after `opsStaleLink`. -/
def memStaleLink : Option KMem := runOps kOneRunning memInit opsStaleLink

/-- One more 56-byte request by task 1 after `opsStaleLink`: the returned
pointer and the state. -/
def memWrongLevel : Option (Nat × KMem) :=
  memStaleLink.bind (fun s => k_mem_alloc kOneRunning s 56)

/-- Task 1 frees the pointer it has just been given. -/
def memFreedOnce : Option (Int × KMem) :=
  memWrongLevel.bind (fun r => k_mem_dealloc kOneRunning r.2 r.1)

/-- Task 1 frees the same pointer a second time. -/
def memFreedTwice : Option (Int × KMem) :=
  memFreedOnce.bind (fun r => k_mem_dealloc kOneRunning r.2 (HEAP + 344))

/-! ## Example systems -/

/-- A zero-initialised control block. -/
def tcbZero : TCB :=
  { ptask := 0, tid := 0, state := 0, stack_size := 0, stack_high := 0, SP := 0,
    p_stack_mem := 0, remaining_sleep_time := 0, deadline := 0, remaining_time := 0 }

/-- The kernel state at program start: `kernel_config` is zero-initialised. -/
def kZero : KERNEL_CONFIG :=
  { TCBS := fun _ => tcbZero, num_running_tasks := 0, is_running := 0, running_task := 0 }

/-- A kernel state is still zero-initialised: `osKernelInit` has not run. -/
def KernelZero (k : KERNEL_CONFIG) : Prop :=
  (∀ i, i < MAX_TASKS → k.TCBS i = tcbZero) ∧ k.num_running_tasks = 0 ∧ k.is_running = 0 ∧
    k.running_task = 0

/-- An address for the idle function `null_task` (0x080000C1). -/
def NULL_TASK_ADDR : Nat := 134217921

/-- The kernel state and the memory after `osKernelInit` at program start,
over a memory that holds zeros. -/
def bootKernel : KERNEL_CONFIG × (Nat → Nat) := osKernelInit kZero (fun _ => 0) NULL_TASK_ADDR

/-- The machine after `osKernelInit`. -/
def mBoot : Machine := { kernel_config := bootKernel.1, PENDSVSET := false, PSP := 0 }

/-- The allocator after `osKernelInit` and `k_mem_init`. -/
def memBoot : KMem := (k_mem_init bootKernel.1 { memZero with mem := bootKernel.2 } HEAP).2

/-- A caller's `TCB` as `main` fills it: an entry address (0x08000111) and the
minimal stack size. -/
def taskA : TCB := { tcbZero with ptask := 134218001, stack_size := 512 }

/-- A caller's `TCB` that asks for a stack of 40000 bytes, more than the heap
holds. -/
def taskBig : TCB := { tcbZero with ptask := 134218001, stack_size := 40000 }

/-- The system after `osKernelInit`, `k_mem_init` and one
`osCreateDeadlineTask(4, &taskA)`. -/
def sysOneTask : Option CreateResult := osCreateDeadlineTask mBoot memBoot 4 (some taskA)

/-- The result `sysOneTask` of the first `osCreateDeadlineTask(4, &taskA)`
(the machine after `osKernelInit` with `RTX_ERR` if the call has no result). -/
def oneTaskResult : CreateResult :=
  sysOneTask.getD { ret := RTX_ERR, machine := mBoot, kmem := memBoot, task := none }

/-- The codes and the state after fifteen calls `osCreateTask(&taskA)` that
follow `osKernelInit` and `k_mem_init`. -/
def fifteenTasks : List Int × Machine × KMem :=
  (osCreateTask_seq (List.replicate 15 taskA) mBoot memBoot).getD ([], mBoot, memBoot)

/-- The system after a second `osCreateDeadlineTask(4, &taskA)`. -/
def sysTwoTasks : Option CreateResult :=
  sysOneTask.bind (fun r => osCreateDeadlineTask r.machine r.kmem 4 (some taskA))

/-- A boot memory whose word at address 0, the initial main stack pointer, is
`HEAP + 4120`: the main stack lies inside the 32 KiB that follow `_img_end`. -/
def bootMemLowStack : Nat → Nat := write32 (fun _ => 0) 0 (HEAP + 4120)

/-- The kernel state and the memory after `osKernelInit` over `bootMemLowStack`. -/
def bootKernelLowStack : KERNEL_CONFIG × (Nat → Nat) :=
  osKernelInit kZero bootMemLowStack NULL_TASK_ADDR

/-- The allocator after `osKernelInit`, `k_mem_init` and a `k_mem_alloc(56)`
made by `main` before any task is dispatched (the owner tag is 0). -/
def memLowStack : Option (Nat × KMem) :=
  k_mem_alloc bootKernelLowStack.1
    (k_mem_init bootKernelLowStack.1 { memZero with mem := bootKernelLowStack.2 } HEAP).2 56

/-- The machine of `bootKernelLowStack` once the idle task has been dispatched. -/
def mIdleRunning : Machine :=
  { kernel_config := { bootKernelLowStack.1 with running_task := 0 }, PENDSVSET := false,
    PSP := 0 }

/-- The machine after `osKernelInit` once the idle task has been dispatched. -/
def mBootIdle : Machine :=
  { kernel_config := { bootKernel.1 with running_task := 0 }, PENDSVSET := false, PSP := 0 }

/-- A machine in which user task 1 runs with deadline 10 and 9 ms left, as
after a wake-up by the tick handler. -/
def mPeriodic : Machine :=
  { kernel_config := setTCB kOneRunning 1 { kOneRunning.TCBS 1 with remaining_time := 9 },
    PENDSVSET := false, PSP := 0 }

/-- The allocator inside the first `osCreateDeadlineTask(4, &taskA)`, right
after its call `k_mem_alloc(512)` and before the stack frame is written. -/
def memStackAlloc : Option (Nat × KMem) :=
  k_mem_alloc (setTCB mBoot.kernel_config 1 { taskA with tid := 1 }) memBoot 512

/-- The system of `sysOneTask` after `osKernelStart`: the returned code and the
machine, in which task 1 runs. -/
def sysOneStarted : Option (Int × Machine) :=
  sysOneTask.bind (fun r => osKernelStart r.machine)

/-- Task 1 of `sysOneStarted` calls `osTaskExit`. -/
def sysOneExited : Option (Int × Machine × KMem) :=
  sysOneTask.bind (fun r => (osKernelStart r.machine).bind (fun q => osTaskExit q.2 r.kmem))

/-- The system of `sysTwoTasks` after `osKernelStart`. -/
def sysTwoStarted : Option (Int × Machine) :=
  sysTwoTasks.bind (fun r => osKernelStart r.machine)

/-- A second call of `osKernelStart`, made while task 1 of `sysTwoStarted`
runs. -/
def sysTwoStartedTwice : Option (Int × Machine) :=
  sysTwoStarted.bind (fun r => osKernelStart r.2)

/-- The states of the 16 slots of a table. -/
def slot_states (k : KERNEL_CONFIG) : List Nat :=
  (List.range MAX_TASKS).map (fun i => (k.TCBS i).state)

/-- A machine with the three READY tasks of `kThreeReady` and no task
dispatched yet. -/
def mThreeReady : Machine := { kernel_config := kThreeReady, PENDSVSET := false, PSP := 0 }

/-- The machine of `sysOneStarted`: one task created, then `osKernelStart`. -/
def mOneStarted : Machine := (sysOneStarted.map Prod.snd).getD mBoot

/-- What `osTaskExit`, called by task 1 of `mOneStarted`, leaves behind
(`RTX_ERR` and the boot state if the call has no result). -/
def oneExitResult : Int × Machine × KMem :=
  (osTaskExit mOneStarted oneTaskResult.kmem).getD (RTX_ERR, mBoot, memBoot)

/-- The machine of `sysTwoStarted`: two tasks with deadline 4 created, then
`osKernelStart`, which dispatches task 1. -/
def mTwoStarted : Machine := (sysTwoStarted.map Prod.snd).getD mBoot

/-- A run from `mTwoStarted`: task 1 gives task 2 the deadline 6, sleeps for
2 ms and is switched out for task 2; three ticks later it is READY again;
task 2 yields, gives task 1 the deadline 3 and ends its period; the handler
switches to task 1; one more tick. -/
def opsCounters : List KernelOp :=
  [.setDeadline 6 2, .tick, .sleep 2, .switch, .tick, .tick, .tick, .yield, .setDeadline 3 1,
    .periodYield, .switch, .tick]

/-- Task 1 of `sysOneStarted`, while it runs, creates a second task with the
deadline `INT_MAX`: `osCreateDeadlineTask(INT_MAX, &taskA)`. -/
def sysLateTask : Option CreateResult :=
  sysOneTask.bind (fun r => (osKernelStart r.machine).bind (fun q =>
    osCreateDeadlineTask q.2 r.kmem 2147483647 (some taskA)))

/-- Task 1 then calls `osSleep(5)`; the machine on which the PendSV handler
runs `new_task`. -/
def sysSleepBeforeSwitch : Option Machine :=
  sysLateTask.bind (fun c => osSleep c.machine 5)

/-! ## Properties of the scheduler -/

theorem scheduler_loop_succ (k : KERNEL_CONFIG) (n : Nat) :
    scheduler_loop k (n + 1) = scheduler_body k (scheduler_loop k n) (n + 1) := by
  unfold scheduler_loop
  rw [List.range'_concat, List.foldl_append]
  simp [Nat.add_comm]

theorem toU32_of_nonneg (x : Int) (h0 : 0 ≤ x) (h1 : x ≤ INT_MAX) : toU32 x = x.toNat := by
  unfold toU32
  unfold INT_MAX at h1
  rw [Int.emod_eq_of_lt h0 (by omega)]

theorem toS32_of_small (x : Nat) (h : (x : Int) < INT_MAX) : toS32 x = (x : Int) := by
  unfold INT_MAX at h
  unfold toS32
  have hx : x % 4294967296 = x := Nat.mod_eq_of_lt (by omega)
  rw [hx]
  have : x < 2147483648 := by omega
  simp [this]

theorem schedInv_step (k : KERNEL_CONFIG) (n : Nat) (v : SchedVars)
    (hlt : (k.TCBS (n + 1)).state = READY → ((k.TCBS (n + 1)).remaining_time : Int) < INT_MAX)
    (hv : SchedInv k n v) : SchedInv k (n + 1) (scheduler_body k v (n + 1)) := by
  obtain ⟨⟨h0, h1⟩, hcase⟩ := hv
  have hU := toU32_of_nonneg v.earliest_deadline h0 h1
  unfold scheduler_body
  by_cases hd : (k.TCBS (n + 1)).state = DORMANT
  · -- a dormant slot changes nothing
    have hnr : (k.TCBS (n + 1)).state ≠ READY := by rw [hd]; decide
    simp only [hd, ne_eq, not_true_eq_false, if_false]
    refine ⟨⟨h0, h1⟩, ?_⟩
    rcases hcase with ⟨he, hno⟩ | ⟨a, b, c, d, e, f, g, h⟩
    · left
      refine ⟨he, fun i hi1 hi2 => ?_⟩
      rcases Nat.lt_or_ge i (n + 1) with hlt1 | hge
      · exact hno i hi1 (by omega)
      · have : i = n + 1 := by omega
        rw [this]; exact hnr
    · right
      refine ⟨a, by omega, c, d, e, f, fun j hj1 hj2 hj3 => ?_, h⟩
      rcases Nat.lt_or_ge j (n + 1) with hlt1 | hge
      · exact g j hj1 (by omega) hj3
      · have : j = n + 1 := by omega
        rw [this] at hj3; exact absurd hj3 hnr
  · simp only [ne_eq, hd, not_false_eq_true, if_true]
    by_cases hr : (k.TCBS (n + 1)).state = READY
    · have hsmall := hlt hr
      have hS := toS32_of_small _ hsmall
      simp only [hr, if_true]
      by_cases hcmp : (k.TCBS (n + 1)).remaining_time < toU32 v.earliest_deadline
      · simp only [hcmp, if_true]
        rw [hU] at hcmp
        have hcmpInt : ((k.TCBS (n + 1)).remaining_time : Int) < v.earliest_deadline := by omega
        unfold SchedInv
        dsimp only
        refine ⟨⟨by rw [hS]; omega, by rw [hS]; omega⟩, Or.inr ?_⟩
        refine ⟨by simp, by simp, by simpa using hr, by simpa using hS, by simp [FALSE],
          by simp [FALSE], ?_, ?_⟩
        · intro j hj1 hj2 hj3
          show (k.TCBS (n + 1)).remaining_time ≤ (k.TCBS j).remaining_time
          rcases Nat.lt_or_ge j (n + 1) with hlt1 | hge
          · rcases hcase with ⟨_, hno⟩ | ⟨_, _, _, d, _, _, g, _⟩
            · exact absurd hj3 (hno j hj1 (by omega))
            · have := g j hj1 (by omega) hj3
              omega
          · have : j = n + 1 := by omega
            rw [this]
        · intro j hj1 hj2 hj3
          show (k.TCBS (n + 1)).remaining_time < (k.TCBS j).remaining_time
          have hj2' : j < n + 1 := hj2
          rcases hcase with ⟨_, hno⟩ | ⟨_, _, _, d, _, _, g, _⟩
          · exact absurd hj3 (hno j hj1 (by omega))
          · have := g j hj1 (by omega) hj3
            omega
      · simp only [hcmp, if_false]
        rw [hU] at hcmp
        refine ⟨⟨h0, h1⟩, ?_⟩
        rcases hcase with ⟨he, _⟩ | ⟨a, b, c, d, e, f, g, h⟩
        · exfalso
          rw [he] at hcmp
          unfold INT_MAX at hcmp hsmall
          omega
        · right
          refine ⟨a, by simp; omega, c, d, by simp [FALSE], by simp [FALSE], ?_, h⟩
          intro j hj1 hj2 hj3
          show (k.TCBS v.next_task).remaining_time ≤ (k.TCBS j).remaining_time
          rcases Nat.lt_or_ge j (n + 1) with hlt1 | hge
          · exact g j hj1 (by omega) hj3
          · have : j = n + 1 := by omega
            rw [this]
            omega
    · -- RUNNING, SLEEPING or any other state value
      have hext : ∀ i, 1 ≤ i → i ≤ n + 1 →
          (∀ i, 1 ≤ i → i ≤ n → (k.TCBS i).state ≠ READY) → (k.TCBS i).state ≠ READY := by
        intro i hi1 hi2 hno
        rcases Nat.lt_or_ge i (n + 1) with hlt1 | hge
        · exact hno i hi1 (by omega)
        · have : i = n + 1 := by omega
          rw [this]; exact hr
      have hextg : ∀ w : Nat, (∀ j, 1 ≤ j → j ≤ n → (k.TCBS j).state = READY →
            w ≤ (k.TCBS j).remaining_time) →
          ∀ j, 1 ≤ j → j ≤ n + 1 → (k.TCBS j).state = READY → w ≤ (k.TCBS j).remaining_time := by
        intro w g j hj1 hj2 hj3
        rcases Nat.lt_or_ge j (n + 1) with hlt1 | hge
        · exact g j hj1 (by omega) hj3
        · have : j = n + 1 := by omega
          rw [this] at hj3; exact absurd hj3 hr
      simp only [hr, if_false]
      by_cases hrun : (k.TCBS (n + 1)).state = RUNNING
      · simp only [hrun, if_true]
        refine ⟨⟨h0, h1⟩, ?_⟩
        rcases hcase with ⟨he, hno⟩ | ⟨a, b, c, d, e, f, g, h⟩
        · exact Or.inl ⟨he, fun i hi1 hi2 => hext i hi1 hi2 hno⟩
        · exact Or.inr ⟨a, by simp; omega, c, d, by simp [FALSE], by simp [FALSE],
            hextg _ g, h⟩
      · simp only [hrun, if_false]
        refine ⟨⟨h0, h1⟩, ?_⟩
        rcases hcase with ⟨he, hno⟩ | ⟨a, b, c, d, e, f, g, h⟩
        · exact Or.inl ⟨he, fun i hi1 hi2 => hext i hi1 hi2 hno⟩
        · exact Or.inr ⟨a, by simp; omega, c, d, e, by simp [FALSE], hextg _ g, h⟩

theorem schedInv_loop (k : KERNEL_CONFIG) (n : Nat)
    (hlt : ∀ i, 1 ≤ i → i ≤ n → (k.TCBS i).state = READY →
      ((k.TCBS i).remaining_time : Int) < INT_MAX) :
    SchedInv k n (scheduler_loop k n) := by
  induction n with
  | zero =>
    have h0 : scheduler_loop k 0 = (⟨TID_DORMANT, INT_MAX, TRUE, TRUE⟩ : SchedVars) := rfl
    rw [h0]
    exact ⟨⟨by decide, by decide⟩, Or.inl ⟨rfl, fun i h1 h2 => by omega⟩⟩
  | succ n ih =>
    rw [scheduler_loop_succ]
    exact schedInv_step k n _ (hlt (n + 1) (by omega) (by omega))
      (ih (fun i h1 h2 => hlt i h1 (by omega)))

theorem scheduler_loop_no_ready_running (k : KERNEL_CONFIG) (n : Nat)
    (h : ∀ i, 1 ≤ i → i ≤ n → (k.TCBS i).state ≠ READY ∧ (k.TCBS i).state ≠ RUNNING) :
    (scheduler_loop k n).all_sleeping = TRUE := by
  induction n with
  | zero => rfl
  | succ n ih =>
    rw [scheduler_loop_succ]
    have ih1 := ih (fun i h1 h2 => h i h1 (by omega))
    obtain ⟨hr, hrun⟩ := h (n + 1) (by omega) (by omega)
    unfold scheduler_body
    by_cases hd : (k.TCBS (n + 1)).state = DORMANT
    · simp only [hd, ne_eq, not_true_eq_false, if_false]
      exact ih1
    · simp only [ne_eq, hd, not_false_eq_true, if_true, hr, hrun, if_false]
      exact ih1

/-! ## The claims about the scheduler -/

/-- C1: when at least one user slot (TID 1..15) is READY and every READY user
slot has `remaining_time` below `INT_MAX`, `scheduler` returns the TID of a
READY user slot whose `remaining_time` is minimal among the READY user slots,
the lowest TID among those of minimal `remaining_time`; the result is not slot
0 and not a DORMANT, SLEEPING or RUNNING slot. -/
theorem scheduler_returns_earliest_ready (k : KERNEL_CONFIG)
    (hex : ∃ i, 1 ≤ i ∧ i < MAX_TASKS ∧ (k.TCBS i).state = READY)
    (hlt : ∀ i, 1 ≤ i → i < MAX_TASKS → (k.TCBS i).state = READY →
      ((k.TCBS i).remaining_time : Int) < INT_MAX) :
    (1 ≤ scheduler k ∧ scheduler k < MAX_TASKS) ∧
    (k.TCBS (scheduler k)).state = READY ∧
    (∀ j, 1 ≤ j → j < MAX_TASKS → (k.TCBS j).state = READY →
      (k.TCBS (scheduler k)).remaining_time ≤ (k.TCBS j).remaining_time) ∧
    (∀ j, 1 ≤ j → j < scheduler k → (k.TCBS j).state = READY →
      (k.TCBS (scheduler k)).remaining_time < (k.TCBS j).remaining_time) ∧
    scheduler k ≠ 0 ∧ (k.TCBS (scheduler k)).state ≠ DORMANT ∧
    (k.TCBS (scheduler k)).state ≠ SLEEPING ∧ (k.TCBS (scheduler k)).state ≠ RUNNING := by
  have hinv := schedInv_loop k (MAX_TASKS - 1)
    (fun i h1 h2 => hlt i h1 (by unfold MAX_TASKS at *; omega))
  obtain ⟨i, hi1, hi2, hi3⟩ := hex
  obtain ⟨_, hcase⟩ := hinv
  rcases hcase with ⟨_, hno⟩ | ⟨a, b, c, d, e, f, g, h⟩
  · exact absurd hi3 (hno i hi1 (by unfold MAX_TASKS at *; omega))
  · have hs : scheduler k = (scheduler_loop k (MAX_TASKS - 1)).next_task := by
      unfold scheduler
      simp [e, f]
    rw [hs]
    refine ⟨⟨a, by unfold MAX_TASKS at *; omega⟩, c,
      fun j hj1 hj2 hj3 => g j hj1 (by unfold MAX_TASKS at *; omega) hj3, h, by omega, ?_, ?_, ?_⟩
    · rw [c]; decide
    · rw [c]; decide
    · rw [c]; decide

theorem scheduler_returns_earliest_ready_witness :
    scheduler kThreeReady = 2 ∧
    (∀ j, 1 ≤ j → j < scheduler kThreeReady → (kThreeReady.TCBS j).state = READY →
      (kThreeReady.TCBS (scheduler kThreeReady)).remaining_time
        < (kThreeReady.TCBS j).remaining_time) :=
  ⟨by decide,
   (scheduler_returns_earliest_ready kThreeReady ⟨1, by decide, by decide, by decide⟩
     (fun i h1 h2 => by
        unfold MAX_TASKS at h2
        interval_cases i <;> decide)).2.2.2.1⟩

/-- C2, as stated, fails: in a table whose only non-dormant user slot is
RUNNING no user slot is READY, yet `scheduler` returns the sentinel
`TID_DORMANT` (0xFFFFFFFF) and not 0. -/
theorem scheduler_no_ready_not_idle :
    (∀ i, 1 ≤ i → i < MAX_TASKS → (kOneRunning.TCBS i).state ≠ READY) ∧
    scheduler kOneRunning = TID_DORMANT ∧ scheduler kOneRunning ≠ 0 := by
  refine ⟨fun i h1 h2 => ?_, by decide, by decide⟩
  unfold MAX_TASKS at h2
  interval_cases i <;> decide

/-- C2 (amended): when no user slot (TID 1..15) is READY and none is RUNNING,
`scheduler` returns 0, the TID of the idle task. -/
theorem scheduler_idle_when_none_ready_or_running (k : KERNEL_CONFIG)
    (h : ∀ i, 1 ≤ i → i < MAX_TASKS →
      (k.TCBS i).state ≠ READY ∧ (k.TCBS i).state ≠ RUNNING) :
    scheduler k = 0 := by
  have hs := scheduler_loop_no_ready_running k (MAX_TASKS - 1)
    (fun i h1 h2 => h i h1 (by unfold MAX_TASKS at *; omega))
  unfold scheduler
  simp [hs, TRUE]

theorem scheduler_idle_when_none_ready_or_running_witness : scheduler kOneSleeping = 0 :=
  scheduler_idle_when_none_ready_or_running kOneSleeping (fun i h1 h2 => by
    unfold MAX_TASKS at h2
    interval_cases i <;> decide)

/-! ## Properties of the tick handler -/

theorem SysTick_body_TCBS (k : KERNEL_CONFIG) (i j : Nat) :
    (SysTick_body k i).TCBS j = if j = i then SysTick_slot (k.TCBS i) else k.TCBS j := by
  unfold SysTick_body SysTick_slot setTCB
  dsimp only
  by_cases hji : j = i
  · subst hji
    simp only [if_true]
    split_ifs <;> first | rfl | (exfalso; omega) | simp_all
  · simp only [hji, if_false]
    split_ifs <;> simp [hji]

theorem SysTick_body_globals (k : KERNEL_CONFIG) (i : Nat) :
    (SysTick_body k i).num_running_tasks = k.num_running_tasks ∧
    (SysTick_body k i).is_running = k.is_running ∧
    (SysTick_body k i).running_task = k.running_task := by
  unfold SysTick_body setTCB
  dsimp only
  split_ifs <;> exact ⟨rfl, rfl, rfl⟩

theorem SysTick_loop_succ (k : KERNEL_CONFIG) (n : Nat) :
    SysTick_loop k (n + 1) = SysTick_body (SysTick_loop k n) (n + 1) := by
  unfold SysTick_loop
  rw [List.range'_concat, List.foldl_append]
  simp [Nat.add_comm]

theorem SysTick_loop_TCBS (k : KERNEL_CONFIG) (n j : Nat) :
    (SysTick_loop k n).TCBS j =
      if 1 ≤ j ∧ j ≤ n then SysTick_slot (k.TCBS j) else k.TCBS j := by
  induction n generalizing j with
  | zero =>
    have : ¬ (1 ≤ j ∧ j ≤ 0) := by omega
    simp only [this, if_false]
    rfl
  | succ n ih =>
    rw [SysTick_loop_succ, SysTick_body_TCBS]
    by_cases hj : j = n + 1
    · subst hj
      have h1 : ¬ (1 ≤ n + 1 ∧ n + 1 ≤ n) := by omega
      have h2 : (1 ≤ n + 1 ∧ n + 1 ≤ n + 1) := by omega
      rw [ih (n + 1), if_neg h1, if_pos h2]
      simp
    · simp only [hj, if_false]
      rw [ih]
      by_cases hc : 1 ≤ j ∧ j ≤ n
      · have : 1 ≤ j ∧ j ≤ n + 1 := by omega
        simp only [hc, this, if_true]
      · have : ¬ (1 ≤ j ∧ j ≤ n + 1) := by omega
        simp only [hc, this, if_false]

theorem SysTick_loop_globals (k : KERNEL_CONFIG) (n : Nat) :
    (SysTick_loop k n).num_running_tasks = k.num_running_tasks ∧
    (SysTick_loop k n).is_running = k.is_running ∧
    (SysTick_loop k n).running_task = k.running_task := by
  induction n with
  | zero => exact ⟨rfl, rfl, rfl⟩
  | succ n ih =>
    rw [SysTick_loop_succ]
    obtain ⟨a, b, c⟩ := SysTick_body_globals (SysTick_loop k n) (n + 1)
    obtain ⟨a1, b1, c1⟩ := ih
    exact ⟨a.trans a1, b.trans b1, c.trans c1⟩

theorem ContextSwitch_kernel_config (m : Machine) :
    (ContextSwitch m).kernel_config = m.kernel_config ∧ (ContextSwitch m).PSP = m.PSP := by
  unfold ContextSwitch
  split_ifs <;> exact ⟨rfl, rfl⟩

theorem SysTick_Handler_kernel_config (m : Machine) (hrun : m.kernel_config.is_running ≠ 0) :
    (SysTick_Handler m).kernel_config = SysTick_loop m.kernel_config (MAX_TASKS - 1) ∧
    (SysTick_Handler m).PSP = m.PSP := by
  unfold SysTick_Handler
  rw [if_neg hrun]
  generalize SysTick_loop m.kernel_config (MAX_TASKS - 1) = k1
  obtain ⟨h1, h2⟩ := ContextSwitch_kernel_config { m with kernel_config := k1 }
  exact ⟨h1, h2⟩

theorem SysTick_Handler_TCBS (m : Machine) (hrun : m.kernel_config.is_running ≠ 0) (j : Nat) :
    (SysTick_Handler m).kernel_config.TCBS j =
      if 1 ≤ j ∧ j < MAX_TASKS then SysTick_slot (m.kernel_config.TCBS j)
      else m.kernel_config.TCBS j := by
  rw [(SysTick_Handler_kernel_config m hrun).1, SysTick_loop_TCBS]
  unfold MAX_TASKS
  by_cases hc : 1 ≤ j ∧ j ≤ 16 - 1
  · have : 1 ≤ j ∧ j < 16 := by omega
    rw [if_pos hc, if_pos this]
  · have : ¬ (1 ≤ j ∧ j < 16) := by omega
    rw [if_neg hc, if_neg this]

theorem SysTick_slot_deadline (t : TCB) : (SysTick_slot t).deadline = t.deadline := by
  unfold SysTick_slot
  split_ifs <;> rfl

theorem subU32_one (d : Nat) (h1 : 1 ≤ d) (h2 : d < 4294967296) : subU32 d 1 = d - 1 := by
  unfold subU32
  omega

/-- While a slot sleeps with `s` ticks of sleep left, `n ≤ s` tick-handler
invocations leave it SLEEPING with `s - n` ticks left. -/
theorem ticks_keep_sleeping (m : Machine) (r s : Nat) (n : Nat)
    (hrun : m.kernel_config.is_running ≠ 0) (hr1 : 1 ≤ r) (hr2 : r < MAX_TASKS)
    (hst : (m.kernel_config.TCBS r).state = SLEEPING)
    (hs : (m.kernel_config.TCBS r).remaining_sleep_time = s) (hn : n ≤ s) :
    (ticks n m).kernel_config.is_running ≠ 0 ∧
    ((ticks n m).kernel_config.TCBS r).state = SLEEPING ∧
    ((ticks n m).kernel_config.TCBS r).remaining_sleep_time = s - n ∧
    ((ticks n m).kernel_config.TCBS r).deadline = (m.kernel_config.TCBS r).deadline := by
  induction n with
  | zero => exact ⟨hrun, hst, by simpa using hs, rfl⟩
  | succ n ih =>
    obtain ⟨a, b, c, d⟩ := ih (by omega)
    have hT := SysTick_Handler_TCBS (ticks n m) a r
    rw [if_pos ⟨hr1, hr2⟩] at hT
    have hK := (SysTick_Handler_kernel_config (ticks n m) a).1
    have hslot : SysTick_slot ((ticks n m).kernel_config.TCBS r) =
        { (ticks n m).kernel_config.TCBS r with remaining_sleep_time := s - n - 1 } := by
      unfold SysTick_slot
      have h1 : ¬ (((ticks n m).kernel_config.TCBS r).state = TASK_READY ∨
          ((ticks n m).kernel_config.TCBS r).state = TASK_RUNNING) := by
        rw [b]; decide
      have h2 : ((ticks n m).kernel_config.TCBS r).state = TASK_SLEEPING := b
      have h3 : ¬ ((ticks n m).kernel_config.TCBS r).remaining_sleep_time = 0 := by omega
      rw [if_neg h1, if_pos h2, if_neg h3, c]
    show (SysTick_Handler (ticks n m)).kernel_config.is_running ≠ 0 ∧
      ((SysTick_Handler (ticks n m)).kernel_config.TCBS r).state = SLEEPING ∧
      ((SysTick_Handler (ticks n m)).kernel_config.TCBS r).remaining_sleep_time = s - (n + 1) ∧
      ((SysTick_Handler (ticks n m)).kernel_config.TCBS r).deadline =
        (m.kernel_config.TCBS r).deadline
    rw [hT, hslot]
    refine ⟨?_, b, by simp; omega, d⟩
    rw [hK, (SysTick_loop_globals _ _).2.1]
    exact a

/-- A tick-handler invocation on a slot that sleeps with no ticks of sleep
left makes it READY with `remaining_time = deadline - 1` (in `U32`). -/
theorem tick_wakes_sleeper (m : Machine) (r : Nat)
    (hrun : m.kernel_config.is_running ≠ 0) (hr1 : 1 ≤ r) (hr2 : r < MAX_TASKS)
    (hst : (m.kernel_config.TCBS r).state = SLEEPING)
    (hs : (m.kernel_config.TCBS r).remaining_sleep_time = 0) :
    ((SysTick_Handler m).kernel_config.TCBS r).state = READY ∧
    ((SysTick_Handler m).kernel_config.TCBS r).remaining_time =
      subU32 (m.kernel_config.TCBS r).deadline 1 := by
  have hT := SysTick_Handler_TCBS m hrun r
  rw [if_pos ⟨hr1, hr2⟩] at hT
  rw [hT]
  unfold SysTick_slot
  have h1 : ¬ ((m.kernel_config.TCBS r).state = TASK_READY ∨
      (m.kernel_config.TCBS r).state = TASK_RUNNING) := by
    rw [hst]; decide
  have h2 : (m.kernel_config.TCBS r).state = TASK_SLEEPING := hst
  rw [if_neg h1, if_pos h2, if_pos hs]
  exact ⟨rfl, rfl⟩

/-! ## The claims about the tick handler and `osSleep` -/

/-- C3: one invocation of the tick handler while the kernel is running changes
each user slot `i` in 1..15 as follows and nothing else.  READY or RUNNING:
`remaining_time` becomes `deadline` when it was 0 and `remaining_time - 1`
otherwise.  SLEEPING with `remaining_sleep_time > 0`: `remaining_sleep_time`
is decremented.  SLEEPING with `remaining_sleep_time = 0`: the state becomes
READY and `remaining_time` becomes `deadline - 1` (computed in `U32`; it is the
number `deadline - 1` for every deadline from 1 to 2^32 - 1).  DORMANT slots
(and slots holding no state value at all), slot 0, every `deadline` field,
`running_task`, `num_running_tasks`, `is_running` and the process stack
pointer are unchanged. -/
theorem SysTick_Handler_effect (m : Machine) (hrun : m.kernel_config.is_running ≠ 0) :
    (∀ i, 1 ≤ i → i < MAX_TASKS →
      (((m.kernel_config.TCBS i).state = READY ∨ (m.kernel_config.TCBS i).state = RUNNING) →
        (SysTick_Handler m).kernel_config.TCBS i =
          { m.kernel_config.TCBS i with
            remaining_time :=
              if (m.kernel_config.TCBS i).remaining_time = 0
              then (m.kernel_config.TCBS i).deadline
              else (m.kernel_config.TCBS i).remaining_time - 1 }) ∧
      ((m.kernel_config.TCBS i).state = SLEEPING →
        0 < (m.kernel_config.TCBS i).remaining_sleep_time →
        (SysTick_Handler m).kernel_config.TCBS i =
          { m.kernel_config.TCBS i with
            remaining_sleep_time := (m.kernel_config.TCBS i).remaining_sleep_time - 1 }) ∧
      ((m.kernel_config.TCBS i).state = SLEEPING →
        (m.kernel_config.TCBS i).remaining_sleep_time = 0 →
        (SysTick_Handler m).kernel_config.TCBS i =
          { m.kernel_config.TCBS i with
            state := READY, remaining_time := subU32 (m.kernel_config.TCBS i).deadline 1 } ∧
        (1 ≤ (m.kernel_config.TCBS i).deadline →
          (m.kernel_config.TCBS i).deadline < 4294967296 →
          ((SysTick_Handler m).kernel_config.TCBS i).remaining_time =
            (m.kernel_config.TCBS i).deadline - 1)) ∧
      ((m.kernel_config.TCBS i).state = DORMANT →
        (SysTick_Handler m).kernel_config.TCBS i = m.kernel_config.TCBS i) ∧
      ((m.kernel_config.TCBS i).state ≠ READY → (m.kernel_config.TCBS i).state ≠ RUNNING →
        (m.kernel_config.TCBS i).state ≠ SLEEPING →
        (SysTick_Handler m).kernel_config.TCBS i = m.kernel_config.TCBS i)) ∧
    (SysTick_Handler m).kernel_config.TCBS 0 = m.kernel_config.TCBS 0 ∧
    (∀ i, MAX_TASKS ≤ i →
      (SysTick_Handler m).kernel_config.TCBS i = m.kernel_config.TCBS i) ∧
    (∀ i, ((SysTick_Handler m).kernel_config.TCBS i).deadline =
      (m.kernel_config.TCBS i).deadline) ∧
    (SysTick_Handler m).kernel_config.running_task = m.kernel_config.running_task ∧
    (SysTick_Handler m).kernel_config.num_running_tasks = m.kernel_config.num_running_tasks ∧
    (SysTick_Handler m).kernel_config.is_running = m.kernel_config.is_running ∧
    (SysTick_Handler m).PSP = m.PSP := by
  have hK := SysTick_Handler_kernel_config m hrun
  have hG := SysTick_loop_globals m.kernel_config (MAX_TASKS - 1)
  refine ⟨fun i hi1 hi2 => ?_, ?_, fun i hi => ?_, fun i => ?_, ?_, ?_, ?_, hK.2⟩
  · have hT := SysTick_Handler_TCBS m hrun i
    rw [if_pos ⟨hi1, hi2⟩] at hT
    rw [hT]
    generalize m.kernel_config.TCBS i = t
    refine ⟨fun h => ?_, fun h1 h2 => ?_, fun h1 h2 => ?_, fun h => ?_, fun h1 h2 h3 => ?_⟩
    · unfold SysTick_slot
      have hp : t.state = TASK_READY ∨ t.state = TASK_RUNNING := h
      rw [if_pos hp]
      split_ifs <;> rfl
    · unfold SysTick_slot
      have hn : ¬ (t.state = TASK_READY ∨ t.state = TASK_RUNNING) := by rw [h1]; decide
      have hp : t.state = TASK_SLEEPING := h1
      have hz : ¬ t.remaining_sleep_time = 0 := by omega
      rw [if_neg hn, if_pos hp, if_neg hz]
    · unfold SysTick_slot
      have hn : ¬ (t.state = TASK_READY ∨ t.state = TASK_RUNNING) := by rw [h1]; decide
      have hp : t.state = TASK_SLEEPING := h1
      rw [if_neg hn, if_pos hp, if_pos h2]
      exact ⟨rfl, fun hd1 hd2 => subU32_one _ hd1 hd2⟩
    · unfold SysTick_slot
      have hn : ¬ (t.state = TASK_READY ∨ t.state = TASK_RUNNING) := by rw [h]; decide
      have hn2 : ¬ t.state = TASK_SLEEPING := by rw [h]; decide
      rw [if_neg hn, if_neg hn2]
    · unfold SysTick_slot
      have hn : ¬ (t.state = TASK_READY ∨ t.state = TASK_RUNNING) := by
        rintro (h | h)
        · exact h1 h
        · exact h2 h
      have hn2 : ¬ t.state = TASK_SLEEPING := h3
      rw [if_neg hn, if_neg hn2]
  · rw [SysTick_Handler_TCBS m hrun 0, if_neg (by omega)]
  · rw [SysTick_Handler_TCBS m hrun i, if_neg (by omega)]
  · rw [SysTick_Handler_TCBS m hrun i]
    split_ifs
    · exact SysTick_slot_deadline _
    · rfl
  · rw [hK.1]; exact hG.2.2
  · rw [hK.1]; exact hG.1
  · rw [hK.1]; exact hG.2.1

/-- C3 at a concrete machine: task 1 is RUNNING with 10 ms left. -/
theorem SysTick_Handler_effect_witness :
    (SysTick_Handler mOneRunning).kernel_config.TCBS 1 =
      { mOneRunning.kernel_config.TCBS 1 with remaining_time := 9 } ∧
    (SysTick_Handler mOneRunning).kernel_config.running_task = 1 :=
  ⟨((SysTick_Handler_effect mOneRunning (by decide)).1 1 (by decide) (by decide)).1
      (Or.inr (by decide)),
   (SysTick_Handler_effect mOneRunning (by decide)).2.2.2.2.1⟩

theorem toU32_of_pos (x : Int) (h0 : 0 < x) (h1 : x ≤ INT_MAX) : toU32 x = x.toNat :=
  toU32_of_nonneg x (le_of_lt h0) h1

/-- The state that `osSleep` produces for a positive argument and a running
task below `MAX_TASKS`. -/
theorem osSleep_result (m : Machine) (ms : Int) (hms : 0 < ms)
    (hr : m.kernel_config.running_task < MAX_TASKS) :
    ∃ m1, osSleep m ms = some m1 ∧
      m1.kernel_config.is_running = m.kernel_config.is_running ∧
      m1.kernel_config.TCBS m.kernel_config.running_task =
        { m.kernel_config.TCBS m.kernel_config.running_task with
          state := SLEEPING, remaining_sleep_time := toU32 ms } := by
  unfold osSleep
  rw [if_neg (by omega), if_pos hr]
  refine ⟨_, rfl, ?_, ?_⟩
  · rw [(ContextSwitch_kernel_config _).1]
    rfl
  · rw [(ContextSwitch_kernel_config _).1]
    simp [setTCB]

/-- C4, as stated, fails: task 1 (deadline 10) calls `osSleep(5)`; after the
fifth tick-handler invocation it is still SLEEPING, not READY.  It becomes
READY at the sixth. -/
theorem osSleep_five_not_awake_after_five_ticks :
    ∃ m1, osSleep mOneRunning 5 = some m1 ∧
      ((ticks 5 m1).kernel_config.TCBS 1).state = SLEEPING ∧
      ((ticks 5 m1).kernel_config.TCBS 1).state ≠ READY ∧
      ((ticks 6 m1).kernel_config.TCBS 1).state = READY :=
  ⟨_, rfl, by decide, by decide, by decide⟩

/-- C4 (amended): for every `ms > 0` and every running user task `r` with
deadline `d ≥ 1`: after the task calls `osSleep(ms)` it is SLEEPING, it is
still SLEEPING after each of the first `ms` tick-handler invocations, and the
`(ms + 1)`-th invocation makes it READY with `remaining_time = d - 1`. -/
theorem osSleep_wakes_after_ms_plus_one_ticks (m : Machine) (ms : Int) (r d : Nat)
    (hms : 0 < ms) (hmax : ms ≤ INT_MAX)
    (hrun : m.kernel_config.is_running ≠ 0)
    (hr : m.kernel_config.running_task = r) (hr1 : 1 ≤ r) (hr2 : r < MAX_TASKS)
    (hd : (m.kernel_config.TCBS r).deadline = d) (hd1 : 1 ≤ d) (hd2 : d < 4294967296) :
    ∃ m1, osSleep m ms = some m1 ∧
      (m1.kernel_config.TCBS r).state = SLEEPING ∧
      (∀ n, n ≤ ms.toNat → ((ticks n m1).kernel_config.TCBS r).state = SLEEPING) ∧
      ((ticks (ms.toNat + 1) m1).kernel_config.TCBS r).state = READY ∧
      ((ticks (ms.toNat + 1) m1).kernel_config.TCBS r).remaining_time = d - 1 := by
  obtain ⟨m1, h1, h2, h3⟩ := osSleep_result m ms hms (by rw [hr]; exact hr2)
  rw [hr] at h3
  have hst : (m1.kernel_config.TCBS r).state = SLEEPING := by rw [h3]
  have hrst : (m1.kernel_config.TCBS r).remaining_sleep_time = ms.toNat := by
    rw [h3]
    exact toU32_of_pos ms hms hmax
  have hdl : (m1.kernel_config.TCBS r).deadline = d := by rw [h3]; exact hd
  have hrun1 : m1.kernel_config.is_running ≠ 0 := by rw [h2]; exact hrun
  refine ⟨m1, h1, hst, fun n hn => ?_, ?_⟩
  · exact (ticks_keep_sleeping m1 r ms.toNat n hrun1 hr1 hr2 hst hrst hn).2.1
  · obtain ⟨a, b, c, e⟩ := ticks_keep_sleeping m1 r ms.toNat ms.toNat hrun1 hr1 hr2 hst hrst
      (le_refl _)
    have hw := tick_wakes_sleeper (ticks ms.toNat m1) r a hr1 hr2 b (by omega)
    refine ⟨hw.1, ?_⟩
    show ((SysTick_Handler (ticks ms.toNat m1)).kernel_config.TCBS r).remaining_time = d - 1
    rw [hw.2, e, hdl]
    exact subU32_one d hd1 hd2

/-- C4 (amended) at a concrete machine: task 1 with deadline 10 sleeps 5 ms. -/
theorem osSleep_wakes_after_ms_plus_one_ticks_witness :
    ∃ m1, osSleep mOneRunning 5 = some m1 ∧
      (m1.kernel_config.TCBS 1).state = SLEEPING ∧
      (∀ n, n ≤ (5 : Int).toNat → ((ticks n m1).kernel_config.TCBS 1).state = SLEEPING) ∧
      ((ticks ((5 : Int).toNat + 1) m1).kernel_config.TCBS 1).state = READY ∧
      ((ticks ((5 : Int).toNat + 1) m1).kernel_config.TCBS 1).remaining_time = 10 - 1 :=
  osSleep_wakes_after_ms_plus_one_ticks mOneRunning 5 1 10 (by decide) (by decide) (by decide)
    (by decide) (by decide) (by decide) (by decide) (by decide) (by decide)

/-! ## Properties of the allocator -/

theorem level_to_block_size_le (l : Nat) (h1 : 1 ≤ l) : level_to_block_size l ≤ 16408 := by
  unfold level_to_block_size MAX_LEVEL SIZEOF_METADATA
  have h : 2 ^ (15 - l) ≤ 2 ^ 14 := Nat.pow_le_pow_right (by decide) (by omega)
  have h14 : (2 : Nat) ^ 14 = 16384 := by norm_num
  omega

theorem alloc_level_eq_zero (size lvl : Nat) (h : 16408 < size) : alloc_level size lvl = 0 := by
  induction lvl with
  | zero => rfl
  | succ n ih =>
    unfold alloc_level
    rw [if_pos (lt_of_le_of_lt (level_to_block_size_le (n + 1) (by omega)) h)]
    exact ih

/-! The two loops of `k_mem_dealloc` are modelled with a bound of 12
iterations.  The bound is never reached: more iterations give the same
result. -/

theorem get_parent_depth (index d : Nat) (h0 : index ≠ 0) (h : index + 1 < 2 ^ (d + 2)) :
    get_parent index + 1 < 2 ^ (d + 1) := by
  unfold get_parent
  rw [if_neg h0]
  have hp : 2 ^ (d + 2) = 2 * 2 ^ (d + 1) := by rw [pow_succ]; ring
  omega

theorem addr_to_index_loop_out_of_bounds (bitarray : Nat → Nat) (fuel level index : Nat)
    (h : ¬ index < BITARRAY_LEN) :
    addr_to_index_loop bitarray (fuel + 1) level index = none := by
  unfold addr_to_index_loop
  rw [if_pos h]

theorem addr_to_index_loop_fuel_depth (bitarray : Nat → Nat) (d : Nat) :
    ∀ fuel level index, index + 1 < 2 ^ (d + 1) → d + 2 ≤ fuel →
      addr_to_index_loop bitarray fuel level index =
        addr_to_index_loop bitarray (d + 2) level index := by
  induction d with
  | zero =>
    intro fuel level index hi hf
    have hi0 : index = 0 := by
      have : (2 : Nat) ^ (0 + 1) = 2 := by norm_num
      omega
    subst hi0
    obtain ⟨f, rfl⟩ : ∃ f, fuel = f + 2 := ⟨fuel - 2, by omega⟩
    have hpar : ¬ get_parent 0 < BITARRAY_LEN := by decide
    rw [addr_to_index_loop, addr_to_index_loop.eq_def _ (0 + 2)]
    simp only [addr_to_index_loop_out_of_bounds _ _ _ _ hpar]
  | succ d ih =>
    intro fuel level index hi hf
    obtain ⟨f, rfl⟩ : ∃ f, fuel = f + 1 := ⟨fuel - 1, by omega⟩
    by_cases hi0 : index = 0
    · subst hi0
      obtain ⟨g, rfl⟩ : ∃ g, f = g + 1 := ⟨f - 1, by omega⟩
      have hpar : ¬ get_parent 0 < BITARRAY_LEN := by decide
      rw [addr_to_index_loop, addr_to_index_loop.eq_def _ (d + 1 + 2)]
      simp only [addr_to_index_loop_out_of_bounds _ _ _ _ hpar]
    · have hp := get_parent_depth index d hi0 hi
      rw [addr_to_index_loop, addr_to_index_loop.eq_def _ (d + 1 + 2)]
      simp only [ih f _ _ hp (by omega)]

/-- The loop of `addr_to_index` needs no more than 12 iterations. -/
theorem addr_to_index_loop_fuel (bitarray : Nat → Nat) (fuel level index : Nat)
    (hf : 12 ≤ fuel) :
    addr_to_index_loop bitarray fuel level index =
      addr_to_index_loop bitarray 12 level index := by
  by_cases hi : index < BITARRAY_LEN
  · exact addr_to_index_loop_fuel_depth bitarray 10 fuel level index
      (by unfold BITARRAY_LEN at hi; norm_num; omega) (by omega)
  · obtain ⟨f, rfl⟩ : ∃ f, fuel = f + 1 := ⟨fuel - 1, by omega⟩
    rw [addr_to_index_loop_out_of_bounds _ _ _ _ hi,
      addr_to_index_loop_out_of_bounds _ 11 _ _ hi]

theorem coalesce_loop_at_root (s : KMem) (f g level pos : Nat) :
    coalesce_loop s (f + 1) 0 level pos = coalesce_loop s (g + 1) 0 level pos := by
  rw [coalesce_loop, coalesce_loop.eq_def _ (g + 1)]
  simp

theorem coalesce_loop_out_of_bounds (s : KMem) (f index level pos : Nat)
    (h : ¬ index < BITARRAY_LEN) : coalesce_loop s (f + 1) index level pos = none := by
  rw [coalesce_loop]
  simp [h]

theorem coalesce_loop_fuel_depth (d : Nat) :
    ∀ fuel s index level pos, index + 1 < 2 ^ (d + 1) → d + 1 ≤ fuel →
      coalesce_loop s fuel index level pos = coalesce_loop s (d + 1) index level pos := by
  induction d with
  | zero =>
    intro fuel s index level pos hi hf
    have hi0 : index = 0 := by
      have : (2 : Nat) ^ (0 + 1) = 2 := by norm_num
      omega
    subst hi0
    obtain ⟨f, rfl⟩ : ∃ f, fuel = f + 1 := ⟨fuel - 1, by omega⟩
    exact coalesce_loop_at_root s f 0 level pos
  | succ d ih =>
    intro fuel s index level pos hi hf
    obtain ⟨f, rfl⟩ : ∃ f, fuel = f + 1 := ⟨fuel - 1, by omega⟩
    by_cases hi0 : index = 0
    · subst hi0
      exact coalesce_loop_at_root s f (d + 1) level pos
    · have hp := get_parent_depth index d hi0 hi
      rw [coalesce_loop, coalesce_loop.eq_def _ (d + 1 + 1)]
      simp only [ih f _ _ _ _ hp (by omega)]

/-- The coalescing loop of `k_mem_dealloc` needs no more than 12 iterations. -/
theorem coalesce_loop_fuel (s : KMem) (fuel index level pos : Nat) (hf : 12 ≤ fuel) :
    coalesce_loop s fuel index level pos = coalesce_loop s 12 index level pos := by
  by_cases hi : index < BITARRAY_LEN
  · rw [coalesce_loop_fuel_depth 10 fuel s index level pos
        (by unfold BITARRAY_LEN at hi; norm_num; omega) (by omega),
      coalesce_loop_fuel_depth 10 12 s index level pos
        (by unfold BITARRAY_LEN at hi; norm_num; omega) (by omega)]
  · obtain ⟨f, rfl⟩ : ∃ f, fuel = f + 1 := ⟨fuel - 1, by omega⟩
    rw [coalesce_loop_out_of_bounds _ _ _ _ _ hi, coalesce_loop_out_of_bounds _ 11 _ _ _ hi]

/-! Arithmetic of addresses and reads after writes. -/

theorem addU32_addU32 (p a b : Nat) : addU32 (addU32 p a) b = addU32 p (a + b) := by
  unfold addU32
  omega

theorem addU32_lt (p a : Nat) : addU32 p a < 4294967296 := by
  unfold addU32
  omega

theorem addU32_inj (p a b : Nat) (ha : a < 4294967296) (hb : b < 4294967296) :
    addU32 p a = addU32 p b ↔ a = b := by
  unfold addU32
  omega

theorem addU32_zero_of_lt (p : Nat) (hp : p < 4294967296) : addU32 p 0 = p := by
  unfold addU32
  omega

theorem write8_apply (mem : Nat → Nat) (a v x : Nat) :
    write8 mem a v x = if x = a then v % 256 else mem x := rfl

theorem get_next_after_init (mem : Nat → Nat) (h : Nat) :
    get_next (set_level_pos (set_prev (set_next mem (addU32 h 0) NULL) (addU32 h 0) NULL)
      (addU32 h 0) 0) (addU32 h 0) = NULL := by
  simp [get_next, set_level_pos, set_prev, set_next, read32, write32, write16, write8_apply,
    addU32_addU32, addU32_inj, NULL]

theorem get_level_pos_after_init (mem : Nat → Nat) (h : Nat) :
    get_level_pos (set_level_pos (set_prev (set_next mem (addU32 h 0) NULL) (addU32 h 0) NULL)
      (addU32 h 0) 0) (addU32 h 0) = 0 := by
  simp [get_level_pos, set_level_pos, read16, write16, write8_apply, addU32_addU32]

/-! Fields of the allocator state that the operations leave alone. -/

theorem foldl_setFree_fields (l : List Nat) (s : KMem) :
    (l.foldl (fun st i => setFree st i NULL) s).init_called = s.init_called ∧
    (l.foldl (fun st i => setFree st i NULL) s).bitarray = s.bitarray ∧
    (l.foldl (fun st i => setFree st i NULL) s).heap_start = s.heap_start ∧
    (l.foldl (fun st i => setFree st i NULL) s).mem = s.mem := by
  induction l generalizing s with
  | nil => exact ⟨rfl, rfl, rfl, rfl⟩
  | cons a l ih =>
    rw [List.foldl_cons]
    obtain ⟨h1, h2, h3, h4⟩ := ih (setFree s a NULL)
    exact ⟨h1, h2, h3, h4⟩

theorem foldl_setFree_free_list (l : List Nat) (s : KMem) (j : Nat) :
    (l.foldl (fun st i => setFree st i NULL) s).free_list j =
      if j ∈ l then NULL else s.free_list j := by
  induction l generalizing s with
  | nil => simp
  | cons a l ih =>
    rw [List.foldl_cons, ih]
    by_cases hj : j ∈ l
    · simp [hj]
    · by_cases hja : j = a
      · simp [hj, hja, setFree]
      · simp [hj, hja, setFree]

theorem split_node_init_called (s : KMem) (parent lvl : Nat) (s1 : KMem)
    (h : split_node s parent lvl = some s1) : s1.init_called = s.init_called := by
  unfold split_node at h
  dsimp only at h
  split_ifs at h
  simp only [Option.some.injEq] at h
  rw [← h]
  rfl

theorem split_loop_init_called (n : Nat) :
    ∀ (s : KMem) (lvl : Nat) (s1 : KMem), split_loop s lvl n = some s1 →
      s1.init_called = s.init_called := by
  induction n with
  | zero =>
    intro s lvl s1 h
    simp only [split_loop, Option.some.injEq] at h
    rw [← h]
  | succ n ih =>
    intro s lvl s1 h
    unfold split_loop at h
    cases hs : split_node s (s.free_list lvl) lvl with
    | none => rw [hs] at h; simp at h
    | some s2 =>
      rw [hs] at h
      dsimp only at h
      rw [ih s2 (lvl + 1) s1 h, split_node_init_called s _ lvl s2 hs]

theorem k_mem_alloc_init_called (k : KERNEL_CONFIG) (s : KMem) (size p : Nat) (s1 : KMem)
    (h : k_mem_alloc k s size = some (p, s1)) : s1.init_called = s.init_called := by
  unfold k_mem_alloc at h
  dsimp only at h
  split_ifs at h
  · simp only [Option.some.injEq, Prod.mk.injEq] at h
    rw [← h.2]
  · simp only [Option.some.injEq, Prod.mk.injEq] at h
    rw [← h.2]
  · simp only [alloc_finish, Option.some.injEq, Prod.mk.injEq] at h
    rw [← h.2]
    rfl
  · cases hf : find_free_level s.free_list (alloc_level size MAX_LEVEL) with
    | none =>
      rw [hf] at h
      simp only [Option.some.injEq, Prod.mk.injEq] at h
      rw [← h.2]
    | some l =>
      rw [hf] at h
      dsimp only at h
      cases hl : split_loop s l (alloc_level size MAX_LEVEL - l) with
      | none => rw [hl] at h; simp at h
      | some s2 =>
        rw [hl] at h
        simp only [alloc_finish, Option.some.injEq, Prod.mk.injEq] at h
        rw [← h.2]
        exact split_loop_init_called _ s l s2 hl

theorem coalesce_loop_init_called (fuel : Nat) :
    ∀ (s : KMem) (index level pos : Nat) (s1 : KMem),
      coalesce_loop s fuel index level pos = some s1 → s1.init_called = s.init_called := by
  induction fuel with
  | zero =>
    intro s index level pos s1 h
    simp [coalesce_loop] at h
  | succ fuel ih =>
    intro s index level pos s1 h
    rw [coalesce_loop] at h
    dsimp only at h
    split_ifs at h
    all_goals first
      | (simp only [Option.some.injEq] at h
         rw [← h]
         rfl)
      | (have h2 := ih _ _ _ _ _ h
         rw [h2]
         try rfl)

theorem k_mem_dealloc_init_called (k : KERNEL_CONFIG) (s : KMem) (ptr : Nat) (r : Int)
    (s1 : KMem) (h : k_mem_dealloc k s ptr = some (r, s1)) :
    s1.init_called = s.init_called := by
  unfold k_mem_dealloc at h
  dsimp only at h
  split_ifs at h
  all_goals try (simp only [Option.some.injEq, Prod.mk.injEq] at h; rw [← h.2])
  cases ha : addr_to_index s ptr with
  | none => rw [ha] at h; simp at h
  | some v =>
    obtain ⟨bi, lv⟩ := v
    rw [ha] at h
    dsimp only at h
    cases hc : coalesce_loop s 12 bi lv (index_level_to_level_pos bi lv) with
    | none => rw [hc] at h; simp at h
    | some s2 =>
      rw [hc] at h
      simp only [Option.some.injEq, Prod.mk.injEq] at h
      rw [← h.2]
      exact coalesce_loop_init_called 12 s bi lv _ s2 hc

/-- In a reachable allocator state `init_called` is 0 or 1, and while it is 0
the bit array still holds the zeros of program start. -/
theorem memReachable_init_called (s : KMem) (h : MemReachable s) :
    (s.init_called = 0 ∧ ∀ i, s.bitarray i = 0) ∨ s.init_called = 1 := by
  induction h with
  | start mem => exact Or.inl ⟨rfl, fun _ => rfl⟩
  | init k s img_end _ ih =>
    unfold k_mem_init
    dsimp only
    split_ifs with hc
    · exact ih
    · right
      exact (foldl_setFree_fields _ _).1
  | alloc k s size p s1 _ ha ih =>
    rcases ih with ⟨h0, hb⟩ | h1
    · have : k_mem_alloc k s size = some (NULL, s) := by
        unfold k_mem_alloc
        rw [if_pos (Or.inl h0)]
      rw [this] at ha
      simp only [Option.some.injEq, Prod.mk.injEq] at ha
      rw [← ha.2]
      exact Or.inl ⟨h0, hb⟩
    · right
      rw [k_mem_alloc_init_called k s size p s1 ha]
      exact h1
  | dealloc k s ptr r s1 _ hd ih =>
    rcases ih with ⟨h0, hb⟩ | h1
    · have : k_mem_dealloc k s ptr = some (RTX_ERR, s) := by
        unfold k_mem_dealloc
        rw [if_pos h0]
      rw [this] at hd
      simp only [Option.some.injEq, Prod.mk.injEq] at hd
      rw [← hd.2]
      exact Or.inl ⟨h0, hb⟩
    · right
      rw [k_mem_dealloc_init_called k s ptr r s1 hd]
      exact h1
  | store s mem _ ih => exact ih

/-! ## The claims about `k_mem_alloc` and `k_mem_dealloc` -/

/-- C5 (the code breaks it): `level_to_block_size` adds the header size to the
block size where it should subtract it.  On a fresh heap `k_mem_alloc(56)`
selects level 10 and returns `heap_start + 24`, a pointer into the 32-byte
block at `heap_start`: 56 is more than 32 - 24, and the 56 bytes from the
returned pointer end 48 bytes past the end of the block. -/
theorem k_mem_alloc_56_overruns_block :
    (k_mem_init kInit memZero HEAP).1 = RTX_OK ∧
    alloc_level 56 MAX_LEVEL = 10 ∧
    (k_mem_alloc kOneRunning memInit 56).map Prod.fst = some (HEAP + 24) ∧
    (k_mem_alloc kOneRunning memInit 56).map (fun r => r.2.bitarray (2 ^ 10 - 1 + 0)) = some 1 ∧
    ¬ (56 ≤ 2 ^ (MAX_LEVEL - 10) - SIZEOF_METADATA) ∧
    HEAP + 2 ^ (MAX_LEVEL - 10) + 48 = (HEAP + 24) + 56 := by
  refine ⟨by decide, by decide, by decide!, by decide!, by decide, by decide⟩

/-- C6: `k_mem_alloc(size)` returns NULL and leaves the whole allocator state
(bit array, free lists, heap bytes) unchanged when `size` is 0, when
`k_mem_init` has not succeeded yet, and when `size` is more than the heap size
32768. -/
theorem k_mem_alloc_rejects_without_change (k : KERNEL_CONFIG) (s : KMem) (size : Nat)
    (h : size = 0 ∨ s.init_called = 0 ∨ 2 ^ MAX_LEVEL < size) :
    k_mem_alloc k s size = some (NULL, s) := by
  unfold k_mem_alloc
  by_cases h0 : s.init_called = 0 ∨ size = 0
  · rw [if_pos h0]
  · rw [if_neg h0]
    have hbig : 16408 < size := by
      rcases h with h | h | h
      · exact absurd (Or.inr h) h0
      · exact absurd (Or.inl h) h0
      · have : (2 : Nat) ^ MAX_LEVEL = 32768 := by decide
        omega
    simp [alloc_level_eq_zero size MAX_LEVEL hbig]

/-- C6 at a concrete state: a request of 40000 bytes on a fresh heap. -/
theorem k_mem_alloc_rejects_without_change_witness :
    k_mem_alloc kOneRunning memInit 40000 = some (NULL, memInit) :=
  k_mem_alloc_rejects_without_change kOneRunning memInit 40000 (Or.inr (Or.inr (by decide)))

/-- C8: `k_mem_dealloc(ptr)` returns `RTX_ERR` and leaves the whole allocator
state (bit array, free lists, heap bytes) unchanged whenever `k_mem_init` has
not succeeded, or `ptr` is NULL, or the header at `ptr - sizeof(metadata)` has
a `secret_key` other than 0x99, or `is_allocated == 0`, or a `task_tid` other
than `osGetTID()`. -/
theorem k_mem_dealloc_rejects_without_change (k : KERNEL_CONFIG) (s : KMem) (ptr : Nat)
    (h : s.init_called = 0 ∨ ptr = NULL ∨
      get_secret_key s.mem (subU32 ptr SIZEOF_METADATA) ≠ METADATA_SECRET_KEY ∨
      get_is_allocated s.mem (subU32 ptr SIZEOF_METADATA) = 0 ∨
      get_task_tid s.mem (subU32 ptr SIZEOF_METADATA) ≠ osGetTID k) :
    k_mem_dealloc k s ptr = some (RTX_ERR, s) := by
  unfold k_mem_dealloc
  dsimp only
  by_cases h1 : s.init_called = 0
  · rw [if_pos h1]
  · rw [if_neg h1]
    by_cases h2 : ptr = NULL
    · rw [if_pos h2]
    · rw [if_neg h2]
      by_cases h3 : get_secret_key s.mem (subU32 ptr SIZEOF_METADATA) ≠ METADATA_SECRET_KEY
      · rw [if_pos h3]
      · rw [if_neg h3]
        by_cases h4 : get_is_allocated s.mem (subU32 ptr SIZEOF_METADATA) = 0
        · rw [if_pos h4]
        · rw [if_neg h4]
          by_cases h5 : get_task_tid s.mem (subU32 ptr SIZEOF_METADATA) ≠ osGetTID k
          · rw [if_pos h5]
          · exfalso
            rcases h with h | h | h | h | h
            · exact h1 h
            · exact h2 h
            · exact h3 h
            · exact h4 h
            · exact h5 h

/-- C8 at a concrete state: on a fresh heap nothing is allocated, and the
header below `heap_start + 24` has no secret key. -/
theorem k_mem_dealloc_rejects_without_change_witness :
    k_mem_dealloc kOneRunning memInit (HEAP + 24) = some (RTX_ERR, memInit) :=
  k_mem_dealloc_rejects_without_change kOneRunning memInit (HEAP + 24)
    (Or.inr (Or.inr (Or.inl (by decide))))

/-- C7 (the code breaks it): after the calls `opsStaleLink` on a fresh heap,
`k_mem_alloc(56)` selects level 10 and returns `b + 24` for the block at
`b = heap_start + 320`, with `secret_key = 0x99`, `is_allocated = 1` and
`task_tid = 1` in its header.  But the header's `level_pos` is 5 while
`(b - heap_start) / 2^(15 - 10)` is 10; the bit that was set is the one of node
(10, 5), the bit of node (10, 10) is 0; and `b` is still the head of
`free_list[9]`. -/
theorem k_mem_alloc_hands_out_listed_block :
    (k_mem_init kInit memZero HEAP).1 = RTX_OK ∧
    alloc_level 56 MAX_LEVEL = 10 ∧
    memWrongLevel.map Prod.fst = some (HEAP + 320 + SIZEOF_METADATA) ∧
    memWrongLevel.map (fun r =>
      (get_secret_key r.2.mem (HEAP + 320), get_is_allocated r.2.mem (HEAP + 320),
       get_task_tid r.2.mem (HEAP + 320), osGetTID kOneRunning)) = some (153, 1, 1, 1) ∧
    memWrongLevel.map (fun r => get_level_pos r.2.mem (HEAP + 320)) = some 5 ∧
    (HEAP + 320 - HEAP) / 2 ^ (MAX_LEVEL - 10) = 10 ∧
    memWrongLevel.map (fun r => (r.2.bitarray (2 ^ 10 - 1 + 5), r.2.bitarray (2 ^ 10 - 1 + 10)))
      = some (1, 0) ∧
    memWrongLevel.map (fun r => r.2.free_list 9) = some (HEAP + 320) := by
  refine ⟨by decide, by decide, by decide!, by decide!, by decide!, by decide, by decide!,
    by decide!⟩

/-- C9 (the code breaks it): after the calls `opsStaleLink` on a fresh heap,
task 1 is given `heap_start + 344` by `k_mem_alloc(56)`; its `k_mem_dealloc` of
that pointer returns `RTX_OK` and leaves `is_allocated = 1` in the header at
`heap_start + 320`, and the immediately following `k_mem_dealloc` of the same
pointer returns `RTX_OK` again and changes `free_list[0]` and the bit of the
root. -/
theorem k_mem_dealloc_accepts_second_free :
    memWrongLevel.map Prod.fst = some (HEAP + 344) ∧
    memFreedOnce.map (fun r =>
      (r.1, get_is_allocated r.2.mem (HEAP + 320), r.2.free_list 0, r.2.bitarray 0))
      = some (RTX_OK, 1, NULL, 1) ∧
    memFreedTwice.map (fun r => (r.1, r.2.free_list 0, r.2.bitarray 0))
      = some (RTX_OK, HEAP, 0) := by
  refine ⟨by decide!, by decide!, by decide!⟩

/-- C10 (the code breaks it): in the state after the calls `opsStaleLink` on a
fresh heap, `k_mem_alloc(56)` returns `heap_start + 344` and the
`k_mem_dealloc` of that pointer returns `RTX_OK`, but the state is not
restored: the bit of node (10, 5) was 0 and is 1, the bit of node (8, 2) was 1
and is 0, and `free_list[10]` held the block at `heap_start + 320` and is
empty. -/
theorem k_mem_alloc_dealloc_does_not_restore :
    memStaleLink.map (fun s => (s.bitarray 1028, s.bitarray 257, s.free_list 10))
      = some (0, 1, HEAP + 320) ∧
    memWrongLevel.map Prod.fst = some (HEAP + 344) ∧
    memFreedOnce.map (fun r => (r.1, r.2.bitarray 1028, r.2.bitarray 257, r.2.free_list 10))
      = some (RTX_OK, 1, 0, NULL) := by
  refine ⟨by decide!, by decide!, by decide!⟩

theorem index_to_addr_zero (s : KMem) : index_to_addr s 0 = addU32 s.heap_start 0 := by
  simp [index_to_addr, integer_log2, highest_bit, subU32, addU32, MAX_LEVEL]

/-- C12: in every allocator state that a program can reach, `k_mem_init`
returns `RTX_OK` exactly when it has not succeeded before (`init_called` is
still 0) and the kernel has been initialised (`is_running` is set).  Then
`free_list[0]` is the block at `heap_start = &_img_end`, whose header has
`level_pos = 0` and no successor, `free_list[1..10]` are empty and every entry
of the bit array is 0.  In every other case it returns `RTX_ERR` and leaves
the free lists, the bit array, the initialisation flag and the memory
unchanged. -/
theorem k_mem_init_effect (k : KERNEL_CONFIG) (s : KMem) (img_end : Nat)
    (hr : MemReachable s) (himg : img_end < 4294967296) :
    ((k_mem_init k s img_end).1 = RTX_OK ↔ (s.init_called = 0 ∧ k.is_running ≠ 0)) ∧
    (s.init_called = 0 ∧ k.is_running ≠ 0 →
      (k_mem_init k s img_end).2.init_called = 1 ∧
      (k_mem_init k s img_end).2.heap_start = img_end ∧
      (k_mem_init k s img_end).2.free_list 0 = img_end ∧
      get_level_pos (k_mem_init k s img_end).2.mem img_end = 0 ∧
      get_next (k_mem_init k s img_end).2.mem img_end = NULL ∧
      (∀ l, 1 ≤ l → l ≤ 10 → (k_mem_init k s img_end).2.free_list l = NULL) ∧
      (∀ i, (k_mem_init k s img_end).2.bitarray i = 0)) ∧
    (¬ (s.init_called = 0 ∧ k.is_running ≠ 0) →
      (k_mem_init k s img_end).1 = RTX_ERR ∧
      (k_mem_init k s img_end).2.free_list = s.free_list ∧
      (k_mem_init k s img_end).2.bitarray = s.bitarray ∧
      (k_mem_init k s img_end).2.init_called = s.init_called ∧
      (k_mem_init k s img_end).2.mem = s.mem) := by
  have hinv := memReachable_init_called s hr
  have hgood : s.init_called = 0 ∧ k.is_running ≠ 0 →
      ¬ (s.init_called = 1 ∨ k.is_running = FALSE) := by
    rintro ⟨h0, h1⟩ (hc | hc)
    · omega
    · exact h1 hc
  have hbad : ¬ (s.init_called = 0 ∧ k.is_running ≠ 0) →
      (s.init_called = 1 ∨ k.is_running = FALSE) := by
    intro h
    rcases hinv with ⟨h0, _⟩ | h1
    · right
      by_contra hc
      exact h ⟨h0, hc⟩
    · exact Or.inl h1
  have hhead : addU32 img_end 0 = img_end := addU32_zero_of_lt img_end himg
  refine ⟨?_, fun h => ?_, fun h => ?_⟩
  · constructor
    · intro hret
      by_contra hc
      unfold k_mem_init at hret
      dsimp only at hret
      rw [if_pos (hbad hc)] at hret
      simp [RTX_OK, RTX_ERR] at hret
    · intro h
      unfold k_mem_init
      dsimp only
      rw [if_neg (hgood h)]
  · have hzero : ∀ i, s.bitarray i = 0 := by
      rcases hinv with ⟨_, hb⟩ | h1
      · exact hb
      · omega
    unfold k_mem_init
    dsimp only
    rw [if_neg (hgood h)]
    dsimp only
    have hL := get_level_pos_after_init s.mem img_end
    have hN := get_next_after_init s.mem img_end
    rw [hhead] at hL hN
    refine ⟨?_, ?_, ?_, ?_, ?_, ?_, ?_⟩
    · rw [(foldl_setFree_fields _ _).1]
      rfl
    · rw [(foldl_setFree_fields _ _).2.2.1]
      rfl
    · rw [foldl_setFree_free_list]
      simp [setFree, index_to_addr_zero, hhead]
    · rw [(foldl_setFree_fields _ _).2.2.2]
      simp only [setFree, index_to_addr_zero, hhead]
      exact hL
    · rw [(foldl_setFree_fields _ _).2.2.2]
      simp only [setFree, index_to_addr_zero, hhead]
      exact hN
    · intro l h1 h2
      rw [foldl_setFree_free_list]
      have : l ∈ List.range' 1 10 := by
        rw [List.mem_range'_1]
        omega
      rw [if_pos this]
    · intro i
      rw [(foldl_setFree_fields _ _).2.1]
      exact hzero i
  · unfold k_mem_init
    dsimp only
    rw [if_pos (hbad h)]
    exact ⟨rfl, rfl, rfl, rfl, rfl⟩

/-- C12 at a concrete call: the first `k_mem_init` after `osKernelInit`. -/
theorem k_mem_init_effect_witness :
    (k_mem_init kInit memZero HEAP).1 = RTX_OK ∧
    (∀ i, (k_mem_init kInit memZero HEAP).2.bitarray i = 0) ∧
    (k_mem_init kInit memZero HEAP).2.free_list 0 = HEAP :=
  ⟨(k_mem_init_effect kInit memZero HEAP (MemReachable.start _) (by decide)).1.mpr
      ⟨rfl, by decide⟩,
   ((k_mem_init_effect kInit memZero HEAP (MemReachable.start _) (by decide)).2.1
      ⟨rfl, by decide⟩).2.2.2.2.2.2,
   ((k_mem_init_effect kInit memZero HEAP (MemReachable.start _) (by decide)).2.1
      ⟨rfl, by decide⟩).2.2.1⟩

/-! ## Header fields under writes

Within the address space (no wrap-around) a field of a header is read back
after a write to it, and is not changed by a write to another field or to a
header that does not overlap. -/

theorem read32_congr (m1 m2 : Nat → Nat) (a : Nat)
    (h : ∀ i, i < 4 → m1 (addU32 a i) = m2 (addU32 a i)) (ha : a < 4294967296) :
    read32 m1 a = read32 m2 a := by
  have h0 := h 0 (by omega)
  have ha0 : addU32 a 0 = a := by unfold addU32; omega
  rw [ha0] at h0
  unfold read32
  rw [h0, h 1 (by omega), h 2 (by omega), h 3 (by omega)]

theorem read32_write32_same (mem : Nat → Nat) (q v : Nat) :
    read32 (write32 mem q v) q = v % 4294967296 := by
  have h1 : addU32 q 1 ≠ q := by unfold addU32; omega
  have h2 : addU32 q 2 ≠ q := by unfold addU32; omega
  have h3 : addU32 q 3 ≠ q := by unfold addU32; omega
  have h12 : addU32 q 1 ≠ addU32 q 2 := by unfold addU32; omega
  have h13 : addU32 q 1 ≠ addU32 q 3 := by unfold addU32; omega
  have h23 : addU32 q 2 ≠ addU32 q 3 := by unfold addU32; omega
  simp only [read32, write32, write8_apply, h1, h2, h3, h12, h13, h23, h1.symm, h2.symm, h3.symm,
    h12.symm, h13.symm, h23.symm, if_true, if_false]
  omega

theorem addU32_eq_add (a b : Nat) (h : a + b < 4294967296) : addU32 a b = a + b := by
  unfold addU32
  exact Nat.mod_eq_of_lt h

theorem read16_eq (m : Nat → Nat) (a : Nat) (ha : a + 2 ≤ 4294967296) :
    read16 m a = m a + 256 * m (a + 1) := by
  unfold read16
  rw [addU32_eq_add a 1 (by omega)]

theorem read32_eq (m : Nat → Nat) (a : Nat) (ha : a + 4 ≤ 4294967296) :
    read32 m a = m a + 256 * m (a + 1) + 65536 * m (a + 2) + 16777216 * m (a + 3) := by
  unfold read32
  rw [addU32_eq_add a 1 (by omega), addU32_eq_add a 2 (by omega), addU32_eq_add a 3 (by omega)]

theorem write8_outside (m : Nat → Nat) (a v x : Nat) (h : x < a ∨ a + 1 ≤ x) :
    write8 m a v x = m x := by
  unfold write8
  rw [if_neg (by omega)]

theorem write16_outside (m : Nat → Nat) (a v x : Nat) (ha : a + 2 ≤ 4294967296)
    (h : x < a ∨ a + 2 ≤ x) : write16 m a v x = m x := by
  unfold write16
  rw [addU32_eq_add a 1 (by omega), write8_outside _ _ _ _ (by omega),
    write8_outside _ _ _ _ (by omega)]

theorem write32_outside (m : Nat → Nat) (a v x : Nat) (ha : a + 4 ≤ 4294967296)
    (h : x < a ∨ a + 4 ≤ x) : write32 m a v x = m x := by
  unfold write32
  rw [addU32_eq_add a 1 (by omega), addU32_eq_add a 2 (by omega), addU32_eq_add a 3 (by omega),
    write8_outside _ _ _ _ (by omega), write8_outside _ _ _ _ (by omega),
    write8_outside _ _ _ _ (by omega), write8_outside _ _ _ _ (by omega)]

theorem read8_write8_same (m : Nat → Nat) (a v : Nat) : read8 (write8 m a v) a = v % 256 := by
  simp [read8, write8]

theorem read16_write16_same (m : Nat → Nat) (a v : Nat) (ha : a + 2 ≤ 4294967296) :
    read16 (write16 m a v) a = v % 65536 := by
  rw [read16_eq _ _ ha]
  unfold write16
  rw [addU32_eq_add a 1 (by omega)]
  simp only [write8_apply, if_true]
  rw [if_neg (by omega)]
  omega

theorem get_secret_key_congr (m1 m2 : Nat → Nat) (q : Nat)
    (h : ∀ x, q + 0 ≤ x → x < q + 1 → m1 x = m2 x) :
    get_secret_key m1 q = get_secret_key m2 q := by
  unfold get_secret_key
  unfold read8
  exact h _ (by omega) (by omega)

theorem set_secret_key_outside (m : Nat → Nat) (p v x : Nat)
    (h : x < p + 0 ∨ p + 1 ≤ x) : set_secret_key m p v x = m x := by
  unfold set_secret_key
  exact write8_outside _ _ _ _ (by omega)

theorem get_secret_key_set_secret_key_same (m : Nat → Nat) (p v : Nat) :
    get_secret_key (set_secret_key m p v) p = v % 256 := by
  unfold get_secret_key set_secret_key
  exact read8_write8_same _ _ _

theorem get_is_allocated_congr (m1 m2 : Nat → Nat) (q : Nat) (hq : q + 24 ≤ 4294967296)
    (h : ∀ x, q + 1 ≤ x → x < q + 2 → m1 x = m2 x) :
    get_is_allocated m1 q = get_is_allocated m2 q := by
  unfold get_is_allocated
  rw [addU32_eq_add q 1 (by omega)]
  unfold read8
  exact h _ (by omega) (by omega)

theorem set_is_allocated_outside (m : Nat → Nat) (p v x : Nat) (hp : p + 24 ≤ 4294967296)
    (h : x < p + 1 ∨ p + 2 ≤ x) : set_is_allocated m p v x = m x := by
  unfold set_is_allocated
  rw [addU32_eq_add p 1 (by omega)]
  exact write8_outside _ _ _ _ (by omega)

theorem get_is_allocated_set_is_allocated_same (m : Nat → Nat) (p v : Nat) :
    get_is_allocated (set_is_allocated m p v) p = v % 256 := by
  unfold get_is_allocated set_is_allocated
  exact read8_write8_same _ _ _

theorem get_task_tid_congr (m1 m2 : Nat → Nat) (q : Nat) (hq : q + 24 ≤ 4294967296)
    (h : ∀ x, q + 4 ≤ x → x < q + 8 → m1 x = m2 x) :
    get_task_tid m1 q = get_task_tid m2 q := by
  unfold get_task_tid
  rw [addU32_eq_add q 4 (by omega)]
  rw [read32_eq _ _ (by omega), read32_eq _ _ (by omega), h _ (by omega) (by omega),
    h _ (by omega) (by omega), h _ (by omega) (by omega), h _ (by omega) (by omega)]

theorem set_task_tid_outside (m : Nat → Nat) (p v x : Nat) (hp : p + 24 ≤ 4294967296)
    (h : x < p + 4 ∨ p + 8 ≤ x) : set_task_tid m p v x = m x := by
  unfold set_task_tid
  rw [addU32_eq_add p 4 (by omega)]
  exact write32_outside _ _ _ _ (by omega) (by omega)

theorem get_task_tid_set_task_tid_same (m : Nat → Nat) (p v : Nat) :
    get_task_tid (set_task_tid m p v) p = v % 4294967296 := by
  unfold get_task_tid set_task_tid
  exact read32_write32_same _ _ _

theorem get_level_pos_congr (m1 m2 : Nat → Nat) (q : Nat) (hq : q + 24 ≤ 4294967296)
    (h : ∀ x, q + 8 ≤ x → x < q + 10 → m1 x = m2 x) :
    get_level_pos m1 q = get_level_pos m2 q := by
  unfold get_level_pos
  rw [addU32_eq_add q 8 (by omega)]
  rw [read16_eq _ _ (by omega), read16_eq _ _ (by omega), h _ (by omega) (by omega),
    h _ (by omega) (by omega)]

theorem set_level_pos_outside (m : Nat → Nat) (p v x : Nat) (hp : p + 24 ≤ 4294967296)
    (h : x < p + 8 ∨ p + 10 ≤ x) : set_level_pos m p v x = m x := by
  unfold set_level_pos
  rw [addU32_eq_add p 8 (by omega)]
  exact write16_outside _ _ _ _ (by omega) (by omega)

theorem get_level_pos_set_level_pos_same (m : Nat → Nat) (p v : Nat) (hp : p + 24 ≤ 4294967296) :
    get_level_pos (set_level_pos m p v) p = v % 65536 := by
  unfold get_level_pos set_level_pos
  rw [addU32_eq_add p 8 (by omega)]
  exact read16_write16_same _ _ _ (by omega)

theorem get_next_congr (m1 m2 : Nat → Nat) (q : Nat) (hq : q + 24 ≤ 4294967296)
    (h : ∀ x, q + 12 ≤ x → x < q + 16 → m1 x = m2 x) :
    get_next m1 q = get_next m2 q := by
  unfold get_next
  rw [addU32_eq_add q 12 (by omega)]
  rw [read32_eq _ _ (by omega), read32_eq _ _ (by omega), h _ (by omega) (by omega),
    h _ (by omega) (by omega), h _ (by omega) (by omega), h _ (by omega) (by omega)]

theorem set_next_outside (m : Nat → Nat) (p v x : Nat) (hp : p + 24 ≤ 4294967296)
    (h : x < p + 12 ∨ p + 16 ≤ x) : set_next m p v x = m x := by
  unfold set_next
  rw [addU32_eq_add p 12 (by omega)]
  exact write32_outside _ _ _ _ (by omega) (by omega)

theorem get_next_set_next_same (m : Nat → Nat) (p v : Nat) :
    get_next (set_next m p v) p = v % 4294967296 := by
  unfold get_next set_next
  exact read32_write32_same _ _ _

theorem get_prev_congr (m1 m2 : Nat → Nat) (q : Nat) (hq : q + 24 ≤ 4294967296)
    (h : ∀ x, q + 16 ≤ x → x < q + 20 → m1 x = m2 x) :
    get_prev m1 q = get_prev m2 q := by
  unfold get_prev
  rw [addU32_eq_add q 16 (by omega)]
  rw [read32_eq _ _ (by omega), read32_eq _ _ (by omega), h _ (by omega) (by omega),
    h _ (by omega) (by omega), h _ (by omega) (by omega), h _ (by omega) (by omega)]

theorem set_prev_outside (m : Nat → Nat) (p v x : Nat) (hp : p + 24 ≤ 4294967296)
    (h : x < p + 16 ∨ p + 20 ≤ x) : set_prev m p v x = m x := by
  unfold set_prev
  rw [addU32_eq_add p 16 (by omega)]
  exact write32_outside _ _ _ _ (by omega) (by omega)

theorem get_prev_set_prev_same (m : Nat → Nat) (p v : Nat) :
    get_prev (set_prev m p v) p = v % 4294967296 := by
  unfold get_prev set_prev
  exact read32_write32_same _ _ _

/-! One lemma for each pair of a field read and a field written, at headers
`q` and `p`: the bytes of the two fields do not overlap. -/

theorem get_secret_key_set_secret_key (m : Nat → Nat) (p q v : Nat) (_ : p + 24 ≤ 4294967296)
    (_ : q + 24 ≤ 4294967296) (h : q + 1 ≤ p + 0 ∨ p + 1 ≤ q + 0) :
    get_secret_key (set_secret_key m p v) q = get_secret_key m q :=
  get_secret_key_congr _ _ q (fun x h1 h2 => set_secret_key_outside m p v x (by omega))

theorem get_secret_key_set_is_allocated (m : Nat → Nat) (p q v : Nat) (hp : p + 24 ≤ 4294967296)
    (_ : q + 24 ≤ 4294967296) (h : q + 1 ≤ p + 1 ∨ p + 2 ≤ q + 0) :
    get_secret_key (set_is_allocated m p v) q = get_secret_key m q :=
  get_secret_key_congr _ _ q (fun x h1 h2 => set_is_allocated_outside m p v x hp (by omega))

theorem get_secret_key_set_task_tid (m : Nat → Nat) (p q v : Nat) (hp : p + 24 ≤ 4294967296)
    (_ : q + 24 ≤ 4294967296) (h : q + 1 ≤ p + 4 ∨ p + 8 ≤ q + 0) :
    get_secret_key (set_task_tid m p v) q = get_secret_key m q :=
  get_secret_key_congr _ _ q (fun x h1 h2 => set_task_tid_outside m p v x hp (by omega))

theorem get_secret_key_set_level_pos (m : Nat → Nat) (p q v : Nat) (hp : p + 24 ≤ 4294967296)
    (_ : q + 24 ≤ 4294967296) (h : q + 1 ≤ p + 8 ∨ p + 10 ≤ q + 0) :
    get_secret_key (set_level_pos m p v) q = get_secret_key m q :=
  get_secret_key_congr _ _ q (fun x h1 h2 => set_level_pos_outside m p v x hp (by omega))

theorem get_secret_key_set_next (m : Nat → Nat) (p q v : Nat) (hp : p + 24 ≤ 4294967296)
    (_ : q + 24 ≤ 4294967296) (h : q + 1 ≤ p + 12 ∨ p + 16 ≤ q + 0) :
    get_secret_key (set_next m p v) q = get_secret_key m q :=
  get_secret_key_congr _ _ q (fun x h1 h2 => set_next_outside m p v x hp (by omega))

theorem get_secret_key_set_prev (m : Nat → Nat) (p q v : Nat) (hp : p + 24 ≤ 4294967296)
    (_ : q + 24 ≤ 4294967296) (h : q + 1 ≤ p + 16 ∨ p + 20 ≤ q + 0) :
    get_secret_key (set_prev m p v) q = get_secret_key m q :=
  get_secret_key_congr _ _ q (fun x h1 h2 => set_prev_outside m p v x hp (by omega))

theorem get_is_allocated_set_secret_key (m : Nat → Nat) (p q v : Nat) (_ : p + 24 ≤ 4294967296)
    (hq : q + 24 ≤ 4294967296) (h : q + 2 ≤ p + 0 ∨ p + 1 ≤ q + 1) :
    get_is_allocated (set_secret_key m p v) q = get_is_allocated m q :=
  get_is_allocated_congr _ _ q hq (fun x h1 h2 => set_secret_key_outside m p v x (by omega))

theorem get_is_allocated_set_is_allocated (m : Nat → Nat) (p q v : Nat) (hp : p + 24 ≤ 4294967296)
    (hq : q + 24 ≤ 4294967296) (h : q + 2 ≤ p + 1 ∨ p + 2 ≤ q + 1) :
    get_is_allocated (set_is_allocated m p v) q = get_is_allocated m q :=
  get_is_allocated_congr _ _ q hq (fun x h1 h2 => set_is_allocated_outside m p v x hp (by omega))

theorem get_is_allocated_set_task_tid (m : Nat → Nat) (p q v : Nat) (hp : p + 24 ≤ 4294967296)
    (hq : q + 24 ≤ 4294967296) (h : q + 2 ≤ p + 4 ∨ p + 8 ≤ q + 1) :
    get_is_allocated (set_task_tid m p v) q = get_is_allocated m q :=
  get_is_allocated_congr _ _ q hq (fun x h1 h2 => set_task_tid_outside m p v x hp (by omega))

theorem get_is_allocated_set_level_pos (m : Nat → Nat) (p q v : Nat) (hp : p + 24 ≤ 4294967296)
    (hq : q + 24 ≤ 4294967296) (h : q + 2 ≤ p + 8 ∨ p + 10 ≤ q + 1) :
    get_is_allocated (set_level_pos m p v) q = get_is_allocated m q :=
  get_is_allocated_congr _ _ q hq (fun x h1 h2 => set_level_pos_outside m p v x hp (by omega))

theorem get_is_allocated_set_next (m : Nat → Nat) (p q v : Nat) (hp : p + 24 ≤ 4294967296)
    (hq : q + 24 ≤ 4294967296) (h : q + 2 ≤ p + 12 ∨ p + 16 ≤ q + 1) :
    get_is_allocated (set_next m p v) q = get_is_allocated m q :=
  get_is_allocated_congr _ _ q hq (fun x h1 h2 => set_next_outside m p v x hp (by omega))

theorem get_is_allocated_set_prev (m : Nat → Nat) (p q v : Nat) (hp : p + 24 ≤ 4294967296)
    (hq : q + 24 ≤ 4294967296) (h : q + 2 ≤ p + 16 ∨ p + 20 ≤ q + 1) :
    get_is_allocated (set_prev m p v) q = get_is_allocated m q :=
  get_is_allocated_congr _ _ q hq (fun x h1 h2 => set_prev_outside m p v x hp (by omega))

theorem get_task_tid_set_secret_key (m : Nat → Nat) (p q v : Nat) (_ : p + 24 ≤ 4294967296)
    (hq : q + 24 ≤ 4294967296) (h : q + 8 ≤ p + 0 ∨ p + 1 ≤ q + 4) :
    get_task_tid (set_secret_key m p v) q = get_task_tid m q :=
  get_task_tid_congr _ _ q hq (fun x h1 h2 => set_secret_key_outside m p v x (by omega))

theorem get_task_tid_set_is_allocated (m : Nat → Nat) (p q v : Nat) (hp : p + 24 ≤ 4294967296)
    (hq : q + 24 ≤ 4294967296) (h : q + 8 ≤ p + 1 ∨ p + 2 ≤ q + 4) :
    get_task_tid (set_is_allocated m p v) q = get_task_tid m q :=
  get_task_tid_congr _ _ q hq (fun x h1 h2 => set_is_allocated_outside m p v x hp (by omega))

theorem get_task_tid_set_task_tid (m : Nat → Nat) (p q v : Nat) (hp : p + 24 ≤ 4294967296)
    (hq : q + 24 ≤ 4294967296) (h : q + 8 ≤ p + 4 ∨ p + 8 ≤ q + 4) :
    get_task_tid (set_task_tid m p v) q = get_task_tid m q :=
  get_task_tid_congr _ _ q hq (fun x h1 h2 => set_task_tid_outside m p v x hp (by omega))

theorem get_task_tid_set_level_pos (m : Nat → Nat) (p q v : Nat) (hp : p + 24 ≤ 4294967296)
    (hq : q + 24 ≤ 4294967296) (h : q + 8 ≤ p + 8 ∨ p + 10 ≤ q + 4) :
    get_task_tid (set_level_pos m p v) q = get_task_tid m q :=
  get_task_tid_congr _ _ q hq (fun x h1 h2 => set_level_pos_outside m p v x hp (by omega))

theorem get_task_tid_set_next (m : Nat → Nat) (p q v : Nat) (hp : p + 24 ≤ 4294967296)
    (hq : q + 24 ≤ 4294967296) (h : q + 8 ≤ p + 12 ∨ p + 16 ≤ q + 4) :
    get_task_tid (set_next m p v) q = get_task_tid m q :=
  get_task_tid_congr _ _ q hq (fun x h1 h2 => set_next_outside m p v x hp (by omega))

theorem get_task_tid_set_prev (m : Nat → Nat) (p q v : Nat) (hp : p + 24 ≤ 4294967296)
    (hq : q + 24 ≤ 4294967296) (h : q + 8 ≤ p + 16 ∨ p + 20 ≤ q + 4) :
    get_task_tid (set_prev m p v) q = get_task_tid m q :=
  get_task_tid_congr _ _ q hq (fun x h1 h2 => set_prev_outside m p v x hp (by omega))

theorem get_level_pos_set_secret_key (m : Nat → Nat) (p q v : Nat) (_ : p + 24 ≤ 4294967296)
    (hq : q + 24 ≤ 4294967296) (h : q + 10 ≤ p + 0 ∨ p + 1 ≤ q + 8) :
    get_level_pos (set_secret_key m p v) q = get_level_pos m q :=
  get_level_pos_congr _ _ q hq (fun x h1 h2 => set_secret_key_outside m p v x (by omega))

theorem get_level_pos_set_is_allocated (m : Nat → Nat) (p q v : Nat) (hp : p + 24 ≤ 4294967296)
    (hq : q + 24 ≤ 4294967296) (h : q + 10 ≤ p + 1 ∨ p + 2 ≤ q + 8) :
    get_level_pos (set_is_allocated m p v) q = get_level_pos m q :=
  get_level_pos_congr _ _ q hq (fun x h1 h2 => set_is_allocated_outside m p v x hp (by omega))

theorem get_level_pos_set_task_tid (m : Nat → Nat) (p q v : Nat) (hp : p + 24 ≤ 4294967296)
    (hq : q + 24 ≤ 4294967296) (h : q + 10 ≤ p + 4 ∨ p + 8 ≤ q + 8) :
    get_level_pos (set_task_tid m p v) q = get_level_pos m q :=
  get_level_pos_congr _ _ q hq (fun x h1 h2 => set_task_tid_outside m p v x hp (by omega))

theorem get_level_pos_set_level_pos (m : Nat → Nat) (p q v : Nat) (hp : p + 24 ≤ 4294967296)
    (hq : q + 24 ≤ 4294967296) (h : q + 10 ≤ p + 8 ∨ p + 10 ≤ q + 8) :
    get_level_pos (set_level_pos m p v) q = get_level_pos m q :=
  get_level_pos_congr _ _ q hq (fun x h1 h2 => set_level_pos_outside m p v x hp (by omega))

theorem get_level_pos_set_next (m : Nat → Nat) (p q v : Nat) (hp : p + 24 ≤ 4294967296)
    (hq : q + 24 ≤ 4294967296) (h : q + 10 ≤ p + 12 ∨ p + 16 ≤ q + 8) :
    get_level_pos (set_next m p v) q = get_level_pos m q :=
  get_level_pos_congr _ _ q hq (fun x h1 h2 => set_next_outside m p v x hp (by omega))

theorem get_level_pos_set_prev (m : Nat → Nat) (p q v : Nat) (hp : p + 24 ≤ 4294967296)
    (hq : q + 24 ≤ 4294967296) (h : q + 10 ≤ p + 16 ∨ p + 20 ≤ q + 8) :
    get_level_pos (set_prev m p v) q = get_level_pos m q :=
  get_level_pos_congr _ _ q hq (fun x h1 h2 => set_prev_outside m p v x hp (by omega))

theorem get_next_set_secret_key (m : Nat → Nat) (p q v : Nat) (_ : p + 24 ≤ 4294967296)
    (hq : q + 24 ≤ 4294967296) (h : q + 16 ≤ p + 0 ∨ p + 1 ≤ q + 12) :
    get_next (set_secret_key m p v) q = get_next m q :=
  get_next_congr _ _ q hq (fun x h1 h2 => set_secret_key_outside m p v x (by omega))

theorem get_next_set_is_allocated (m : Nat → Nat) (p q v : Nat) (hp : p + 24 ≤ 4294967296)
    (hq : q + 24 ≤ 4294967296) (h : q + 16 ≤ p + 1 ∨ p + 2 ≤ q + 12) :
    get_next (set_is_allocated m p v) q = get_next m q :=
  get_next_congr _ _ q hq (fun x h1 h2 => set_is_allocated_outside m p v x hp (by omega))

theorem get_next_set_task_tid (m : Nat → Nat) (p q v : Nat) (hp : p + 24 ≤ 4294967296)
    (hq : q + 24 ≤ 4294967296) (h : q + 16 ≤ p + 4 ∨ p + 8 ≤ q + 12) :
    get_next (set_task_tid m p v) q = get_next m q :=
  get_next_congr _ _ q hq (fun x h1 h2 => set_task_tid_outside m p v x hp (by omega))

theorem get_next_set_level_pos (m : Nat → Nat) (p q v : Nat) (hp : p + 24 ≤ 4294967296)
    (hq : q + 24 ≤ 4294967296) (h : q + 16 ≤ p + 8 ∨ p + 10 ≤ q + 12) :
    get_next (set_level_pos m p v) q = get_next m q :=
  get_next_congr _ _ q hq (fun x h1 h2 => set_level_pos_outside m p v x hp (by omega))

theorem get_next_set_next (m : Nat → Nat) (p q v : Nat) (hp : p + 24 ≤ 4294967296)
    (hq : q + 24 ≤ 4294967296) (h : q + 16 ≤ p + 12 ∨ p + 16 ≤ q + 12) :
    get_next (set_next m p v) q = get_next m q :=
  get_next_congr _ _ q hq (fun x h1 h2 => set_next_outside m p v x hp (by omega))

theorem get_next_set_prev (m : Nat → Nat) (p q v : Nat) (hp : p + 24 ≤ 4294967296)
    (hq : q + 24 ≤ 4294967296) (h : q + 16 ≤ p + 16 ∨ p + 20 ≤ q + 12) :
    get_next (set_prev m p v) q = get_next m q :=
  get_next_congr _ _ q hq (fun x h1 h2 => set_prev_outside m p v x hp (by omega))

theorem get_prev_set_secret_key (m : Nat → Nat) (p q v : Nat) (_ : p + 24 ≤ 4294967296)
    (hq : q + 24 ≤ 4294967296) (h : q + 20 ≤ p + 0 ∨ p + 1 ≤ q + 16) :
    get_prev (set_secret_key m p v) q = get_prev m q :=
  get_prev_congr _ _ q hq (fun x h1 h2 => set_secret_key_outside m p v x (by omega))

theorem get_prev_set_is_allocated (m : Nat → Nat) (p q v : Nat) (hp : p + 24 ≤ 4294967296)
    (hq : q + 24 ≤ 4294967296) (h : q + 20 ≤ p + 1 ∨ p + 2 ≤ q + 16) :
    get_prev (set_is_allocated m p v) q = get_prev m q :=
  get_prev_congr _ _ q hq (fun x h1 h2 => set_is_allocated_outside m p v x hp (by omega))

theorem get_prev_set_task_tid (m : Nat → Nat) (p q v : Nat) (hp : p + 24 ≤ 4294967296)
    (hq : q + 24 ≤ 4294967296) (h : q + 20 ≤ p + 4 ∨ p + 8 ≤ q + 16) :
    get_prev (set_task_tid m p v) q = get_prev m q :=
  get_prev_congr _ _ q hq (fun x h1 h2 => set_task_tid_outside m p v x hp (by omega))

theorem get_prev_set_level_pos (m : Nat → Nat) (p q v : Nat) (hp : p + 24 ≤ 4294967296)
    (hq : q + 24 ≤ 4294967296) (h : q + 20 ≤ p + 8 ∨ p + 10 ≤ q + 16) :
    get_prev (set_level_pos m p v) q = get_prev m q :=
  get_prev_congr _ _ q hq (fun x h1 h2 => set_level_pos_outside m p v x hp (by omega))

theorem get_prev_set_next (m : Nat → Nat) (p q v : Nat) (hp : p + 24 ≤ 4294967296)
    (hq : q + 24 ≤ 4294967296) (h : q + 20 ≤ p + 12 ∨ p + 16 ≤ q + 16) :
    get_prev (set_next m p v) q = get_prev m q :=
  get_prev_congr _ _ q hq (fun x h1 h2 => set_next_outside m p v x hp (by omega))

theorem get_prev_set_prev (m : Nat → Nat) (p q v : Nat) (hp : p + 24 ≤ 4294967296)
    (hq : q + 24 ≤ 4294967296) (h : q + 20 ≤ p + 16 ∨ p + 20 ≤ q + 16) :
    get_prev (set_prev m p v) q = get_prev m q :=
  get_prev_congr _ _ q hq (fun x h1 h2 => set_prev_outside m p v x hp (by omega))

/-! ## Two buddy blocks of the smallest level

The allocation of a smallest block on a fresh heap splits the leftmost block
of every level; the two deallocations merge the blocks again up to the root. -/

theorem two_pow_bounds (j : Nat) (h1 : 1 ≤ j) (h2 : j ≤ 10) :
    32 ≤ 2 ^ (15 - j) ∧ 2 ^ (15 - j) ≤ 16384 := by
  interval_cases j <;> simp

theorem two_pow_halves (j : Nat) (h1 : 1 ≤ j) (h2 : j < 10) :
    2 ^ (15 - j) = 2 * 2 ^ (15 - (j + 1)) := by
  interval_cases j <;> simp

theorem two_pow_gap (i j : Nat) (h1 : 1 ≤ i) (h2 : i < j) (h3 : j ≤ 10) :
    2 ^ (15 - j) + 32 ≤ 2 ^ (15 - i) := by
  interval_cases j <;> interval_cases i <;> simp

theorem two_pow_level (l : Nat) (h : l ≤ 10) : 1 ≤ 2 ^ l ∧ 2 ^ l ≤ 1024 := by
  interval_cases l <;> simp

theorem fast_index_to_addr_spine (s : KMem) (l : Nat) (h : l < 10) :
    fast_index_to_addr s ((2 ^ l + 0 - 1) * 2 + 1) =
      (addU32 s.heap_start 0, addU32 s.heap_start (2 ^ (15 - (l + 1)))) := by
  interval_cases l <;>
    simp [fast_index_to_addr, integer_log2, highest_bit, subU32, addU32, MAX_LEVEL]

theorem two_pow_mono (j n : Nat) (h1 : j ≤ n) : 2 ^ (15 - n) ≤ 2 ^ (15 - j) :=
  Nat.pow_le_pow_right (by omega) (by omega)

/-- The headers of the buddies of the levels 1..`n` depend only on the memory
from the buddy of level `n` upwards. -/
theorem BuddyHdrs_of_eq_above (hs n : Nat) (m m' : Nat → Nat) (hn : n ≤ 10)
    (hfit : hs + 32768 ≤ 4294967296) (h : ∀ x, hs + 2 ^ (15 - n) ≤ x → m' x = m x)
    (hb : BuddyHdrs hs m n) : BuddyHdrs hs m' n := by
  intro j h1 h2
  have hj := two_pow_bounds j h1 (by omega)
  have hm := two_pow_mono j n h2
  obtain ⟨b1, b2, b3⟩ := hb j h1 h2
  unfold buddyAddr at b1 b2 b3 ⊢
  rw [get_level_pos_congr m' m _ (by omega) (fun x hx _ => h x (by omega)),
    get_next_congr m' m _ (by omega) (fun x hx _ => h x (by omega)),
    get_prev_congr m' m _ (by omega) (fun x hx _ => h x (by omega))]
  exact ⟨b1, b2, b3⟩

theorem BuddyHdrs_mono (hs n n' : Nat) (m : Nat → Nat) (h : n' ≤ n) (hb : BuddyHdrs hs m n) :
    BuddyHdrs hs m n' :=
  fun j h1 h2 => hb j h1 (by omega)

theorem split_node_spine (hs l : Nat) (s : KMem) (h0 : 0 < hs) (hfit : hs + 32768 ≤ 4294967296)
    (hl : l < 10) (hinv : SplitInv hs l s) :
    ∃ s1, split_node s (s.free_list l) l = some s1 ∧ SplitInv hs (l + 1) s1 := by
  obtain ⟨hi, hh, hfl, hlow, hhigh, hbits, hlp, hnx, hbud⟩ := hinv
  have hp := two_pow_level l (by omega)
  have hp1 := two_pow_level (l + 1) (by omega)
  have hB := two_pow_bounds (l + 1) (by omega) (by omega)
  have e1 : (2 ^ l + 0 - 1) * 2 + 1 = 2 ^ (l + 1) - 1 := by rw [Nat.sub_mul]; omega
  have e2 : 2 ^ l + 0 - 1 = 2 ^ l - 1 := by omega
  have hc : 2 ^ l + 0 - 1 < BITARRAY_LEN ∧ (2 ^ l + 0 - 1) * 2 + 1 < BITARRAY_LEN := by
    rw [e1, e2]; unfold BITARRAY_LEN; omega
  have hhs : addU32 hs 0 = hs := addU32_eq_add hs 0 (by omega)
  have hbd : addU32 hs (2 ^ (15 - (l + 1))) = buddyAddr hs (l + 1) :=
    addU32_eq_add hs (2 ^ (15 - (l + 1))) (by omega)
  unfold split_node
  rw [hfl, hlp]
  dsimp only
  rw [if_pos hc]
  refine ⟨_, rfl, ?_⟩
  simp only [fast_index_to_addr_spine _ l hl]
  simp only [setFree, setBit, hh, hhs, hbd, hfl, hnx]
  refine ⟨hi, rfl, ?_, ?_, ?_, ?_, ?_, ?_, ?_⟩
  · simp
  · intro j hj
    dsimp only
    rw [if_neg (by omega)]
    by_cases hjl : j = l
    · rw [if_pos hjl, hjl]
    · rw [if_neg hjl]
      exact hlow j (by omega)
  · intro j h1 h2
    dsimp only
    rw [if_neg (by omega), if_neg (by omega)]
    exact hhigh j (by omega) h2
  · intro i
    dsimp only
    rw [if_neg (show ¬ l + 1 = 0 by omega), hbits, e1, e2]
    by_cases hl0 : l = 0
    · subst hl0
      simp [spineBits]
    · rw [if_neg hl0]
      simp only [spineBits]
      split_ifs <;> rfl
  · unfold buddyAddr
    simp (disch := omega) only [get_secret_key_set_secret_key, get_secret_key_set_is_allocated, get_secret_key_set_task_tid, get_secret_key_set_level_pos, get_secret_key_set_next, get_secret_key_set_prev, get_is_allocated_set_secret_key, get_is_allocated_set_is_allocated, get_is_allocated_set_task_tid, get_is_allocated_set_level_pos, get_is_allocated_set_next, get_is_allocated_set_prev, get_task_tid_set_secret_key, get_task_tid_set_is_allocated, get_task_tid_set_task_tid, get_task_tid_set_level_pos, get_task_tid_set_next, get_task_tid_set_prev, get_level_pos_set_secret_key, get_level_pos_set_is_allocated, get_level_pos_set_task_tid, get_level_pos_set_level_pos, get_level_pos_set_next, get_level_pos_set_prev, get_next_set_secret_key, get_next_set_is_allocated, get_next_set_task_tid, get_next_set_level_pos, get_next_set_next, get_next_set_prev, get_prev_set_secret_key, get_prev_set_is_allocated, get_prev_set_task_tid, get_prev_set_level_pos, get_prev_set_next, get_prev_set_prev, get_secret_key_set_secret_key_same, get_is_allocated_set_is_allocated_same, get_task_tid_set_task_tid_same, get_level_pos_set_level_pos_same, get_next_set_next_same, get_prev_set_prev_same]
  · unfold buddyAddr
    simp (disch := omega) only [get_secret_key_set_secret_key, get_secret_key_set_is_allocated, get_secret_key_set_task_tid, get_secret_key_set_level_pos, get_secret_key_set_next, get_secret_key_set_prev, get_is_allocated_set_secret_key, get_is_allocated_set_is_allocated, get_is_allocated_set_task_tid, get_is_allocated_set_level_pos, get_is_allocated_set_next, get_is_allocated_set_prev, get_task_tid_set_secret_key, get_task_tid_set_is_allocated, get_task_tid_set_task_tid, get_task_tid_set_level_pos, get_task_tid_set_next, get_task_tid_set_prev, get_level_pos_set_secret_key, get_level_pos_set_is_allocated, get_level_pos_set_task_tid, get_level_pos_set_level_pos, get_level_pos_set_next, get_level_pos_set_prev, get_next_set_secret_key, get_next_set_is_allocated, get_next_set_task_tid, get_next_set_level_pos, get_next_set_next, get_next_set_prev, get_prev_set_secret_key, get_prev_set_is_allocated, get_prev_set_task_tid, get_prev_set_level_pos, get_prev_set_next, get_prev_set_prev, get_secret_key_set_secret_key_same, get_is_allocated_set_is_allocated_same, get_task_tid_set_task_tid_same, get_level_pos_set_level_pos_same, get_next_set_next_same, get_prev_set_prev_same]
    rw [if_neg (by omega)]
    exact Nat.mod_eq_of_lt (by omega)
  · intro j hj1 hj2
    dsimp only
    by_cases hjl : j = l + 1
    · subst hjl
      unfold buddyAddr
      simp (disch := omega) only [get_secret_key_set_secret_key, get_secret_key_set_is_allocated, get_secret_key_set_task_tid, get_secret_key_set_level_pos, get_secret_key_set_next, get_secret_key_set_prev, get_is_allocated_set_secret_key, get_is_allocated_set_is_allocated, get_is_allocated_set_task_tid, get_is_allocated_set_level_pos, get_is_allocated_set_next, get_is_allocated_set_prev, get_task_tid_set_secret_key, get_task_tid_set_is_allocated, get_task_tid_set_task_tid, get_task_tid_set_level_pos, get_task_tid_set_next, get_task_tid_set_prev, get_level_pos_set_secret_key, get_level_pos_set_is_allocated, get_level_pos_set_task_tid, get_level_pos_set_level_pos, get_level_pos_set_next, get_level_pos_set_prev, get_next_set_secret_key, get_next_set_is_allocated, get_next_set_task_tid, get_next_set_level_pos, get_next_set_next, get_next_set_prev, get_prev_set_secret_key, get_prev_set_is_allocated, get_prev_set_task_tid, get_prev_set_level_pos, get_prev_set_next, get_prev_set_prev, get_secret_key_set_secret_key_same, get_is_allocated_set_is_allocated_same, get_task_tid_set_task_tid_same, get_level_pos_set_level_pos_same, get_next_set_next_same, get_prev_set_prev_same]
      exact ⟨trivial, rfl, Nat.mod_eq_of_lt (by omega)⟩
    · have hl1 : 1 ≤ l := by omega
      have hh2 := two_pow_halves l hl1 hl
      refine BuddyHdrs_of_eq_above hs l s.mem _ (by omega) hfit ?_ hbud j hj1 (by omega)
      intro x hx
      unfold buddyAddr
      simp (disch := omega) only [set_secret_key_outside, set_is_allocated_outside, set_task_tid_outside, set_level_pos_outside, set_next_outside, set_prev_outside]

theorem split_loop_spine (hs : Nat) (h0 : 0 < hs) (hfit : hs + 32768 ≤ 4294967296) (n : Nat) :
    ∀ (l : Nat) (s : KMem), l + n ≤ 10 → SplitInv hs l s →
      ∃ s1, split_loop s l n = some s1 ∧ SplitInv hs (l + n) s1 := by
  induction n with
  | zero => intro l s _ hinv; exact ⟨s, rfl, hinv⟩
  | succ n ih =>
    intro l s hl hinv
    obtain ⟨s1, h1, hinv1⟩ := split_node_spine hs l s h0 hfit (by omega) hinv
    obtain ⟨s2, h2, hinv2⟩ := ih (l + 1) s1 (by omega) hinv1
    refine ⟨s2, ?_, ?_⟩
    · unfold split_loop
      rw [h1]
      exact h2
    · have e : l + (n + 1) = l + 1 + n := by omega
      rw [e]
      exact hinv2

theorem find_free_level_root (fl : Nat → Nat) (n : Nat) (h0 : fl 0 ≠ NULL)
    (h : ∀ j, 1 ≤ j → j ≤ n → fl j = NULL) : find_free_level fl n = some 0 := by
  induction n with
  | zero => unfold find_free_level; rw [if_neg h0]
  | succ n ih =>
    unfold find_free_level
    rw [if_pos (h (n + 1) (by omega) (by omega))]
    exact ih (fun j h1 h2 => h j h1 (by omega))

theorem alloc_level_ne_zero (size : Nat) (h : alloc_level size MAX_LEVEL = 10) : size ≠ 0 := by
  intro hz
  subst hz
  revert h
  decide

theorem osGetTID_lt (k : KERNEL_CONFIG) (h : k.running_task < 4294967296) :
    osGetTID k < 4294967296 := by
  unfold osGetTID
  split_ifs
  · omega
  · exact h

theorem k_mem_alloc_first (hs : Nat) (k : KERNEL_CONFIG) (s : KMem) (size : Nat) (h0 : 0 < hs)
    (hfit : hs + 32768 ≤ 4294967296) (hinv : SplitInv hs 0 s)
    (hsize : alloc_level size MAX_LEVEL = 10) (htid : k.running_task < 4294967296) :
    ∃ s1, k_mem_alloc k s size = some (hs + 24, s1) ∧
      LeafInv hs (buddyAddr hs 10) (spineBits 11) s1 ∧
      get_level_pos s1.mem (buddyAddr hs 10) = 1 ∧ get_next s1.mem (buddyAddr hs 10) = NULL ∧
      AllocatedBy s1.mem hs (osGetTID k) := by
  have hsz := alloc_level_ne_zero size hsize
  obtain ⟨s', hsl, hinv'⟩ := split_loop_spine hs h0 hfit 10 0 s (by omega) hinv
  obtain ⟨hi, hh, hfl, _, hhigh, _, _, _, _⟩ := hinv
  obtain ⟨hi', hh', hfl', hlow', _, hbits', hlp', hnx', hbud'⟩ := hinv'
  have e10 : 0 + 10 = 10 := rfl
  rw [e10] at hfl' hnx' hbits'
  have hT := osGetTID_lt k htid
  have hb10 : buddyAddr hs 10 = hs + 32 := rfl
  unfold k_mem_alloc
  rw [if_neg (by rw [hi]; simp [hsz])]
  dsimp only
  rw [hsize, if_neg (by decide), if_neg (by decide), if_neg (by rw [hhigh 10 (by omega) (by omega)]; simp),
    find_free_level_root _ _ (by rw [hfl]; unfold NULL; omega) (fun j h1 h2 => hhigh j (by omega) h2)]
  dsimp only
  rw [Nat.sub_zero, hsl]
  dsimp only
  refine ⟨(alloc_finish k s' 10).2, ?_, ?_⟩
  · unfold alloc_finish
    dsimp only
    rw [hfl', addU32_eq_add hs SIZEOF_METADATA (by unfold SIZEOF_METADATA; omega)]
    rfl
  · unfold alloc_finish
    simp only [setFree, hfl', hnx']
    refine ⟨⟨hi', hh', ?_, ?_, ?_, ?_, ?_⟩, ?_, ?_, ?_⟩
    · dsimp only
      rw [if_neg (by omega), hlow' 0 (by omega), if_pos rfl]
    · intro j h1 h2
      dsimp only
      rw [if_neg (by omega), hlow' j (by omega), if_neg (by omega)]
    · simp
    · intro i
      rw [hbits' i, if_neg (by omega)]
    · apply BuddyHdrs_of_eq_above hs 9 s'.mem _ (by omega) hfit _
        (BuddyHdrs_mono hs 10 9 _ (by omega) hbud')
      intro x hx
      simp (disch := omega) only [set_secret_key_outside, set_is_allocated_outside, set_task_tid_outside, set_level_pos_outside, set_next_outside, set_prev_outside]
    · obtain ⟨b1, _, _⟩ := hbud' 10 (by omega) (by omega)
      rw [hb10] at b1 ⊢
      simp (disch := omega) only [get_secret_key_set_secret_key, get_secret_key_set_is_allocated, get_secret_key_set_task_tid, get_secret_key_set_level_pos, get_secret_key_set_next, get_secret_key_set_prev, get_is_allocated_set_secret_key, get_is_allocated_set_is_allocated, get_is_allocated_set_task_tid, get_is_allocated_set_level_pos, get_is_allocated_set_next, get_is_allocated_set_prev, get_task_tid_set_secret_key, get_task_tid_set_is_allocated, get_task_tid_set_task_tid, get_task_tid_set_level_pos, get_task_tid_set_next, get_task_tid_set_prev, get_level_pos_set_secret_key, get_level_pos_set_is_allocated, get_level_pos_set_task_tid, get_level_pos_set_level_pos, get_level_pos_set_next, get_level_pos_set_prev, get_next_set_secret_key, get_next_set_is_allocated, get_next_set_task_tid, get_next_set_level_pos, get_next_set_next, get_next_set_prev, get_prev_set_secret_key, get_prev_set_is_allocated, get_prev_set_task_tid, get_prev_set_level_pos, get_prev_set_next, get_prev_set_prev, get_secret_key_set_secret_key_same, get_is_allocated_set_is_allocated_same, get_task_tid_set_task_tid_same, get_level_pos_set_level_pos_same, get_next_set_next_same, get_prev_set_prev_same]
      exact b1
    · obtain ⟨_, b2, _⟩ := hbud' 10 (by omega) (by omega)
      rw [hb10] at b2 ⊢
      simp (disch := omega) only [get_secret_key_set_secret_key, get_secret_key_set_is_allocated, get_secret_key_set_task_tid, get_secret_key_set_level_pos, get_secret_key_set_next, get_secret_key_set_prev, get_is_allocated_set_secret_key, get_is_allocated_set_is_allocated, get_is_allocated_set_task_tid, get_is_allocated_set_level_pos, get_is_allocated_set_next, get_is_allocated_set_prev, get_task_tid_set_secret_key, get_task_tid_set_is_allocated, get_task_tid_set_task_tid, get_task_tid_set_level_pos, get_task_tid_set_next, get_task_tid_set_prev, get_level_pos_set_secret_key, get_level_pos_set_is_allocated, get_level_pos_set_task_tid, get_level_pos_set_level_pos, get_level_pos_set_next, get_level_pos_set_prev, get_next_set_secret_key, get_next_set_is_allocated, get_next_set_task_tid, get_next_set_level_pos, get_next_set_next, get_next_set_prev, get_prev_set_secret_key, get_prev_set_is_allocated, get_prev_set_task_tid, get_prev_set_level_pos, get_prev_set_next, get_prev_set_prev, get_secret_key_set_secret_key_same, get_is_allocated_set_is_allocated_same, get_task_tid_set_task_tid_same, get_level_pos_set_level_pos_same, get_next_set_next_same, get_prev_set_prev_same]
      exact b2
    · unfold AllocatedBy
      simp (disch := omega) only [get_secret_key_set_secret_key, get_secret_key_set_is_allocated, get_secret_key_set_task_tid, get_secret_key_set_level_pos, get_secret_key_set_next, get_secret_key_set_prev, get_is_allocated_set_secret_key, get_is_allocated_set_is_allocated, get_is_allocated_set_task_tid, get_is_allocated_set_level_pos, get_is_allocated_set_next, get_is_allocated_set_prev, get_task_tid_set_secret_key, get_task_tid_set_is_allocated, get_task_tid_set_task_tid, get_task_tid_set_level_pos, get_task_tid_set_next, get_task_tid_set_prev, get_level_pos_set_secret_key, get_level_pos_set_is_allocated, get_level_pos_set_task_tid, get_level_pos_set_level_pos, get_level_pos_set_next, get_level_pos_set_prev, get_next_set_secret_key, get_next_set_is_allocated, get_next_set_task_tid, get_next_set_level_pos, get_next_set_next, get_next_set_prev, get_prev_set_secret_key, get_prev_set_is_allocated, get_prev_set_task_tid, get_prev_set_level_pos, get_prev_set_next, get_prev_set_prev, get_secret_key_set_secret_key_same, get_is_allocated_set_is_allocated_same, get_task_tid_set_task_tid_same, get_level_pos_set_level_pos_same, get_next_set_next_same, get_prev_set_prev_same]
      exact ⟨rfl, trivial, Nat.mod_eq_of_lt hT⟩

theorem k_mem_alloc_second (hs : Nat) (k : KERNEL_CONFIG) (s : KMem) (size T : Nat) (h0 : 0 < hs)
    (hfit : hs + 32768 ≤ 4294967296) (hinv : LeafInv hs (buddyAddr hs 10) (spineBits 11) s)
    (hlp : get_level_pos s.mem (buddyAddr hs 10) = 1)
    (hnx : get_next s.mem (buddyAddr hs 10) = NULL) (ha : AllocatedBy s.mem hs T)
    (hsize : alloc_level size MAX_LEVEL = 10) (htid : k.running_task < 4294967296) :
    ∃ s1, k_mem_alloc k s size = some (hs + 56, s1) ∧
      LeafInv hs NULL (fun i => if i = 1024 then 1 else spineBits 11 i) s1 ∧
      AllocatedBy s1.mem hs T ∧ AllocatedBy s1.mem (hs + 32) (osGetTID k) := by
  have hsz := alloc_level_ne_zero size hsize
  obtain ⟨hi, hh, hf0, hfj, hf10, hbits, hbud⟩ := hinv
  have hT := osGetTID_lt k htid
  have hb10 : buddyAddr hs 10 = hs + 32 := rfl
  rw [hb10] at hf10 hlp hnx
  unfold k_mem_alloc
  rw [if_neg (by rw [hi]; simp [hsz])]
  dsimp only
  rw [hsize, if_neg (by decide), if_neg (by decide),
    if_pos (by rw [hf10]; unfold NULL; omega), hf10, hlp, if_pos (by decide)]
  refine ⟨(alloc_finish k (setBit s (2 ^ 10 + 1 - 1) 1) 10).2, ?_, ?_⟩
  · unfold alloc_finish setBit
    dsimp only
    rw [hf10, addU32_eq_add (hs + 32) SIZEOF_METADATA (by unfold SIZEOF_METADATA; omega)]
    rfl
  · unfold alloc_finish setBit
    simp only [setFree, hf10, hnx]
    refine ⟨⟨hi, hh, ?_, ?_, ?_, ?_, ?_⟩, ?_, ?_⟩
    · dsimp only
      rw [if_neg (by omega), hf0]
    · intro j h1 h2
      dsimp only
      rw [if_neg (by omega), hfj j h1 h2]
    · simp
    · intro i
      dsimp only
      rw [hbits i]
      rfl
    · apply BuddyHdrs_of_eq_above hs 9 s.mem _ (by omega) hfit _ hbud
      intro x hx
      simp (disch := omega) only [set_secret_key_outside, set_is_allocated_outside, set_task_tid_outside, set_level_pos_outside, set_next_outside, set_prev_outside]
    · obtain ⟨a1, a2, a3⟩ := ha
      unfold AllocatedBy
      simp (disch := omega) only [get_secret_key_set_secret_key, get_secret_key_set_is_allocated, get_secret_key_set_task_tid, get_secret_key_set_level_pos, get_secret_key_set_next, get_secret_key_set_prev, get_is_allocated_set_secret_key, get_is_allocated_set_is_allocated, get_is_allocated_set_task_tid, get_is_allocated_set_level_pos, get_is_allocated_set_next, get_is_allocated_set_prev, get_task_tid_set_secret_key, get_task_tid_set_is_allocated, get_task_tid_set_task_tid, get_task_tid_set_level_pos, get_task_tid_set_next, get_task_tid_set_prev, get_level_pos_set_secret_key, get_level_pos_set_is_allocated, get_level_pos_set_task_tid, get_level_pos_set_level_pos, get_level_pos_set_next, get_level_pos_set_prev, get_next_set_secret_key, get_next_set_is_allocated, get_next_set_task_tid, get_next_set_level_pos, get_next_set_next, get_next_set_prev, get_prev_set_secret_key, get_prev_set_is_allocated, get_prev_set_task_tid, get_prev_set_level_pos, get_prev_set_next, get_prev_set_prev, get_secret_key_set_secret_key_same, get_is_allocated_set_is_allocated_same, get_task_tid_set_task_tid_same, get_level_pos_set_level_pos_same, get_next_set_next_same, get_prev_set_prev_same]
      exact ⟨a1, a2, a3⟩
    · unfold AllocatedBy
      simp (disch := omega) only [get_secret_key_set_secret_key, get_secret_key_set_is_allocated, get_secret_key_set_task_tid, get_secret_key_set_level_pos, get_secret_key_set_next, get_secret_key_set_prev, get_is_allocated_set_secret_key, get_is_allocated_set_is_allocated, get_is_allocated_set_task_tid, get_is_allocated_set_level_pos, get_is_allocated_set_next, get_is_allocated_set_prev, get_task_tid_set_secret_key, get_task_tid_set_is_allocated, get_task_tid_set_task_tid, get_task_tid_set_level_pos, get_task_tid_set_next, get_task_tid_set_prev, get_level_pos_set_secret_key, get_level_pos_set_is_allocated, get_level_pos_set_task_tid, get_level_pos_set_level_pos, get_level_pos_set_next, get_level_pos_set_prev, get_next_set_secret_key, get_next_set_is_allocated, get_next_set_task_tid, get_next_set_level_pos, get_next_set_next, get_next_set_prev, get_prev_set_secret_key, get_prev_set_is_allocated, get_prev_set_task_tid, get_prev_set_level_pos, get_prev_set_next, get_prev_set_prev, get_secret_key_set_secret_key_same, get_is_allocated_set_is_allocated_same, get_task_tid_set_task_tid_same, get_level_pos_set_level_pos_same, get_next_set_next_same, get_prev_set_prev_same]
      exact ⟨rfl, trivial, Nat.mod_eq_of_lt hT⟩

/-- One round of the loop of `k_mem_dealloc` that ends it: the buddy is in
use (or the node is the root) and `free_list[level]` is empty, so the node
becomes the only block of that list. -/
theorem coalesce_loop_push (s : KMem) (fuel index level pos node : Nat)
    (hidx : index < BITARRAY_LEN) (hbi : get_buddy_level_level_pos level pos < BITARRAY_LEN)
    (hlv : level < FREE_LIST_LEN)
    (hcond : (s.bitarray (get_buddy_level_level_pos level pos) ≠ 0 ∧
      get_buddy_level_level_pos level pos ≠ index) ∨ index = 0)
    (hnode : level_level_pos_to_addr s level pos = node) (hlist : s.free_list level = NULL) :
    coalesce_loop s (fuel + 1) index level pos =
      some { s with
        bitarray := fun j => if j = index then 0 else s.bitarray j,
        free_list := fun j => if j = level then node else s.free_list j,
        mem := set_prev (set_next (set_prev (set_next (set_level_pos
          (set_is_allocated s.mem node 0) node pos) node NULL) node NULL) node NULL) node NULL } := by
  unfold coalesce_loop
  dsimp only
  rw [if_neg (by simp [hidx, hbi, hlv])]
  have hc : (setBit s index 0).bitarray (get_buddy_level_level_pos level pos) ≠ 0 ∨ index = 0 := by
    rcases hcond with ⟨h1, h2⟩ | h
    · left
      simp only [setBit]
      rw [if_neg h2]
      exact h1
    · exact Or.inr h
  rw [if_pos hc]
  have hn : level_level_pos_to_addr (setBit s index 0) level pos = node := hnode
  have hl : (setBit s index 0).free_list level = NULL := hlist
  rw [hn, hl, if_neg (by simp)]
  rfl

/-- One round of the loop of `k_mem_dealloc` that goes on: the buddy `fb` is
free and the head of `free_list[level]`, it has no successor, and its
predecessor link is `P`. -/
theorem coalesce_loop_merge (s : KMem) (fuel index level pos node fb P : Nat)
    (hidx : index < BITARRAY_LEN) (hbi : get_buddy_level_level_pos level pos < BITARRAY_LEN)
    (hlv : level < FREE_LIST_LEN)
    (hbit : s.bitarray (get_buddy_level_level_pos level pos) = 0) (hidx0 : index ≠ 0)
    (hnode : level_level_pos_to_addr s level pos = node)
    (hfb : level_level_pos_to_addr s level (pos ^^^ 1) = fb)
    (hn24 : node + 24 ≤ 4294967296) (hf24 : fb + 24 ≤ 4294967296)
    (hsep : node + 24 ≤ fb ∨ fb + 24 ≤ node)
    (hlist : s.free_list level = fb) (hnx : get_next s.mem fb = NULL)
    (hpv : get_prev s.mem fb = P) :
    coalesce_loop s (fuel + 1) index level pos =
      coalesce_loop { s with
        bitarray := fun j => if j = index then 0 else s.bitarray j,
        free_list := fun j => if j = level then NULL else s.free_list j,
        mem := if P ≠ NULL
          then set_next (set_prev (set_next (set_level_pos
            (set_is_allocated s.mem node 0) node pos) node NULL) node NULL) P NULL
          else set_prev (set_next (set_level_pos
            (set_is_allocated s.mem node 0) node pos) node NULL) node NULL }
        fuel (get_parent index) ((level + 255) % 256) (pos / 2) := by
  have hnx4 : get_next (set_prev (set_next (set_level_pos
      (set_is_allocated s.mem node 0) node pos) node NULL) node NULL) fb = NULL := by
    simp (disch := omega) only [get_secret_key_set_secret_key, get_secret_key_set_is_allocated, get_secret_key_set_task_tid, get_secret_key_set_level_pos, get_secret_key_set_next, get_secret_key_set_prev, get_is_allocated_set_secret_key, get_is_allocated_set_is_allocated, get_is_allocated_set_task_tid, get_is_allocated_set_level_pos, get_is_allocated_set_next, get_is_allocated_set_prev, get_task_tid_set_secret_key, get_task_tid_set_is_allocated, get_task_tid_set_task_tid, get_task_tid_set_level_pos, get_task_tid_set_next, get_task_tid_set_prev, get_level_pos_set_secret_key, get_level_pos_set_is_allocated, get_level_pos_set_task_tid, get_level_pos_set_level_pos, get_level_pos_set_next, get_level_pos_set_prev, get_next_set_secret_key, get_next_set_is_allocated, get_next_set_task_tid, get_next_set_level_pos, get_next_set_next, get_next_set_prev, get_prev_set_secret_key, get_prev_set_is_allocated, get_prev_set_task_tid, get_prev_set_level_pos, get_prev_set_next, get_prev_set_prev, get_secret_key_set_secret_key_same, get_is_allocated_set_is_allocated_same, get_task_tid_set_task_tid_same, get_level_pos_set_level_pos_same, get_next_set_next_same, get_prev_set_prev_same]
    exact hnx
  have hpv4 : get_prev (set_prev (set_next (set_level_pos
      (set_is_allocated s.mem node 0) node pos) node NULL) node NULL) fb = P := by
    simp (disch := omega) only [get_secret_key_set_secret_key, get_secret_key_set_is_allocated, get_secret_key_set_task_tid, get_secret_key_set_level_pos, get_secret_key_set_next, get_secret_key_set_prev, get_is_allocated_set_secret_key, get_is_allocated_set_is_allocated, get_is_allocated_set_task_tid, get_is_allocated_set_level_pos, get_is_allocated_set_next, get_is_allocated_set_prev, get_task_tid_set_secret_key, get_task_tid_set_is_allocated, get_task_tid_set_task_tid, get_task_tid_set_level_pos, get_task_tid_set_next, get_task_tid_set_prev, get_level_pos_set_secret_key, get_level_pos_set_is_allocated, get_level_pos_set_task_tid, get_level_pos_set_level_pos, get_level_pos_set_next, get_level_pos_set_prev, get_next_set_secret_key, get_next_set_is_allocated, get_next_set_task_tid, get_next_set_level_pos, get_next_set_next, get_next_set_prev, get_prev_set_secret_key, get_prev_set_is_allocated, get_prev_set_task_tid, get_prev_set_level_pos, get_prev_set_next, get_prev_set_prev, get_secret_key_set_secret_key_same, get_is_allocated_set_is_allocated_same, get_task_tid_set_task_tid_same, get_level_pos_set_level_pos_same, get_next_set_next_same, get_prev_set_prev_same]
    exact hpv
  rw [coalesce_loop]
  dsimp only
  rw [if_neg (by simp [hidx, hbi, hlv])]
  have hc : ¬ ((setBit s index 0).bitarray (get_buddy_level_level_pos level pos) ≠ 0 ∨
      index = 0) := by
    simp only [setBit]
    intro h
    rcases h with h | h
    · split_ifs at h <;> simp_all
    · exact hidx0 h
  rw [if_neg hc]
  have hn : level_level_pos_to_addr (setBit s index 0) level pos = node := hnode
  have hf : level_level_pos_to_addr (setBit s index 0) level (pos ^^^ 1) = fb := hfb
  have hl : (setBit s index 0).free_list level = fb := hlist
  have hm : (setBit s index 0).mem = s.mem := rfl
  rw [hn, hf, hl, hm, if_pos rfl]
  simp only [setFree, hnx4]
  rw [if_neg (show ¬ NULL ≠ NULL by simp)]
  simp only [hnx4, hpv4]
  rfl

theorem spineBits_eq_zero (m : Nat) : ∀ i, 2 ^ m - 1 ≤ i → spineBits m i = 0 := by
  induction m with
  | zero => intro i _; rfl
  | succ m ih =>
    intro i h
    have hp : 1 ≤ 2 ^ m := Nat.one_le_two_pow
    have hs : 2 ^ (m + 1) = 2 * 2 ^ m := by rw [pow_succ]; omega
    unfold spineBits
    rw [if_neg (by omega)]
    exact ih i (by omega)

theorem get_buddy_spine (n : Nat) (h : n ≤ 10) : get_buddy_level_level_pos n 0 = 2 ^ n := by
  interval_cases n <;> rfl

theorem get_parent_spine (n : Nat) (h : n < 10) : get_parent (2 ^ (n + 1) - 1) = 2 ^ n - 1 := by
  interval_cases n <;> rfl

theorem level_level_pos_to_addr_zero (s : KMem) (level : Nat) (h : s.heap_start < 4294967296) :
    level_level_pos_to_addr s level 0 = s.heap_start := by
  unfold level_level_pos_to_addr
  rw [Nat.mul_zero]
  exact addU32_eq_add _ 0 h

theorem level_level_pos_to_addr_one (s : KMem) (level : Nat) (h1 : 1 ≤ level) (h2 : level ≤ 10)
    (h : s.heap_start + 32768 ≤ 4294967296) :
    level_level_pos_to_addr s level 1 = buddyAddr s.heap_start level := by
  have hb := two_pow_bounds level h1 h2
  unfold level_level_pos_to_addr MAX_LEVEL
  rw [Nat.mul_one]
  exact addU32_eq_add _ _ (by omega)

theorem coalesce_loop_spine (hs : Nat) (h0 : 0 < hs) (hfit : hs + 32768 ≤ 4294967296) (n : Nat) :
    ∀ (fuel : Nat) (s : KMem), n ≤ 9 → n + 1 ≤ fuel → SpineInv hs n (spineBits (n + 1)) s →
      ∃ s1, coalesce_loop s fuel (2 ^ n - 1) n 0 = some s1 ∧ WholeHeapFree hs s1 := by
  induction n with
  | zero =>
    intro fuel s _ hf hinv
    obtain ⟨hi, hh, hf0, _, hfj, hbits, _⟩ := hinv
    obtain ⟨f, rfl⟩ : ∃ f, fuel = f + 1 := ⟨fuel - 1, by omega⟩
    refine ⟨_, coalesce_loop_push s f (2 ^ 0 - 1) 0 0 hs (by decide) (by decide) (by decide)
      (Or.inr rfl) ?_ hf0, ?_⟩
    · rw [level_level_pos_to_addr_zero s 0 (by omega), hh]
    · refine ⟨hh, by simp, ?_, ?_, ?_⟩
      · dsimp only
        simp (disch := omega) only [get_secret_key_set_secret_key, get_secret_key_set_is_allocated, get_secret_key_set_task_tid, get_secret_key_set_level_pos, get_secret_key_set_next, get_secret_key_set_prev, get_is_allocated_set_secret_key, get_is_allocated_set_is_allocated, get_is_allocated_set_task_tid, get_is_allocated_set_level_pos, get_is_allocated_set_next, get_is_allocated_set_prev, get_task_tid_set_secret_key, get_task_tid_set_is_allocated, get_task_tid_set_task_tid, get_task_tid_set_level_pos, get_task_tid_set_next, get_task_tid_set_prev, get_level_pos_set_secret_key, get_level_pos_set_is_allocated, get_level_pos_set_task_tid, get_level_pos_set_level_pos, get_level_pos_set_next, get_level_pos_set_prev, get_next_set_secret_key, get_next_set_is_allocated, get_next_set_task_tid, get_next_set_level_pos, get_next_set_next, get_next_set_prev, get_prev_set_secret_key, get_prev_set_is_allocated, get_prev_set_task_tid, get_prev_set_level_pos, get_prev_set_next, get_prev_set_prev, get_secret_key_set_secret_key_same, get_is_allocated_set_is_allocated_same, get_task_tid_set_task_tid_same, get_level_pos_set_level_pos_same, get_next_set_next_same, get_prev_set_prev_same]
        rfl
      · intro j h1 h2
        dsimp only
        rw [if_neg (by omega)]
        exact hfj j (by omega) h2
      · intro i
        dsimp only
        rw [hbits i]
        simp only [spineBits]
        split_ifs <;> rfl
  | succ n ih =>
    intro fuel s hn hf hinv
    obtain ⟨hi, hh, hf0, hfl, hfj, hbits, hbud⟩ := hinv
    obtain ⟨f, rfl⟩ : ∃ f, fuel = f + 1 := ⟨fuel - 1, by omega⟩
    have hp := two_pow_level (n + 1) (by omega)
    have hB := two_pow_bounds (n + 1) (by omega) (by omega)
    obtain ⟨_, b2, b3⟩ := hbud (n + 1) (by omega) (by omega)
    have hbuddy := get_buddy_spine (n + 1) (by omega)
    have hx1 : (0 : Nat) ^^^ 1 = 1 := rfl
    have hhs : hs ≠ NULL := by unfold NULL; omega
    rw [coalesce_loop_merge s f (2 ^ (n + 1) - 1) (n + 1) 0 hs (buddyAddr hs (n + 1)) hs
      (by unfold BITARRAY_LEN; omega) (by rw [hbuddy]; unfold BITARRAY_LEN; omega)
      (by unfold FREE_LIST_LEN; omega)
      (by
        rw [hbuddy, hbits]
        unfold spineBits
        rw [if_neg (by omega)]
        exact spineBits_eq_zero (n + 1) _ (by omega))
      (by omega)
      (by rw [level_level_pos_to_addr_zero s _ (by omega), hh])
      (by rw [hx1, level_level_pos_to_addr_one s _ (by omega) (by omega) (by omega), hh])
      (by omega) (by unfold buddyAddr; omega) (by unfold buddyAddr; omega)
      (hfl (n + 1) (by omega) (by omega)) b2 b3,
      get_parent_spine n (by omega), if_pos hhs]
    have e1 : (n + 1 + 255) % 256 = n := by omega
    have e2 : 0 / 2 = 0 := rfl
    rw [e1, e2]
    apply ih f _ (by omega) (by omega)
    refine ⟨hi, hh, ?_, ?_, ?_, ?_, ?_⟩
    · dsimp only
      rw [if_neg (by omega)]
      exact hf0
    · intro j h1 h2
      dsimp only
      rw [if_neg (by omega)]
      exact hfl j h1 (by omega)
    · intro j h1 h2
      dsimp only
      by_cases hj : j = n + 1
      · rw [if_pos hj]
      · rw [if_neg hj]
        exact hfj j (by omega) h2
    · intro i
      dsimp only
      rw [hbits i]
      by_cases hi2 : i = 2 ^ (n + 1) - 1
      · rw [if_pos hi2, hi2]
        exact (spineBits_eq_zero (n + 1) _ (le_refl _)).symm
      · rw [if_neg hi2]
        conv => lhs; unfold spineBits
        rw [if_neg hi2]
    · apply BuddyHdrs_of_eq_above hs n s.mem _ (by omega) hfit _
        (BuddyHdrs_mono hs (n + 1) n _ (by omega) hbud)
      intro x hx
      have hm := two_pow_mono n 10 (by omega)
      have h32 : 2 ^ (15 - 10) = 32 := rfl
      dsimp only
      simp (disch := omega) only [set_secret_key_outside, set_is_allocated_outside, set_task_tid_outside, set_level_pos_outside, set_next_outside, set_prev_outside]

theorem subU32_add_self (a c : Nat) (h : a + c < 4294967296) :
    subU32 (a + c) c = a ∧ subU32 (a + c) a = c := by
  unfold subU32
  omega

theorem addr_to_index_leaf (s : KMem) (hs c : Nat) (hh : s.heap_start = hs)
    (hc : c < 32768) (hfit : hs + 32768 ≤ 4294967296) (hbit : s.bitarray (1023 + c / 32) ≠ 0) :
    addr_to_index s (hs + c) = some (1023 + c / 32, 10) := by
  unfold addr_to_index
  dsimp only
  rw [hh, (subU32_add_self hs c (by omega)).2, Nat.mod_eq_of_lt (by omega : c / 32 < 65536),
    Nat.mod_eq_of_lt (by omega : 1023 + c / 32 < 65536)]
  unfold addr_to_index_loop
  rw [if_neg (by unfold BITARRAY_LEN; omega), if_neg hbit]

/-- The path of `k_mem_dealloc` through its five tests, for a block of the
smallest level allocated by the caller. -/
theorem k_mem_dealloc_leaf (k : KERNEL_CONFIG) (s : KMem) (p idx : Nat) (s1 : KMem)
    (hi : s.init_called = 1) (hp : p + 24 < 4294967296)
    (ha : AllocatedBy s.mem p (osGetTID k))
    (hidx : addr_to_index s (p + 24) = some (idx, 10))
    (hc : coalesce_loop s 12 idx 10 (index_level_to_level_pos idx 10) = some s1) :
    k_mem_dealloc k s (p + 24) = some (RTX_OK, s1) := by
  obtain ⟨a1, a2, a3⟩ := ha
  unfold k_mem_dealloc
  dsimp only
  rw [if_neg (by omega), if_neg (by unfold NULL; omega)]
  unfold SIZEOF_METADATA
  rw [(subU32_add_self p 24 hp).1, a1, a2, a3, if_neg (by simp), if_neg (by simp),
    if_neg (by simp), hidx]
  dsimp only
  rw [hc]

theorem AllocatedBy_congr (m m' : Nat → Nat) (p T : Nat) (hp : p + 24 ≤ 4294967296)
    (h : ∀ x, p ≤ x → x < p + 24 → m' x = m x) (ha : AllocatedBy m p T) :
    AllocatedBy m' p T := by
  obtain ⟨a1, a2, a3⟩ := ha
  unfold AllocatedBy
  rw [get_secret_key_congr m' m p (fun x h1 h2 => h x (by omega) (by omega)),
    get_is_allocated_congr m' m p hp (fun x h1 h2 => h x (by omega) (by omega)),
    get_task_tid_congr m' m p hp (fun x h1 h2 => h x (by omega) (by omega))]
  exact ⟨a1, a2, a3⟩

theorem level_level_pos_to_addr_leaf (s : KMem) (hs : Nat) (hh : s.heap_start = hs)
    (hfit : hs + 32768 ≤ 4294967296) :
    level_level_pos_to_addr s 10 0 = hs ∧ level_level_pos_to_addr s 10 1 = hs + 32 := by
  unfold level_level_pos_to_addr MAX_LEVEL
  rw [hh]
  exact ⟨addU32_eq_add hs _ (by omega), addU32_eq_add hs _ (by omega)⟩

/-- The call `k_mem_dealloc` for the block at `hs` while its buddy at `hs + 32` is still
allocated: the block becomes the only entry of `free_list[10]`. -/
theorem k_mem_dealloc_left_first (hs : Nat) (k : KERNEL_CONFIG) (s : KMem) (T : Nat)
    (bits : Nat → Nat) (hfit : hs + 32768 ≤ 4294967296) (hinv : LeafInv hs NULL bits s)
    (hb1 : bits 1023 ≠ 0) (hb2 : bits 1024 ≠ 0)
    (ha : AllocatedBy s.mem hs (osGetTID k)) (hy : AllocatedBy s.mem (hs + 32) T) :
    ∃ s1, k_mem_dealloc k s (hs + 24) = some (RTX_OK, s1) ∧
      LeafInv hs hs (fun i => if i = 1023 then 0 else bits i) s1 ∧
      get_next s1.mem hs = NULL ∧ get_prev s1.mem hs = NULL ∧
      AllocatedBy s1.mem (hs + 32) T := by
  obtain ⟨hi, hh, hf0, hfj, hf10, hbits, hbud⟩ := hinv
  have hidx : addr_to_index s (hs + 24) = some (1023, 10) :=
    addr_to_index_leaf s hs 24 hh (by omega) hfit (by rw [hbits]; exact hb1)
  have hpush := coalesce_loop_push s 11 1023 10 0 hs (by decide) (by decide) (by decide)
    (Or.inl ⟨by rw [hbits]; exact hb2, by decide⟩)
    (level_level_pos_to_addr_leaf s hs hh hfit).1 hf10
  refine ⟨_, k_mem_dealloc_leaf k s hs 1023 _ hi (by omega) ha hidx hpush, ?_⟩
  refine ⟨⟨hi, hh, ?_, ?_, ?_, ?_, ?_⟩, ?_, ?_, ?_⟩
  · dsimp only
    rw [if_neg (by omega)]
    exact hf0
  · intro j h1 h2
    dsimp only
    rw [if_neg (by omega)]
    exact hfj j h1 h2
  · simp
  · intro i
    dsimp only
    rw [hbits i]
  · apply BuddyHdrs_of_eq_above hs 9 s.mem _ (by omega) hfit _ hbud
    intro x hx
    have h64 : 2 ^ (15 - 9) = 64 := rfl
    dsimp only
    simp (disch := omega) only [set_secret_key_outside, set_is_allocated_outside, set_task_tid_outside, set_level_pos_outside, set_next_outside, set_prev_outside]
  · dsimp only
    simp (disch := omega) only [get_secret_key_set_secret_key, get_secret_key_set_is_allocated, get_secret_key_set_task_tid, get_secret_key_set_level_pos, get_secret_key_set_next, get_secret_key_set_prev, get_is_allocated_set_secret_key, get_is_allocated_set_is_allocated, get_is_allocated_set_task_tid, get_is_allocated_set_level_pos, get_is_allocated_set_next, get_is_allocated_set_prev, get_task_tid_set_secret_key, get_task_tid_set_is_allocated, get_task_tid_set_task_tid, get_task_tid_set_level_pos, get_task_tid_set_next, get_task_tid_set_prev, get_level_pos_set_secret_key, get_level_pos_set_is_allocated, get_level_pos_set_task_tid, get_level_pos_set_level_pos, get_level_pos_set_next, get_level_pos_set_prev, get_next_set_secret_key, get_next_set_is_allocated, get_next_set_task_tid, get_next_set_level_pos, get_next_set_next, get_next_set_prev, get_prev_set_secret_key, get_prev_set_is_allocated, get_prev_set_task_tid, get_prev_set_level_pos, get_prev_set_next, get_prev_set_prev, get_secret_key_set_secret_key_same, get_is_allocated_set_is_allocated_same, get_task_tid_set_task_tid_same, get_level_pos_set_level_pos_same, get_next_set_next_same, get_prev_set_prev_same]
    rfl
  · dsimp only
    simp (disch := omega) only [get_secret_key_set_secret_key, get_secret_key_set_is_allocated, get_secret_key_set_task_tid, get_secret_key_set_level_pos, get_secret_key_set_next, get_secret_key_set_prev, get_is_allocated_set_secret_key, get_is_allocated_set_is_allocated, get_is_allocated_set_task_tid, get_is_allocated_set_level_pos, get_is_allocated_set_next, get_is_allocated_set_prev, get_task_tid_set_secret_key, get_task_tid_set_is_allocated, get_task_tid_set_task_tid, get_task_tid_set_level_pos, get_task_tid_set_next, get_task_tid_set_prev, get_level_pos_set_secret_key, get_level_pos_set_is_allocated, get_level_pos_set_task_tid, get_level_pos_set_level_pos, get_level_pos_set_next, get_level_pos_set_prev, get_next_set_secret_key, get_next_set_is_allocated, get_next_set_task_tid, get_next_set_level_pos, get_next_set_next, get_next_set_prev, get_prev_set_secret_key, get_prev_set_is_allocated, get_prev_set_task_tid, get_prev_set_level_pos, get_prev_set_next, get_prev_set_prev, get_secret_key_set_secret_key_same, get_is_allocated_set_is_allocated_same, get_task_tid_set_task_tid_same, get_level_pos_set_level_pos_same, get_next_set_next_same, get_prev_set_prev_same]
    rfl
  · apply AllocatedBy_congr s.mem _ _ T (by omega) _ hy
    intro x h1 h2
    dsimp only
    simp (disch := omega) only [set_secret_key_outside, set_is_allocated_outside, set_task_tid_outside, set_level_pos_outside, set_next_outside, set_prev_outside]

/-- The call `k_mem_dealloc` for the block at `hs` while its buddy at `hs + 32` is free: the two
are merged, and so are the blocks of every level above, up to the root. -/
theorem k_mem_dealloc_left_second (hs : Nat) (k : KERNEL_CONFIG) (s : KMem)
    (bits : Nat → Nat) (h0 : 0 < hs) (hfit : hs + 32768 ≤ 4294967296)
    (hinv : LeafInv hs (hs + 32) bits s)
    (hb : ∀ i, (if i = 1023 then 0 else bits i) = spineBits 10 i)
    (hb1 : bits 1023 ≠ 0) (hb2 : bits 1024 = 0)
    (hnx : get_next s.mem (hs + 32) = NULL) (hpv : get_prev s.mem (hs + 32) = NULL)
    (ha : AllocatedBy s.mem hs (osGetTID k)) :
    ∃ s1, k_mem_dealloc k s (hs + 24) = some (RTX_OK, s1) ∧ WholeHeapFree hs s1 := by
  obtain ⟨hi, hh, hf0, hfj, hf10, hbits, hbud⟩ := hinv
  have hidx : addr_to_index s (hs + 24) = some (1023, 10) :=
    addr_to_index_leaf s hs 24 hh (by omega) hfit (by rw [hbits]; exact hb1)
  have hmerge := coalesce_loop_merge s 11 1023 10 0 hs (hs + 32) NULL (by decide) (by decide)
    (by decide) (by rw [hbits]; exact hb2) (by decide)
    (level_level_pos_to_addr_leaf s hs hh hfit).1
    (level_level_pos_to_addr_leaf s hs hh hfit).2
    (by omega) (by omega) (by omega) hf10 hnx hpv
  rw [if_neg (show ¬ NULL ≠ NULL by simp)] at hmerge
  have e1 : get_parent 1023 = 2 ^ 9 - 1 := rfl
  have e2 : (10 + 255) % 256 = 9 := rfl
  have e3 : 0 / 2 = 0 := rfl
  rw [e1, e2, e3] at hmerge
  have hspine : ∀ s2 : KMem, coalesce_loop s (11 + 1) 1023 10 0 =
      coalesce_loop s2 11 (2 ^ 9 - 1) 9 0 → SpineInv hs 9 (spineBits (9 + 1)) s2 →
      ∃ s1, k_mem_dealloc k s (hs + 24) = some (RTX_OK, s1) ∧ WholeHeapFree hs s1 := by
    intro s2 hm hinv2
    obtain ⟨s1, hs1, hfree⟩ := coalesce_loop_spine hs h0 hfit 9 11 s2 (by omega) (by omega) hinv2
    exact ⟨s1, k_mem_dealloc_leaf k s hs 1023 s1 hi (by omega) ha hidx (hm.trans hs1), hfree⟩
  exact hspine _ hmerge
    ⟨hi, hh, hf0, fun j h1 h2 => by
          dsimp only
          rw [if_neg (by omega)]
          exact hfj j h1 h2,
        fun j h1 h2 => by
          dsimp only
          rw [if_pos (by omega)],
        fun i => by
          dsimp only
          rw [hbits i]
          exact hb i,
        by
          apply BuddyHdrs_of_eq_above hs 9 s.mem _ (by omega) hfit _ hbud
          intro x hx
          have h64 : 2 ^ (15 - 9) = 64 := rfl
          dsimp only
          simp (disch := omega) only [set_secret_key_outside, set_is_allocated_outside, set_task_tid_outside, set_level_pos_outside, set_next_outside, set_prev_outside]⟩

/-- The call `k_mem_dealloc` for the block at `hs + 32` while its buddy at `hs` is still
allocated: the block becomes the only entry of `free_list[10]`. -/
theorem k_mem_dealloc_right_first (hs : Nat) (k : KERNEL_CONFIG) (s : KMem) (T : Nat)
    (bits : Nat → Nat) (hfit : hs + 32768 ≤ 4294967296) (hinv : LeafInv hs NULL bits s)
    (hb1 : bits 1024 ≠ 0) (hb2 : bits 1023 ≠ 0)
    (ha : AllocatedBy s.mem (hs + 32) (osGetTID k)) (hy : AllocatedBy s.mem hs T) :
    ∃ s1, k_mem_dealloc k s (hs + 56) = some (RTX_OK, s1) ∧
      LeafInv hs (hs + 32) (fun i => if i = 1024 then 0 else bits i) s1 ∧
      get_next s1.mem (hs + 32) = NULL ∧ get_prev s1.mem (hs + 32) = NULL ∧
      AllocatedBy s1.mem hs T := by
  obtain ⟨hi, hh, hf0, hfj, hf10, hbits, hbud⟩ := hinv
  have hidx : addr_to_index s (hs + 56) = some (1024, 10) :=
    addr_to_index_leaf s hs 56 hh (by omega) hfit (by rw [hbits]; exact hb1)
  have hpush := coalesce_loop_push s 11 1024 10 1 (hs + 32) (by decide) (by decide) (by decide)
    (Or.inl ⟨by rw [hbits]; exact hb2, by decide⟩)
    (level_level_pos_to_addr_leaf s hs hh hfit).2 hf10
  refine ⟨_, k_mem_dealloc_leaf k s (hs + 32) 1024 _ hi (by omega) ha hidx hpush, ?_⟩
  refine ⟨⟨hi, hh, ?_, ?_, ?_, ?_, ?_⟩, ?_, ?_, ?_⟩
  · dsimp only
    rw [if_neg (by omega)]
    exact hf0
  · intro j h1 h2
    dsimp only
    rw [if_neg (by omega)]
    exact hfj j h1 h2
  · simp
  · intro i
    dsimp only
    rw [hbits i]
  · apply BuddyHdrs_of_eq_above hs 9 s.mem _ (by omega) hfit _ hbud
    intro x hx
    have h64 : 2 ^ (15 - 9) = 64 := rfl
    dsimp only
    simp (disch := omega) only [set_secret_key_outside, set_is_allocated_outside, set_task_tid_outside, set_level_pos_outside, set_next_outside, set_prev_outside]
  · dsimp only
    simp (disch := omega) only [get_secret_key_set_secret_key, get_secret_key_set_is_allocated, get_secret_key_set_task_tid, get_secret_key_set_level_pos, get_secret_key_set_next, get_secret_key_set_prev, get_is_allocated_set_secret_key, get_is_allocated_set_is_allocated, get_is_allocated_set_task_tid, get_is_allocated_set_level_pos, get_is_allocated_set_next, get_is_allocated_set_prev, get_task_tid_set_secret_key, get_task_tid_set_is_allocated, get_task_tid_set_task_tid, get_task_tid_set_level_pos, get_task_tid_set_next, get_task_tid_set_prev, get_level_pos_set_secret_key, get_level_pos_set_is_allocated, get_level_pos_set_task_tid, get_level_pos_set_level_pos, get_level_pos_set_next, get_level_pos_set_prev, get_next_set_secret_key, get_next_set_is_allocated, get_next_set_task_tid, get_next_set_level_pos, get_next_set_next, get_next_set_prev, get_prev_set_secret_key, get_prev_set_is_allocated, get_prev_set_task_tid, get_prev_set_level_pos, get_prev_set_next, get_prev_set_prev, get_secret_key_set_secret_key_same, get_is_allocated_set_is_allocated_same, get_task_tid_set_task_tid_same, get_level_pos_set_level_pos_same, get_next_set_next_same, get_prev_set_prev_same]
    rfl
  · dsimp only
    simp (disch := omega) only [get_secret_key_set_secret_key, get_secret_key_set_is_allocated, get_secret_key_set_task_tid, get_secret_key_set_level_pos, get_secret_key_set_next, get_secret_key_set_prev, get_is_allocated_set_secret_key, get_is_allocated_set_is_allocated, get_is_allocated_set_task_tid, get_is_allocated_set_level_pos, get_is_allocated_set_next, get_is_allocated_set_prev, get_task_tid_set_secret_key, get_task_tid_set_is_allocated, get_task_tid_set_task_tid, get_task_tid_set_level_pos, get_task_tid_set_next, get_task_tid_set_prev, get_level_pos_set_secret_key, get_level_pos_set_is_allocated, get_level_pos_set_task_tid, get_level_pos_set_level_pos, get_level_pos_set_next, get_level_pos_set_prev, get_next_set_secret_key, get_next_set_is_allocated, get_next_set_task_tid, get_next_set_level_pos, get_next_set_next, get_next_set_prev, get_prev_set_secret_key, get_prev_set_is_allocated, get_prev_set_task_tid, get_prev_set_level_pos, get_prev_set_next, get_prev_set_prev, get_secret_key_set_secret_key_same, get_is_allocated_set_is_allocated_same, get_task_tid_set_task_tid_same, get_level_pos_set_level_pos_same, get_next_set_next_same, get_prev_set_prev_same]
    rfl
  · apply AllocatedBy_congr s.mem _ _ T (by omega) _ hy
    intro x h1 h2
    dsimp only
    simp (disch := omega) only [set_secret_key_outside, set_is_allocated_outside, set_task_tid_outside, set_level_pos_outside, set_next_outside, set_prev_outside]

/-- The call `k_mem_dealloc` for the block at `hs + 32` while its buddy at `hs` is free: the two
are merged, and so are the blocks of every level above, up to the root. -/
theorem k_mem_dealloc_right_second (hs : Nat) (k : KERNEL_CONFIG) (s : KMem)
    (bits : Nat → Nat) (h0 : 0 < hs) (hfit : hs + 32768 ≤ 4294967296)
    (hinv : LeafInv hs hs bits s)
    (hb : ∀ i, (if i = 1024 then 0 else bits i) = spineBits 10 i)
    (hb1 : bits 1024 ≠ 0) (hb2 : bits 1023 = 0)
    (hnx : get_next s.mem hs = NULL) (hpv : get_prev s.mem hs = NULL)
    (ha : AllocatedBy s.mem (hs + 32) (osGetTID k)) :
    ∃ s1, k_mem_dealloc k s (hs + 56) = some (RTX_OK, s1) ∧ WholeHeapFree hs s1 := by
  obtain ⟨hi, hh, hf0, hfj, hf10, hbits, hbud⟩ := hinv
  have hidx : addr_to_index s (hs + 56) = some (1024, 10) :=
    addr_to_index_leaf s hs 56 hh (by omega) hfit (by rw [hbits]; exact hb1)
  have hmerge := coalesce_loop_merge s 11 1024 10 1 (hs + 32) hs NULL (by decide) (by decide)
    (by decide) (by rw [hbits]; exact hb2) (by decide)
    (level_level_pos_to_addr_leaf s hs hh hfit).2
    (level_level_pos_to_addr_leaf s hs hh hfit).1
    (by omega) (by omega) (by omega) hf10 hnx hpv
  rw [if_neg (show ¬ NULL ≠ NULL by simp)] at hmerge
  have e1 : get_parent 1024 = 2 ^ 9 - 1 := rfl
  have e2 : (10 + 255) % 256 = 9 := rfl
  have e3 : 1 / 2 = 0 := rfl
  rw [e1, e2, e3] at hmerge
  have hspine : ∀ s2 : KMem, coalesce_loop s (11 + 1) 1024 10 1 =
      coalesce_loop s2 11 (2 ^ 9 - 1) 9 0 → SpineInv hs 9 (spineBits (9 + 1)) s2 →
      ∃ s1, k_mem_dealloc k s (hs + 56) = some (RTX_OK, s1) ∧ WholeHeapFree hs s1 := by
    intro s2 hm hinv2
    obtain ⟨s1, hs1, hfree⟩ := coalesce_loop_spine hs h0 hfit 9 11 s2 (by omega) (by omega) hinv2
    exact ⟨s1, k_mem_dealloc_leaf k s (hs + 32) 1024 s1 hi (by omega) ha hidx (hm.trans hs1), hfree⟩
  exact hspine _ hmerge
    ⟨hi, hh, hf0, fun j h1 h2 => by
          dsimp only
          rw [if_neg (by omega)]
          exact hfj j h1 h2,
        fun j h1 h2 => by
          dsimp only
          rw [if_pos (by omega)],
        fun i => by
          dsimp only
          rw [hbits i]
          exact hb i,
        by
          apply BuddyHdrs_of_eq_above hs 9 s.mem _ (by omega) hfit _ hbud
          intro x hx
          have h64 : 2 ^ (15 - 9) = 64 := rfl
          dsimp only
          simp (disch := omega) only [set_secret_key_outside, set_is_allocated_outside, set_task_tid_outside, set_level_pos_outside, set_next_outside, set_prev_outside]⟩

/-- A successful `k_mem_init` at `hs` leaves the state from which the splits
down the left spine start. -/
theorem k_mem_init_SplitInv (k : KERNEL_CONFIG) (s : KMem) (hs : Nat) (hr : MemReachable s)
    (hinit : s.init_called = 0) (hrun : k.is_running ≠ FALSE) (hlt : hs < 4294967296) :
    SplitInv hs 0 (k_mem_init k s hs).2 := by
  have hzero : ∀ i, s.bitarray i = 0 := by
    rcases memReachable_init_called s hr with ⟨_, hb⟩ | h1
    · exact hb
    · omega
  have hhead : addU32 hs 0 = hs := addU32_zero_of_lt hs hlt
  have hL := get_level_pos_after_init s.mem hs
  have hN := get_next_after_init s.mem hs
  rw [hhead] at hL hN
  unfold k_mem_init
  dsimp only
  rw [if_neg (by rw [hinit]; simp [hrun])]
  dsimp only
  refine ⟨?_, ?_, ?_, ?_, ?_, ?_, ?_, ?_, ?_⟩
  · rw [(foldl_setFree_fields _ _).1]
    rfl
  · rw [(foldl_setFree_fields _ _).2.2.1]
    rfl
  · rw [foldl_setFree_free_list]
    simp [setFree, index_to_addr_zero, hhead]
  · intro j hj
    omega
  · intro j h1 h2
    rw [foldl_setFree_free_list]
    have : j ∈ List.range' 1 10 := by
      rw [List.mem_range'_1]
      omega
    rw [if_pos this]
  · intro i
    rw [(foldl_setFree_fields _ _).2.1, if_pos rfl]
    exact hzero i
  · rw [(foldl_setFree_fields _ _).2.2.2]
    simp only [setFree, index_to_addr_zero, hhead]
    exact hL
  · rw [(foldl_setFree_fields _ _).2.2.2, if_pos rfl]
    simp only [setFree, index_to_addr_zero, hhead]
    exact hN
  · intro j h1 h2
    omega

/-- C11: on a freshly initialised heap at `hs` (the state that a successful
`k_mem_init` leaves, for a heap that lies in the address space and does not
start at address 0), two allocations that are served at the smallest level 10
return the two buddy blocks at `hs` and `hs + 32` (pointers `hs + 24` and
`hs + 56`), and `k_mem_dealloc` of both pointers, in either order, returns
`RTX_OK` twice and leaves the heap with `free_list[0]` holding the one block at
`hs` with no successor, `free_list[1..10]` empty and every entry of the bit
array 0. -/
theorem k_mem_dealloc_buddies_coalesce (k : KERNEL_CONFIG) (s0 : KMem) (hs size1 size2 : Nat)
    (hr : MemReachable s0) (hinit : s0.init_called = 0) (hrun : k.is_running ≠ FALSE)
    (htid : k.running_task < 4294967296) (h0 : 0 < hs) (hfit : hs + 32768 ≤ 4294967296)
    (h1 : alloc_level size1 MAX_LEVEL = 10) (h2 : alloc_level size2 MAX_LEVEL = 10) :
    ∃ s1 s2, k_mem_alloc k (k_mem_init k s0 hs).2 size1 = some (hs + 24, s1) ∧
      k_mem_alloc k s1 size2 = some (hs + 56, s2) ∧
      (∃ s3 s4, k_mem_dealloc k s2 (hs + 24) = some (RTX_OK, s3) ∧
        k_mem_dealloc k s3 (hs + 56) = some (RTX_OK, s4) ∧ WholeHeapFree hs s4) ∧
      (∃ s3 s4, k_mem_dealloc k s2 (hs + 56) = some (RTX_OK, s3) ∧
        k_mem_dealloc k s3 (hs + 24) = some (RTX_OK, s4) ∧ WholeHeapFree hs s4) := by
  have hfresh := k_mem_init_SplitInv k s0 hs hr hinit hrun (by omega)
  obtain ⟨s1, ha1, hinv1, hlp1, hnx1, hown1⟩ :=
    k_mem_alloc_first hs k _ size1 h0 hfit hfresh h1 htid
  obtain ⟨s2, ha2, hinv2, hownL, hownR⟩ :=
    k_mem_alloc_second hs k s1 size2 (osGetTID k) h0 hfit hinv1 hlp1 hnx1 hown1 h2 htid
  have hb1023 : (fun i => if i = 1024 then 1 else spineBits 11 i) 1023 ≠ 0 := by decide
  have hb1024 : (fun i => if i = 1024 then 1 else spineBits 11 i) 1024 ≠ 0 := by decide
  have hbits : ∀ i a b, ((a = 1023 ∧ b = 1024) ∨ (a = 1024 ∧ b = 1023)) →
      (if i = a then 0 else if i = b then 0 else if i = 1024 then 1 else spineBits 11 i) =
        spineBits 10 i := by
    intro i a b hab
    have z1 := spineBits_eq_zero 10 1023 (by decide)
    have z2 := spineBits_eq_zero 10 1024 (by decide)
    have e : spineBits 11 i = if i = 1023 then 1 else spineBits 10 i := by
      conv => lhs; unfold spineBits
      rfl
    rw [e]
    rcases hab with ⟨rfl, rfl⟩ | ⟨rfl, rfl⟩ <;> split_ifs <;> simp_all
  refine ⟨s1, s2, ha1, ha2, ?_, ?_⟩
  · obtain ⟨s3, hd1, hinv3, hnx3, hpv3, hown3⟩ :=
      k_mem_dealloc_left_first hs k s2 (osGetTID k) _ hfit hinv2 hb1023 hb1024 hownL hownR
    obtain ⟨s4, hd2, hfree⟩ := k_mem_dealloc_right_second hs k s3 _ h0 hfit hinv3
      (fun i => hbits i 1024 1023 (Or.inr ⟨rfl, rfl⟩)) (by decide) (by decide) hnx3 hpv3 hown3
    exact ⟨s3, s4, hd1, hd2, hfree⟩
  · obtain ⟨s3, hd1, hinv3, hnx3, hpv3, hown3⟩ :=
      k_mem_dealloc_right_first hs k s2 (osGetTID k) _ hfit hinv2 hb1024 hb1023 hownR hownL
    obtain ⟨s4, hd2, hfree⟩ := k_mem_dealloc_left_second hs k s3 _ h0 hfit hinv3
      (fun i => hbits i 1023 1024 (Or.inl ⟨rfl, rfl⟩)) (by decide) (by decide) hnx3 hpv3 hown3
    exact ⟨s3, s4, hd1, hd2, hfree⟩

/-- C11 at a concrete heap: `k_mem_init` at `HEAP` over zeroed globals, with
two allocations of 56 bytes. -/
theorem k_mem_dealloc_buddies_coalesce_witness :
    ∃ s1 s2, k_mem_alloc kInit (k_mem_init kInit memZero HEAP).2 56 = some (HEAP + 24, s1) ∧
      k_mem_alloc kInit s1 56 = some (HEAP + 56, s2) ∧
      (∃ s3 s4, k_mem_dealloc kInit s2 (HEAP + 24) = some (RTX_OK, s3) ∧
        k_mem_dealloc kInit s3 (HEAP + 56) = some (RTX_OK, s4) ∧ WholeHeapFree HEAP s4) ∧
      (∃ s3 s4, k_mem_dealloc kInit s2 (HEAP + 56) = some (RTX_OK, s3) ∧
        k_mem_dealloc kInit s3 (HEAP + 24) = some (RTX_OK, s4) ∧ WholeHeapFree HEAP s4) :=
  k_mem_dealloc_buddies_coalesce kInit memZero HEAP 56 56 (MemReachable.start _) rfl
    (by decide) (by decide) (by decide) (by decide) (by decide) (by decide)

/-! ## Properties of task creation -/

theorem find_dormant_slot_none (k : KERNEL_CONFIG) (n : Nat) :
    ∀ i, (∀ j, i ≤ j → j < i + n → (k.TCBS j).tid ≠ TID_DORMANT) →
      find_dormant_slot k i n = none := by
  induction n with
  | zero => intro i _; rfl
  | succ n ih =>
    intro i h
    unfold find_dormant_slot
    rw [if_neg (h i (le_refl _) (by omega))]
    exact ih (i + 1) (fun j h1 h2 => h j (by omega) (by omega))

theorem find_dormant_slot_some (k : KERNEL_CONFIG) (n : Nat) :
    ∀ i c, find_dormant_slot k i n = some c →
      i ≤ c ∧ c < i + n ∧ (k.TCBS c).tid = TID_DORMANT ∧
      ∀ j, i ≤ j → j < c → (k.TCBS j).tid ≠ TID_DORMANT := by
  induction n with
  | zero => intro i c h; simp [find_dormant_slot] at h
  | succ n ih =>
    intro i c h
    unfold find_dormant_slot at h
    by_cases hd : (k.TCBS i).tid = TID_DORMANT
    · rw [if_pos hd] at h
      have hc : i = c := by simpa using h
      subst hc
      exact ⟨le_refl _, by omega, hd, fun j h1 h2 => by omega⟩
    · rw [if_neg hd] at h
      obtain ⟨a, b, c1, d⟩ := ih (i + 1) c h
      refine ⟨by omega, by omega, c1, fun j h1 h2 => ?_⟩
      by_cases hji : j = i
      · rw [hji]; exact hd
      · exact d j (by omega) h2

/-! The initial stack frame. -/

theorem ne_subU32_of_outside (top x c : Nat) (hx : x < 4294967296)
    (hw : ¬ (1 ≤ subU32 top x ∧ subU32 top x ≤ 64)) (hc1 : 1 ≤ c) (hc2 : c ≤ 64) :
    x ≠ subU32 top c := by
  intro h
  apply hw
  have hc : c % 4294967296 = c := Nat.mod_eq_of_lt (by omega)
  have hxm : x % 4294967296 = x := Nat.mod_eq_of_lt hx
  unfold subU32 at *
  rw [hc] at h
  rw [hxm]
  omega

theorem push_word_snd (st : (Nat → Nat) × Nat) (v : Nat) : (push_word st v).2 = subU32 st.2 4 := rfl

/-- A push changes no byte outside the word just below the stack pointer. -/
theorem push_word_outside (st : (Nat → Nat) × Nat) (v x : Nat) (hx : x < 4294967296)
    (hw : ¬ (1 ≤ subU32 st.2 x ∧ subU32 st.2 x ≤ 4)) : (push_word st v).1 x = st.1 x := by
  have h0 : x ≠ subU32 st.2 4 := by unfold subU32 at *; omega
  have h1 : x ≠ addU32 (subU32 st.2 4) 1 := by unfold subU32 addU32 at *; omega
  have h2 : x ≠ addU32 (subU32 st.2 4) 2 := by unfold subU32 addU32 at *; omega
  have h3 : x ≠ addU32 (subU32 st.2 4) 3 := by unfold subU32 addU32 at *; omega
  simp only [push_word, write32, write8_apply, h0, h1, h2, h3, if_false]

theorem push_markers_snd (n : Nat) : ∀ st : (Nat → Nat) × Nat, st.2 < 4294967296 → n ≤ 1000 →
    (push_markers n st).2 = subU32 st.2 (4 * n) := by
  induction n with
  | zero => intro st h _; simp only [push_markers]; unfold subU32; omega
  | succ n ih =>
    intro st h hn
    simp only [push_markers]
    rw [ih _ (by rw [push_word_snd]; unfold subU32; omega) (by omega), push_word_snd]
    unfold subU32
    omega

theorem push_markers_outside (n : Nat) : ∀ (st : (Nat → Nat) × Nat) (x : Nat),
    x < 4294967296 → n ≤ 1000 → ¬ (1 ≤ subU32 st.2 x ∧ subU32 st.2 x ≤ 4 * n) →
    (push_markers n st).1 x = st.1 x := by
  induction n with
  | zero => intro st x _ _ _; rfl
  | succ n ih =>
    intro st x hx hn hw
    simp only [push_markers]
    rw [ih (push_word st 10) x hx (by omega) (by rw [push_word_snd]; unfold subU32 at *; omega)]
    exact push_word_outside st 10 x hx (by unfold subU32 at *; omega)

theorem subU32_lt (a b : Nat) : subU32 a b < 4294967296 := by
  unfold subU32
  omega

theorem read32_push_word_same (st : (Nat → Nat) × Nat) (v : Nat) :
    read32 (push_word st v).1 (subU32 st.2 4) = v % 4294967296 :=
  read32_write32_same st.1 (subU32 st.2 4) v

/-- A word at or above the stack pointer survives `n` more pushes. -/
theorem read32_push_markers_above (n : Nat) (st : (Nat → Nat) × Nat) (a : Nat)
    (hn : n ≤ 1000) (ha : a < 4294967296)
    (hab : subU32 a st.2 ≤ 1000000) :
    read32 (push_markers n st).1 a = read32 st.1 a := by
  apply read32_congr _ _ _ _ ha
  intro i hi
  apply push_markers_outside n st _ (by unfold addU32; omega) hn
  unfold subU32 addU32 at *
  omega

theorem push_markers_words (n : Nat) : ∀ (st : (Nat → Nat) × Nat) (j : Nat),
    st.2 < 4294967296 → n ≤ 1000 → j < n →
    read32 (push_markers n st).1 (addU32 (subU32 st.2 (4 * n)) (4 * j)) = 10 := by
  induction n with
  | zero => intro st j _ _ hj; omega
  | succ n ih =>
    intro st j hs hn hj
    simp only [push_markers]
    by_cases hjn : j = n
    · subst hjn
      have haddr : addU32 (subU32 st.2 (4 * (j + 1))) (4 * j) = subU32 st.2 4 := by
        unfold subU32 addU32
        omega
      rw [haddr, read32_push_markers_above j (push_word st 10) _ (by omega) (subU32_lt _ _)
        (by rw [push_word_snd]; unfold subU32; omega)]
      exact read32_push_word_same st 10
    · have haddr : subU32 st.2 (4 * (n + 1)) = subU32 (push_word st 10).2 (4 * n) := by
        rw [push_word_snd]
        unfold subU32
        omega
      rw [haddr]
      exact ih (push_word st 10) j (by rw [push_word_snd]; exact subU32_lt _ _) (by omega)
        (by omega)

/-- The frame that `push_frame` builds below `top`: the stack pointer ends 64
bytes below `top`, the word below `top` is xPSR with the Thumb bit, the next
one is the entry address, and the fourteen words from the final stack pointer
upwards hold 0xA. -/
theorem push_frame_layout (mem : Nat → Nat) (top e : Nat) :
    (push_frame mem top e).2 = subU32 top 64 ∧
    read32 (push_frame mem top e).1 (subU32 top 4) = 16777216 ∧
    read32 (push_frame mem top e).1 (subU32 top 8) = e % 4294967296 ∧
    ∀ j, j < 14 → read32 (push_frame mem top e).1 (addU32 (subU32 top 64) (4 * j)) = 10 := by
  have hsp2 : (push_word (push_word (mem, top) (2 ^ 24)) e).2 = subU32 top 8 := by
    simp only [push_word_snd]
    unfold subU32
    omega
  refine ⟨?_, ?_, ?_, ?_⟩
  · unfold push_frame
    rw [push_markers_snd 14 _ (by rw [hsp2]; exact subU32_lt _ _) (by omega), hsp2]
    unfold subU32
    omega
  · unfold push_frame
    rw [read32_push_markers_above 14 _ _ (by omega) (subU32_lt _ _)
      (by rw [hsp2]; unfold subU32; omega)]
    have h1 : read32 (push_word (push_word (mem, top) (2 ^ 24)) e).1 (subU32 top 4) =
        read32 (push_word (mem, top) (2 ^ 24)).1 (subU32 top 4) := by
      apply read32_congr _ _ _ _ (subU32_lt _ _)
      intro i hi
      apply push_word_outside _ _ _ (by unfold addU32; omega)
      rw [push_word_snd]
      unfold subU32 addU32
      omega
    rw [h1]
    exact read32_push_word_same (mem, top) (2 ^ 24)
  · unfold push_frame
    rw [read32_push_markers_above 14 _ _ (by omega) (subU32_lt _ _)
      (by rw [hsp2]; unfold subU32; omega)]
    have haddr : subU32 top 8 = subU32 (push_word (mem, top) (2 ^ 24)).2 4 := by
      rw [push_word_snd]
      unfold subU32
      omega
    rw [haddr]
    exact read32_push_word_same _ e
  · intro j hj
    unfold push_frame
    have haddr : subU32 top 64 = subU32 (push_word (push_word (mem, top) (2 ^ 24)) e).2 (4 * 14) := by
      rw [hsp2]
      unfold subU32
      omega
    rw [haddr]
    exact push_markers_words 14 _ j (by rw [hsp2]; exact subU32_lt _ _) (by omega) hj

/-- The frame that `push_frame` builds below `top` changes no byte outside the
64 bytes below `top`. -/
theorem push_frame_outside (mem : Nat → Nat) (top e x : Nat) (hx : x < 4294967296)
    (hw : ¬ (1 ≤ subU32 top x ∧ subU32 top x ≤ 64)) :
    (push_frame mem top e).1 x = mem x := by
  unfold push_frame
  rw [push_markers_outside 14 _ x hx (by omega)
    (by simp only [push_word_snd]; unfold subU32 at *; omega)]
  rw [push_word_outside _ _ x hx (by simp only [push_word_snd]; unfold subU32 at *; omega)]
  exact push_word_outside _ _ x hx (by unfold subU32 at *; omega)

/-! What a successful `osCreateDeadlineTask` has done. -/

theorem ite_ContextSwitch_kernel_config (c : Prop) [Decidable c] (m : Machine) :
    (if c then ContextSwitch m else m).kernel_config = m.kernel_config := by
  split_ifs
  · exact (ContextSwitch_kernel_config m).1
  · rfl

/-- The path of `osCreateDeadlineTask` that returns `RTX_OK`: the argument
tests pass, the search finds the slot `c`, `k_mem_alloc` returns a non-null
`p`, and the slot, the counter, the memory and the caller's `TCB` are as the
function leaves them. -/
theorem osCreateDeadlineTask_ok_fields (m : Machine) (s : KMem) (deadline : Int)
    (task : Option TCB) (r : CreateResult)
    (h : osCreateDeadlineTask m s deadline task = some r) (hok : r.ret = RTX_OK) :
    ∃ t c p s1, task = some t ∧ 0 < deadline ∧ t.ptask ≠ NULL ∧ STACK_SIZE ≤ t.stack_size ∧
      m.kernel_config.num_running_tasks < MAX_TASKS ∧
      find_dormant_slot m.kernel_config 1 (MAX_TASKS - 1) = some c ∧
      k_mem_alloc (setTCB m.kernel_config c { t with tid := c }) s t.stack_size = some (p, s1) ∧
      p ≠ NULL ∧
      r.kmem.mem = (push_frame (set_task_tid s1.mem (subU32 p SIZEOF_METADATA) c)
        (addU32 p t.stack_size) t.ptask).1 ∧
      r.kmem.bitarray = s1.bitarray ∧ r.kmem.free_list = s1.free_list ∧
      r.kmem.init_called = s1.init_called ∧ r.kmem.heap_start = s1.heap_start ∧
      (r.machine.kernel_config.TCBS c).tid = c ∧
      (r.machine.kernel_config.TCBS c).state = TASK_READY ∧
      (r.machine.kernel_config.TCBS c).deadline = toU32 deadline ∧
      (r.machine.kernel_config.TCBS c).remaining_time = toU32 deadline ∧
      (r.machine.kernel_config.TCBS c).remaining_sleep_time = DEFAULT_SLEEP_TIME ∧
      (r.machine.kernel_config.TCBS c).ptask = t.ptask ∧
      (r.machine.kernel_config.TCBS c).stack_size = t.stack_size ∧
      (r.machine.kernel_config.TCBS c).p_stack_mem = p ∧
      (r.machine.kernel_config.TCBS c).stack_high = addU32 p t.stack_size ∧
      (r.machine.kernel_config.TCBS c).SP =
        (push_frame (set_task_tid s1.mem (subU32 p SIZEOF_METADATA) c)
          (addU32 p t.stack_size) t.ptask).2 ∧
      (∀ j, j ≠ c → r.machine.kernel_config.TCBS j = m.kernel_config.TCBS j) ∧
      r.machine.kernel_config.num_running_tasks =
        (m.kernel_config.num_running_tasks + 1) % 256 ∧
      r.machine.kernel_config.is_running = m.kernel_config.is_running ∧
      r.machine.kernel_config.running_task = m.kernel_config.running_task ∧
      r.task = some { t with tid := c } := by
  unfold osCreateDeadlineTask at h
  cases task with
  | none =>
    simp only [Option.some.injEq] at h
    rw [← h] at hok
    simp [RTX_OK, RTX_ERR] at hok
  | some t =>
    dsimp only at h
    by_cases hc : m.kernel_config.num_running_tasks ≥ MAX_TASKS ∨ deadline ≤ 0 ∨ t.ptask = NULL ∨
        t.stack_size < STACK_SIZE
    · rw [if_pos hc] at h
      simp only [Option.some.injEq] at h
      rw [← h] at hok
      simp [RTX_OK, RTX_ERR] at hok
    · rw [if_neg hc] at h
      cases hf : find_dormant_slot m.kernel_config 1 (MAX_TASKS - 1) with
      | none =>
        rw [hf] at h
        simp only [Option.some.injEq] at h
        rw [← h] at hok
        simp [RTX_OK, RTX_ERR] at hok
      | some c =>
        rw [hf] at h
        dsimp only at h
        cases ha : k_mem_alloc (setTCB m.kernel_config c { t with tid := c }) s t.stack_size with
        | none =>
          rw [ha] at h
          simp at h
        | some v =>
          obtain ⟨p, s1⟩ := v
          rw [ha] at h
          dsimp only at h
          by_cases hp : p = NULL
          · rw [if_pos hp] at h
            simp only [Option.some.injEq] at h
            rw [← h] at hok
            simp [RTX_OK, RTX_ERR] at hok
          · rw [if_neg hp] at h
            simp only [Option.some.injEq] at h
            refine ⟨t, c, p, s1, rfl, ?_, ?_, ?_, ?_, rfl, ha, hp, ?_⟩
            · by_contra hd
              exact hc (Or.inr (Or.inl (by omega)))
            · exact fun hd => hc (Or.inr (Or.inr (Or.inl hd)))
            · by_contra hd
              exact hc (Or.inr (Or.inr (Or.inr (by omega))))
            · by_contra hd
              exact hc (Or.inl (by omega))
            · rw [← h]
              refine ⟨?_, ?_, ?_, ?_, ?_, ?_, ?_, ?_, ?_, ?_, ?_, ?_, ?_, ?_, ?_, ?_, ?_, ?_,
                ?_, ?_⟩
              all_goals first
                | (intro j hj; simp [setTCB, hj, ite_ContextSwitch_kernel_config])
                | simp [setTCB, transfer_memory, ite_ContextSwitch_kernel_config]

theorem eq_some_getD_of_isSome {α : Type} (o : Option α) (d : α) (h : o.isSome = true) :
    o = some (o.getD d) := by
  cases o with
  | none => simp at h
  | some v => rfl

theorem toU32_cast_of_pos (d : Int) (h0 : 0 < d) (h1 : d ≤ INT_MAX) : (toU32 d : Int) = d := by
  unfold toU32
  unfold INT_MAX at h1
  rw [Int.toNat_of_nonneg (by omega)]
  omega

/-! The slots that a sequence of `osCreateTask` calls takes. -/

theorem find_dormant_slot_none_imp (k : KERNEL_CONFIG) (n : Nat) :
    ∀ i, find_dormant_slot k i n = none →
      ∀ j, i ≤ j → j < i + n → (k.TCBS j).tid ≠ TID_DORMANT := by
  induction n with
  | zero => intro i _ j h1 h2; omega
  | succ n ih =>
    intro i h j h1 h2
    unfold find_dormant_slot at h
    by_cases hd : (k.TCBS i).tid = TID_DORMANT
    · rw [if_pos hd] at h
      simp at h
    · rw [if_neg hd] at h
      by_cases hij : j = i
      · rw [hij]; exact hd
      · exact ih (i + 1) h j (by omega) (by omega)

/-- A call of `osCreateDeadlineTask` that returns either leaves everything as
it was and returns `RTX_ERR` (an argument test failed or no slot is dormant),
or has written `tid = c` into the dormant slot `c` that the search found, has
left the other slots alone and has added at most one to `num_running_tasks`. -/
theorem osCreateDeadlineTask_slot_cases (m : Machine) (s : KMem) (deadline : Int) (t : TCB)
    (r : CreateResult) (h : osCreateDeadlineTask m s deadline (some t) = some r) :
    ((m.kernel_config.num_running_tasks ≥ MAX_TASKS ∨ deadline ≤ 0 ∨ t.ptask = NULL ∨
        t.stack_size < STACK_SIZE ∨ find_dormant_slot m.kernel_config 1 (MAX_TASKS - 1) = none) ∧
      r = { ret := RTX_ERR, machine := m, kmem := s, task := some t }) ∨
    (∃ c, find_dormant_slot m.kernel_config 1 (MAX_TASKS - 1) = some c ∧
      (r.machine.kernel_config.TCBS c).tid = c ∧
      (∀ j, j ≠ c → r.machine.kernel_config.TCBS j = m.kernel_config.TCBS j) ∧
      r.machine.kernel_config.num_running_tasks ≤ m.kernel_config.num_running_tasks + 1) := by
  unfold osCreateDeadlineTask at h
  dsimp only at h
  by_cases hc : m.kernel_config.num_running_tasks ≥ MAX_TASKS ∨ deadline ≤ 0 ∨ t.ptask = NULL ∨
      t.stack_size < STACK_SIZE
  · rw [if_pos hc] at h
    simp only [Option.some.injEq] at h
    left
    refine ⟨?_, h.symm⟩
    rcases hc with h1 | h1 | h1 | h1
    · exact Or.inl h1
    · exact Or.inr (Or.inl h1)
    · exact Or.inr (Or.inr (Or.inl h1))
    · exact Or.inr (Or.inr (Or.inr (Or.inl h1)))
  · rw [if_neg hc] at h
    cases hf : find_dormant_slot m.kernel_config 1 (MAX_TASKS - 1) with
    | none =>
      rw [hf] at h
      simp only [Option.some.injEq] at h
      exact Or.inl ⟨Or.inr (Or.inr (Or.inr (Or.inr rfl))), h.symm⟩
    | some c =>
      rw [hf] at h
      dsimp only at h
      right
      refine ⟨c, rfl, ?_⟩
      cases ha : k_mem_alloc (setTCB m.kernel_config c { t with tid := c }) s t.stack_size with
      | none =>
        rw [ha] at h
        simp at h
      | some v =>
        obtain ⟨p, s1⟩ := v
        rw [ha] at h
        dsimp only at h
        by_cases hp : p = NULL
        · rw [if_pos hp] at h
          simp only [Option.some.injEq] at h
          rw [← h]
          refine ⟨by simp [setTCB], fun j hj => by simp [setTCB, hj], by simp [setTCB]⟩
        · rw [if_neg hp] at h
          simp only [Option.some.injEq] at h
          rw [← h]
          refine ⟨by simp [setTCB, ite_ContextSwitch_kernel_config],
            fun j hj => by simp [setTCB, hj, ite_ContextSwitch_kernel_config], ?_⟩
          simp only [ite_ContextSwitch_kernel_config, setTCB]
          exact Nat.mod_le _ _

theorem osCreateTask_takes_slot (m : Machine) (s : KMem) (t : TCB) (r : CreateResult) (j : Nat)
    (hj : j < 15) (hinv : SlotsTaken m.kernel_config j) (hp : t.ptask ≠ NULL)
    (hs : STACK_SIZE ≤ t.stack_size) (h : osCreateTask m s (some t) = some r) :
    SlotsTaken r.machine.kernel_config (j + 1) := by
  obtain ⟨h1, h2, h3⟩ := hinv
  unfold osCreateTask at h
  rcases osCreateDeadlineTask_slot_cases m s 5 t r h with ⟨hc, _⟩ | ⟨c, hf, hc1, hc2, hc3⟩
  · exfalso
    unfold MAX_TASKS at hc
    rcases hc with hc | hc | hc | hc | hc
    · omega
    · omega
    · exact hp hc
    · omega
    · exact find_dormant_slot_none_imp _ _ _ hc (j + 1) (by omega) (by omega)
        (h2 (j + 1) (by omega) (by omega))
  · obtain ⟨hd1, hd2, hd3, hd4⟩ := find_dormant_slot_some _ _ _ _ hf
    unfold MAX_TASKS at hd2
    have hcj : c = j + 1 := by
      by_contra hne
      by_cases hlt : c ≤ j
      · exact h1 c hd1 hlt hd3
      · exact hd4 (j + 1) (by omega) (by omega) (h2 (j + 1) (by omega) (by omega))
    subst hcj
    refine ⟨?_, ?_, by omega⟩
    · intro i hi1 hi2
      by_cases hij : i = j + 1
      · rw [hij, hc1]
        unfold TID_DORMANT
        omega
      · rw [hc2 i hij]
        exact h1 i hi1 (by omega)
    · intro i hi1 hi2
      rw [hc2 i (by omega)]
      exact h2 i (by omega) hi2

theorem osCreateTask_seq_takes_slots (ts : List TCB) :
    ∀ (m : Machine) (s : KMem) (j : Nat) (rets : List Int) (m1 : Machine) (s1 : KMem),
      j + ts.length ≤ 15 → SlotsTaken m.kernel_config j →
      (∀ t, t ∈ ts → t.ptask ≠ NULL ∧ STACK_SIZE ≤ t.stack_size) →
      osCreateTask_seq ts m s = some (rets, m1, s1) →
      SlotsTaken m1.kernel_config (j + ts.length) := by
  induction ts with
  | nil =>
    intro m s j rets m1 s1 _ hinv _ h
    simp only [osCreateTask_seq, Option.some.injEq, Prod.mk.injEq] at h
    rw [← h.2.1]
    exact hinv
  | cons t ts ih =>
    intro m s j rets m1 s1 hlen hinv hv h
    simp only [List.length_cons] at hlen ⊢
    unfold osCreateTask_seq at h
    cases hc : osCreateTask m s (some t) with
    | none => rw [hc] at h; simp at h
    | some r =>
      rw [hc] at h
      dsimp only at h
      cases hr : osCreateTask_seq ts r.machine r.kmem with
      | none => rw [hr] at h; simp at h
      | some v =>
        obtain ⟨rets2, m2, s2⟩ := v
        rw [hr] at h
        simp only [Option.some.injEq, Prod.mk.injEq] at h
        have hstep := osCreateTask_takes_slot m s t r j (by omega) hinv
          (hv t (List.mem_cons_self _ _)).1 (hv t (List.mem_cons_self _ _)).2 hc
        have := ih r.machine r.kmem (j + 1) rets2 m2 s2 (by omega) hstep
          (fun u hu => hv u (List.mem_cons_of_mem _ hu)) hr
        rw [← h.2.1]
        have he : j + (ts.length + 1) = j + 1 + ts.length := by omega
        rw [he]
        exact this

theorem osCreateTask_fails_when_slots_taken (m : Machine) (s : KMem) (t : TCB)
    (hinv : SlotsTaken m.kernel_config 15) :
    osCreateTask m s (some t) = some { ret := RTX_ERR, machine := m, kmem := s, task := some t } := by
  unfold osCreateTask osCreateDeadlineTask
  dsimp only
  split_ifs with hc
  · rfl
  · rw [find_dormant_slot_none _ _ _ (fun j h1 h2 => hinv.1 j h1 (by unfold MAX_TASKS at h2; omega))]

theorem foldl_osKernelInit_body_tid (l : List Nat) :
    ∀ (k : KERNEL_CONFIG) (i : Nat), i ∈ l →
      ((l.foldl osKernelInit_body k).TCBS i).tid = TID_DORMANT := by
  induction l using List.reverseRecOn with
  | nil => intro k i hi; simp at hi
  | append_singleton l a ih =>
    intro k i hi
    rw [List.foldl_append]
    simp only [List.foldl_cons, List.foldl_nil, osKernelInit_body, setTCB]
    by_cases hia : i = a
    · rw [if_pos hia]
    · rw [if_neg hia]
      rcases List.mem_append.mp hi with h | h
      · exact ih k i h
      · simp at h; exact absurd h hia

/-- After `osKernelInit` the user slots 1..15 are dormant and no task is
counted. -/
theorem osKernelInit_SlotsTaken (k : KERNEL_CONFIG) (mem : Nat → Nat) (null_task : Nat) :
    SlotsTaken (osKernelInit k mem null_task).1 0 := by
  refine ⟨fun i h1 h2 => by omega, ?_, ?_⟩
  · intro i h1 h2
    have hne : ¬ i = 0 := by omega
    simp only [osKernelInit, osNull_task, setTCB, if_neg hne]
    exact foldl_osKernelInit_body_tid _ _ i (List.mem_range.mpr (by unfold MAX_TASKS; omega))
  · simp [osKernelInit, osNull_task, setTCB]

/-! ## The claims about task creation, `osTaskInfo`, `osSetDeadline` and `osTaskExit` -/

/-- C13: `osCreateDeadlineTask(deadline, task)` returns `RTX_ERR` and leaves
the kernel state (TCB table, `num_running_tasks`), the allocator state and the
caller's `TCB` unchanged whenever the kernel state is still zero-initialised,
or `num_running_tasks >= MAX_TASKS`, or `deadline <= 0`, or `task` is NULL, or
`task->ptask` is NULL, or `task->stack_size < STACK_SIZE`. -/
theorem osCreateDeadlineTask_rejects_without_change (m : Machine) (s : KMem) (deadline : Int)
    (task : Option TCB)
    (h : KernelZero m.kernel_config ∨ MAX_TASKS ≤ m.kernel_config.num_running_tasks ∨
      deadline ≤ 0 ∨ task = none ∨
      (∃ t, task = some t ∧ (t.ptask = NULL ∨ t.stack_size < STACK_SIZE))) :
    osCreateDeadlineTask m s deadline task =
      some { ret := RTX_ERR, machine := m, kmem := s, task := task } := by
  unfold osCreateDeadlineTask
  cases task with
  | none => rfl
  | some t =>
    dsimp only
    by_cases hc : m.kernel_config.num_running_tasks ≥ MAX_TASKS ∨ deadline ≤ 0 ∨ t.ptask = NULL ∨
        t.stack_size < STACK_SIZE
    · rw [if_pos hc]
    · rw [if_neg hc]
      have hz : KernelZero m.kernel_config := by
        rcases h with h | h | h | h | ⟨t1, ht1, h⟩
        · exact h
        · exact absurd (Or.inl h) hc
        · exact absurd (Or.inr (Or.inl h)) hc
        · exact absurd h (by simp)
        · have : t1 = t := by simpa using ht1.symm
          subst this
          exact absurd (Or.inr (Or.inr h)) hc
      have hnone : find_dormant_slot m.kernel_config 1 (MAX_TASKS - 1) = none := by
        apply find_dormant_slot_none
        intro j h1 h2
        rw [hz.1 j (by unfold MAX_TASKS at *; omega)]
        decide
      rw [hnone]

/-- C13 at a concrete call: a zero deadline after `osKernelInit` and
`k_mem_init`. -/
theorem osCreateDeadlineTask_rejects_without_change_witness :
    osCreateDeadlineTask mBoot memBoot 0 (some taskA) =
      some { ret := RTX_ERR, machine := mBoot, kmem := memBoot, task := some taskA } :=
  osCreateDeadlineTask_rejects_without_change mBoot memBoot 0 (some taskA)
    (Or.inr (Or.inr (Or.inl (by decide))))

/-- C16 (the code breaks it): after `osKernelInit` and `k_mem_init`,
`osCreateDeadlineTask(4, task)` with a valid entry and `stack_size = 40000`
finds slot 1 dormant, `k_mem_alloc` returns NULL and the call returns
`RTX_ERR`, but slot 1 keeps the copy of the caller's `TCB` made before the
allocation: its `tid` is 1 (it was `TID_DORMANT`) and its `stack_size` is
40000 (it was 0x4000), so the next search for a dormant slot skips it.  Only
the caller's `tid` is set back to -1. -/
theorem osCreateDeadlineTask_leaks_slot_on_alloc_failure :
    (mBoot.kernel_config.TCBS 1).tid = TID_DORMANT ∧
    (mBoot.kernel_config.TCBS 1).stack_size = 16384 ∧
    find_dormant_slot mBoot.kernel_config 1 (MAX_TASKS - 1) = some 1 ∧
    (k_mem_alloc mBoot.kernel_config memBoot 40000).map Prod.fst = some NULL ∧
    (osCreateDeadlineTask mBoot memBoot 4 (some taskBig)).map
      (fun r => (r.ret, (r.machine.kernel_config.TCBS 1).tid,
        (r.machine.kernel_config.TCBS 1).stack_size,
        r.machine.kernel_config.num_running_tasks))
      = some (RTX_ERR, 1, 40000, 0) ∧
    (osCreateDeadlineTask mBoot memBoot 4 (some taskBig)).bind
      (fun r => find_dormant_slot r.machine.kernel_config 1 (MAX_TASKS - 1)) = some 2 ∧
    (osCreateDeadlineTask mBoot memBoot 4 (some taskBig)).bind
      (fun r => r.task.map (fun t => t.tid)) = some TID_DORMANT := by
  refine ⟨by decide!, by decide!, by decide!, by decide!, by decide!, by decide!, by decide!⟩

/-- C18 (the code breaks it): `osTaskInfo` returns `RTX_ERR` whenever
`num_running_tasks <= 1`.  After `osKernelInit`, `k_mem_init` and one
successful `osCreateDeadlineTask`, slot 1 is READY with `tid = 1`, yet
`osTaskInfo(1, out)` returns `RTX_ERR`.  After a second successful call,
`osTaskInfo(TID_DORMANT, out)` returns `RTX_OK` and copies the dormant slot
3. -/
theorem osTaskInfo_fails_for_only_task :
    sysOneTask.map (fun r => (r.ret, (r.machine.kernel_config.TCBS 1).tid,
        (r.machine.kernel_config.TCBS 1).state, r.machine.kernel_config.num_running_tasks,
        (osTaskInfo r.machine.kernel_config 1 tcbZero).1))
      = some (RTX_OK, 1, READY, 1, RTX_ERR) ∧
    sysTwoTasks.map (fun r => (r.ret, r.machine.kernel_config.num_running_tasks,
        (r.machine.kernel_config.TCBS 3).state,
        (osTaskInfo r.machine.kernel_config TID_DORMANT tcbZero).1,
        decide ((osTaskInfo r.machine.kernel_config TID_DORMANT tcbZero).2 =
          r.machine.kernel_config.TCBS 3)))
      = some (RTX_OK, 2, DORMANT, RTX_OK, true) := by
  refine ⟨by decide!, by decide!⟩

/-- C20 as stated fails: `osTaskExit` has no test for the idle task.
Here the main stack lies inside the heap region, `main` has allocated 56 bytes
before the start (owner tag 0) and got the address that `osNull_task` stored
as the idle task's `p_stack_mem`.  With the idle task running, `osTaskExit`
frees that block and returns `RTX_OK`; slot 0 gets `tid = TID_DORMANT`,
`num_running_tasks` wraps from 0 to 255 and the bit of the block is cleared. -/
theorem osTaskExit_from_idle_succeeds :
    (mIdleRunning.kernel_config.running_task, mIdleRunning.kernel_config.is_running,
      (mIdleRunning.kernel_config.TCBS 0).tid, (mIdleRunning.kernel_config.TCBS 0).p_stack_mem,
      mIdleRunning.kernel_config.num_running_tasks) = (0, 1, 0, HEAP + 24, 0) ∧
    memLowStack.map (fun r => (r.1, r.2.bitarray 1023, r.2.free_list 0))
      = some (HEAP + 24, 1, NULL) ∧
    (memLowStack.bind (fun r => osTaskExit mIdleRunning r.2)).map
      (fun r => (r.1, (r.2.1.kernel_config.TCBS 0).tid, r.2.1.kernel_config.num_running_tasks,
        r.2.2.bitarray 1023, r.2.2.free_list 0))
      = some (RTX_OK, TID_DORMANT, 255, 0, HEAP) := by
  refine ⟨by decide!, by decide!, by decide!⟩

/-- C19: `osSetDeadline(deadline, tid)` returns `RTX_ERR`, with the machine
(so the whole TCB table) unchanged, exactly when `deadline <= 0`, or `tid` is 0
or `>= MAX_TASKS`, or `tid` is the running task, or slot `tid` is dormant (its
`tid` field is `TID_DORMANT`).  Otherwise it returns `RTX_OK`, sets `deadline`
and `remaining_time` of slot `tid` to the given deadline, changes no other
field of any slot and no other part of the kernel state, and requests a
context switch (calls `ContextSwitch`) exactly when the new `remaining_time`
is less than the `remaining_time` of `TCBS[running_task]`; with the kernel
running and a task dispatched that call sets the PendSV pending bit. -/
theorem osSetDeadline_effect (m : Machine) (deadline : Int) (TID : Nat)
    (hmax : deadline ≤ INT_MAX) :
    ((osSetDeadline m deadline TID).1 = RTX_ERR ↔
      (deadline ≤ 0 ∨ TID = 0 ∨ MAX_TASKS ≤ TID ∨ TID = m.kernel_config.running_task ∨
        (m.kernel_config.TCBS TID).tid = TID_DORMANT)) ∧
    ((deadline ≤ 0 ∨ TID = 0 ∨ MAX_TASKS ≤ TID ∨ TID = m.kernel_config.running_task ∨
        (m.kernel_config.TCBS TID).tid = TID_DORMANT) →
      osSetDeadline m deadline TID = (RTX_ERR, m)) ∧
    (¬ (deadline ≤ 0 ∨ TID = 0 ∨ MAX_TASKS ≤ TID ∨ TID = m.kernel_config.running_task ∨
        (m.kernel_config.TCBS TID).tid = TID_DORMANT) →
      (osSetDeadline m deadline TID).1 = RTX_OK ∧
      (osSetDeadline m deadline TID).2.kernel_config.TCBS TID =
        { m.kernel_config.TCBS TID with
          deadline := deadline.toNat, remaining_time := deadline.toNat } ∧
      (∀ j, j ≠ TID →
        (osSetDeadline m deadline TID).2.kernel_config.TCBS j = m.kernel_config.TCBS j) ∧
      (osSetDeadline m deadline TID).2.kernel_config.num_running_tasks =
        m.kernel_config.num_running_tasks ∧
      (osSetDeadline m deadline TID).2.kernel_config.is_running = m.kernel_config.is_running ∧
      (osSetDeadline m deadline TID).2.kernel_config.running_task =
        m.kernel_config.running_task ∧
      (osSetDeadline m deadline TID).2.PSP = m.PSP ∧
      (osSetDeadline m deadline TID).2.PENDSVSET =
        (if deadline.toNat <
            (m.kernel_config.TCBS m.kernel_config.running_task).remaining_time
         then (ContextSwitch m).PENDSVSET else m.PENDSVSET) ∧
      (m.kernel_config.is_running ≠ 0 → m.kernel_config.running_task ≠ TID_DORMANT →
        (osSetDeadline m deadline TID).2.PENDSVSET =
          (m.PENDSVSET || decide (deadline.toNat <
            (m.kernel_config.TCBS m.kernel_config.running_task).remaining_time)))) := by
  have hiff : (deadline ≤ 0 ∨ TID ≤ 0 ∨ TID ≥ MAX_TASKS ∨
        (m.kernel_config.TCBS TID).tid = TID_DORMANT ∨ TID = m.kernel_config.running_task) ↔
      (deadline ≤ 0 ∨ TID = 0 ∨ MAX_TASKS ≤ TID ∨ TID = m.kernel_config.running_task ∨
        (m.kernel_config.TCBS TID).tid = TID_DORMANT) := by
    constructor
    · rintro (h | h | h | h | h)
      · exact Or.inl h
      · exact Or.inr (Or.inl (by omega))
      · exact Or.inr (Or.inr (Or.inl h))
      · exact Or.inr (Or.inr (Or.inr (Or.inr h)))
      · exact Or.inr (Or.inr (Or.inr (Or.inl h)))
    · rintro (h | h | h | h | h)
      · exact Or.inl h
      · exact Or.inr (Or.inl (by omega))
      · exact Or.inr (Or.inr (Or.inl h))
      · exact Or.inr (Or.inr (Or.inr (Or.inr h)))
      · exact Or.inr (Or.inr (Or.inr (Or.inl h)))
  have herr : (deadline ≤ 0 ∨ TID = 0 ∨ MAX_TASKS ≤ TID ∨ TID = m.kernel_config.running_task ∨
        (m.kernel_config.TCBS TID).tid = TID_DORMANT) →
      osSetDeadline m deadline TID = (RTX_ERR, m) := by
    intro h
    unfold osSetDeadline
    dsimp only
    rw [if_pos (hiff.mpr h)]
  have hok : ¬ (deadline ≤ 0 ∨ TID = 0 ∨ MAX_TASKS ≤ TID ∨ TID = m.kernel_config.running_task ∨
        (m.kernel_config.TCBS TID).tid = TID_DORMANT) →
      osSetDeadline m deadline TID =
        (RTX_OK,
          if deadline.toNat < (m.kernel_config.TCBS m.kernel_config.running_task).remaining_time
          then ContextSwitch (withKernel m (setTCB m.kernel_config TID
            (withDeadline (m.kernel_config.TCBS TID) deadline.toNat)))
          else withKernel m (setTCB m.kernel_config TID
            (withDeadline (m.kernel_config.TCBS TID) deadline.toNat))) := by
    intro h
    have hd : 0 < deadline := by
      by_contra hc
      exact h (Or.inl (by omega))
    have hne : m.kernel_config.running_task ≠ TID := fun hc =>
      h (Or.inr (Or.inr (Or.inr (Or.inl hc.symm))))
    have hU := toU32_of_pos deadline hd hmax
    unfold osSetDeadline
    dsimp only
    rw [if_neg (fun hc => h (hiff.mp hc))]
    simp only [setTCB, if_true, hU, hne, if_false]
    split_ifs <;> rfl
  refine ⟨?_, herr, fun h => ?_⟩
  · constructor
    · intro h
      by_contra hc
      rw [hok hc] at h
      simp [RTX_OK, RTX_ERR] at h
    · intro h
      rw [herr h]
  · rw [hok h]
    have hne : ¬ (TID = m.kernel_config.running_task) := fun hc =>
      h (Or.inr (Or.inr (Or.inr (Or.inl hc))))
    by_cases hlt : deadline.toNat <
        (m.kernel_config.TCBS m.kernel_config.running_task).remaining_time
    · rw [if_pos hlt, if_pos hlt]
      dsimp only
      rw [(ContextSwitch_kernel_config _).1, (ContextSwitch_kernel_config _).2]
      refine ⟨rfl, ?_, ?_, rfl, rfl, rfl, rfl, ?_, ?_⟩
      · simp [setTCB, withKernel, withDeadline]
      · intro j hj
        simp [setTCB, withKernel, hj]
      · unfold ContextSwitch setTCB withKernel
        dsimp only
        split_ifs <;> rfl
      · intro h1 h2
        unfold ContextSwitch setTCB withKernel
        dsimp only
        have hcond : ¬ (m.kernel_config.is_running = FALSE ∨
            m.kernel_config.running_task = TID_DORMANT) := by
          rintro (hc | hc)
          · exact h1 hc
          · exact h2 hc
        rw [if_neg hcond]
        simp [hlt]
    · rw [if_neg hlt, if_neg hlt]
      dsimp only
      refine ⟨rfl, ?_, ?_, rfl, rfl, rfl, rfl, rfl, ?_⟩
      · simp [setTCB, withKernel, withDeadline]
      · intro j hj
        simp [setTCB, withKernel, hj]
      · intro _ _
        simp [withKernel, hlt]

/-- C19 at concrete calls: with the three READY tasks of `kThreeReady`,
`osSetDeadline(3, 2)` succeeds and `osSetDeadline(3, 0)` is rejected. -/
theorem osSetDeadline_effect_witness :
    (osSetDeadline mThreeReady 3 2).1 = RTX_OK ∧
    ((osSetDeadline mThreeReady 3 2).2.kernel_config.TCBS 2).deadline = 3 ∧
    osSetDeadline mThreeReady 3 0 = (RTX_ERR, mThreeReady) :=
  ⟨((osSetDeadline_effect mThreeReady 3 2 (by decide)).2.2 (by decide)).1,
   by rw [((osSetDeadline_effect mThreeReady 3 2 (by decide)).2.2 (by decide)).2.1]; rfl,
   (osSetDeadline_effect mThreeReady 3 0 (by decide)).2.1 (Or.inr (Or.inl rfl))⟩

/-- C14: when `osCreateDeadlineTask(deadline, task)` returns `RTX_OK`, the
task is in the lowest user slot `i` in 1..15 that was dormant before the call
(`tid == TID_DORMANT`, the test the code makes); that slot has `tid == i`,
`state == READY`, `deadline` and `remaining_time` equal to `deadline`,
`remaining_sleep_time == 0xFFFFFFFF`, the caller's `ptask` and `stack_size`, a
non-null `p_stack_mem` whose header carries the owner tag `i`, and
`stack_high == p_stack_mem + stack_size` (in `U32`); `num_running_tasks` has
increased by 1 and every other slot is unchanged.  `deadline` is an `int` and
`stack_size` a `U16`. -/
theorem osCreateDeadlineTask_ok_slot (m : Machine) (s : KMem) (deadline : Int)
    (task : Option TCB) (r : CreateResult)
    (h : osCreateDeadlineTask m s deadline task = some r) (hok : r.ret = RTX_OK)
    (hmax : deadline ≤ INT_MAX) (hss : ∀ t, task = some t → t.stack_size < 65536) :
    ∃ t i, task = some t ∧ 1 ≤ i ∧ i ≤ 15 ∧
      (m.kernel_config.TCBS i).tid = TID_DORMANT ∧
      (∀ j, 1 ≤ j → j < i → (m.kernel_config.TCBS j).tid ≠ TID_DORMANT) ∧
      (r.machine.kernel_config.TCBS i).tid = i ∧
      (r.machine.kernel_config.TCBS i).state = TASK_READY ∧
      ((r.machine.kernel_config.TCBS i).deadline : Int) = deadline ∧
      ((r.machine.kernel_config.TCBS i).remaining_time : Int) = deadline ∧
      (r.machine.kernel_config.TCBS i).remaining_sleep_time = 4294967295 ∧
      (r.machine.kernel_config.TCBS i).ptask = t.ptask ∧
      (r.machine.kernel_config.TCBS i).stack_size = t.stack_size ∧
      (r.machine.kernel_config.TCBS i).p_stack_mem ≠ NULL ∧
      get_task_tid r.kmem.mem
        (subU32 (r.machine.kernel_config.TCBS i).p_stack_mem SIZEOF_METADATA) = i ∧
      (r.machine.kernel_config.TCBS i).stack_high =
        addU32 (r.machine.kernel_config.TCBS i).p_stack_mem
          (r.machine.kernel_config.TCBS i).stack_size ∧
      r.machine.kernel_config.num_running_tasks = m.kernel_config.num_running_tasks + 1 ∧
      ∀ j, j ≠ i → r.machine.kernel_config.TCBS j = m.kernel_config.TCBS j := by
  obtain ⟨t, c, p, s1, ht, hd, _, hsz, hnum, hf, _, hp, hmem, _, _, _, _, htid, hst, hdl, hrt,
    hsl, hpt, hss2, hpm, hsh, _, hoth, hn, _, _, _⟩ := osCreateDeadlineTask_ok_fields m s deadline task r h hok
  obtain ⟨hc1, hc2, hcd, hlow⟩ := find_dormant_slot_some _ _ _ _ hf
  have hsz2 := hss t ht
  unfold STACK_SIZE at hsz
  unfold MAX_TASKS at hnum hc2
  refine ⟨t, c, ht, hc1, by omega, hcd, hlow, htid, hst, ?_, ?_, hsl, hpt, hss2, ?_, ?_, ?_, ?_,
    hoth⟩
  · rw [hdl]; exact toU32_cast_of_pos deadline hd hmax
  · rw [hrt]; exact toU32_cast_of_pos deadline hd hmax
  · rw [hpm]; exact hp
  · rw [hpm, hmem]
    unfold get_task_tid set_task_tid SIZEOF_METADATA
    have hq : addU32 (subU32 p 24) 4 < 4294967296 := addU32_lt _ _
    rw [read32_congr _ (write32 s1.mem (addU32 (subU32 p 24) 4) c) _ _ hq, read32_write32_same]
    · omega
    · intro i hi
      apply push_frame_outside _ _ _ _ (addU32_lt _ _)
      unfold subU32 addU32
      omega
  · rw [hsh, hpm, hss2]
  · rw [hn]; omega

/-- C14 at a concrete call: the first `osCreateDeadlineTask(4, &taskA)` after
`osKernelInit` and `k_mem_init`. -/
theorem osCreateDeadlineTask_ok_slot_witness :
    osCreateDeadlineTask mBoot memBoot 4 (some taskA) = some oneTaskResult ∧
    oneTaskResult.ret = RTX_OK ∧
    ∃ t i, some taskA = some t ∧ 1 ≤ i ∧ i ≤ 15 ∧
      (mBoot.kernel_config.TCBS i).tid = TID_DORMANT ∧
      (∀ j, 1 ≤ j → j < i → (mBoot.kernel_config.TCBS j).tid ≠ TID_DORMANT) ∧
      (oneTaskResult.machine.kernel_config.TCBS i).tid = i ∧
      (oneTaskResult.machine.kernel_config.TCBS i).state = TASK_READY ∧
      ((oneTaskResult.machine.kernel_config.TCBS i).deadline : Int) = 4 ∧
      ((oneTaskResult.machine.kernel_config.TCBS i).remaining_time : Int) = 4 ∧
      (oneTaskResult.machine.kernel_config.TCBS i).remaining_sleep_time = 4294967295 ∧
      (oneTaskResult.machine.kernel_config.TCBS i).ptask = t.ptask ∧
      (oneTaskResult.machine.kernel_config.TCBS i).stack_size = t.stack_size ∧
      (oneTaskResult.machine.kernel_config.TCBS i).p_stack_mem ≠ NULL ∧
      get_task_tid oneTaskResult.kmem.mem
        (subU32 (oneTaskResult.machine.kernel_config.TCBS i).p_stack_mem SIZEOF_METADATA) = i ∧
      (oneTaskResult.machine.kernel_config.TCBS i).stack_high =
        addU32 (oneTaskResult.machine.kernel_config.TCBS i).p_stack_mem
          (oneTaskResult.machine.kernel_config.TCBS i).stack_size ∧
      oneTaskResult.machine.kernel_config.num_running_tasks =
        mBoot.kernel_config.num_running_tasks + 1 ∧
      ∀ j, j ≠ i → oneTaskResult.machine.kernel_config.TCBS j = mBoot.kernel_config.TCBS j :=
  have h : osCreateDeadlineTask mBoot memBoot 4 (some taskA) = some oneTaskResult :=
    eq_some_getD_of_isSome sysOneTask _ (by decide!)
  ⟨h, by decide!,
    osCreateDeadlineTask_ok_slot mBoot memBoot 4 (some taskA) oneTaskResult h (by decide!)
      (by decide) (fun t ht => by cases ht; decide)⟩

/-- C15: when `osCreateDeadlineTask` returns `RTX_OK` for a task with entry
`e` (a 32-bit address), the saved `SP` of the new slot is `stack_high - 64`,
the word at `stack_high - 4` is 0x01000000, the word at `stack_high - 8` is
`e`, and each of the fourteen words from `SP` up to `stack_high - 12` holds
0xA. -/
theorem osCreateDeadlineTask_ok_frame (m : Machine) (s : KMem) (deadline : Int)
    (task : Option TCB) (r : CreateResult)
    (h : osCreateDeadlineTask m s deadline task = some r) (hok : r.ret = RTX_OK)
    (he : ∀ t, task = some t → t.ptask < 4294967296) :
    ∃ t i, task = some t ∧ find_dormant_slot m.kernel_config 1 (MAX_TASKS - 1) = some i ∧
      (r.machine.kernel_config.TCBS i).tid = i ∧
      (r.machine.kernel_config.TCBS i).SP =
        subU32 (r.machine.kernel_config.TCBS i).stack_high 64 ∧
      read32 r.kmem.mem (subU32 (r.machine.kernel_config.TCBS i).stack_high 4) = 16777216 ∧
      read32 r.kmem.mem (subU32 (r.machine.kernel_config.TCBS i).stack_high 8) = t.ptask ∧
      ∀ j, j < 14 →
        read32 r.kmem.mem (addU32 (r.machine.kernel_config.TCBS i).SP (4 * j)) = 10 := by
  obtain ⟨t, c, p, s1, ht, _, _, _, _, hf, _, _, hmem, _, _, _, _, htid, _, _, _,
    _, _, _, _, hsh, hsp, _, _, _, _, _⟩ := osCreateDeadlineTask_ok_fields m s deadline task r h hok
  obtain ⟨h1, h2, h3, h4⟩ := push_frame_layout
    (set_task_tid s1.mem (subU32 p SIZEOF_METADATA) c) (addU32 p t.stack_size) t.ptask
  refine ⟨t, c, ht, hf, htid, ?_, ?_, ?_, ?_⟩
  · rw [hsp, hsh]; exact h1
  · rw [hmem, hsh]; exact h2
  · rw [hmem, hsh, h3]; exact Nat.mod_eq_of_lt (he t ht)
  · intro j hj
    rw [hmem, hsp, h1]
    exact h4 j hj

/-- C15 at a concrete call: the first `osCreateDeadlineTask(4, &taskA)` after
`osKernelInit` and `k_mem_init`. -/
theorem osCreateDeadlineTask_ok_frame_witness :
    osCreateDeadlineTask mBoot memBoot 4 (some taskA) = some oneTaskResult ∧
    oneTaskResult.ret = RTX_OK ∧
    ∃ t i, some taskA = some t ∧ find_dormant_slot mBoot.kernel_config 1 (MAX_TASKS - 1) = some i ∧
      (oneTaskResult.machine.kernel_config.TCBS i).tid = i ∧
      (oneTaskResult.machine.kernel_config.TCBS i).SP =
        subU32 (oneTaskResult.machine.kernel_config.TCBS i).stack_high 64 ∧
      read32 oneTaskResult.kmem.mem
        (subU32 (oneTaskResult.machine.kernel_config.TCBS i).stack_high 4) = 16777216 ∧
      read32 oneTaskResult.kmem.mem
        (subU32 (oneTaskResult.machine.kernel_config.TCBS i).stack_high 8) = t.ptask ∧
      ∀ j, j < 14 →
        read32 oneTaskResult.kmem.mem
          (addU32 (oneTaskResult.machine.kernel_config.TCBS i).SP (4 * j)) = 10 :=
  have h : osCreateDeadlineTask mBoot memBoot 4 (some taskA) = some oneTaskResult :=
    eq_some_getD_of_isSome sysOneTask _ (by decide!)
  ⟨h, by decide!,
    osCreateDeadlineTask_ok_frame mBoot memBoot 4 (some taskA) oneTaskResult h (by decide!)
      (fun t ht => by cases ht; decide)⟩

/-- C17 as stated fails: after `osKernelInit` and `k_mem_init`, sixteen calls
`osCreateTask(&taskA)` (a valid entry, `stack_size == 512`) return `RTX_OK`
fifteen times and then `RTX_ERR`: the 16th call does not return `RTX_OK`. -/
theorem osCreateTask_sixteenth_call_not_ok :
    (osCreateTask_seq (List.replicate 16 taskA) mBoot memBoot).map Prod.fst =
      some (List.replicate 15 RTX_OK ++ [RTX_ERR]) := by
  decide!

/-- C17, amended: after `osKernelInit`, whatever the allocator state (so also
after `k_mem_init`), when fifteen calls of `osCreateTask` with a valid entry
and a stack size of at least `STACK_SIZE` have returned, the 16th call returns
`RTX_ERR` and changes nothing, and so does the 17th: each of the first fifteen
calls has taken one of the user slots 1..15. -/
theorem osCreateTask_sixteenth_call_fails (k0 : KERNEL_CONFIG) (mem0 : Nat → Nat)
    (null_task : Nat) (m : Machine) (s : KMem) (ts : List TCB) (t16 t17 : TCB)
    (res : List Int × Machine × KMem)
    (hm : m.kernel_config = (osKernelInit k0 mem0 null_task).1)
    (hlen : ts.length = 15)
    (hvalid : ∀ t, t ∈ ts → t.ptask ≠ NULL ∧ STACK_SIZE ≤ t.stack_size)
    (hrun : osCreateTask_seq ts m s = some res) :
    osCreateTask_seq [t16, t17] res.2.1 res.2.2 =
      some ([RTX_ERR, RTX_ERR], res.2.1, res.2.2) := by
  have h0 : SlotsTaken m.kernel_config 0 := by
    rw [hm]; exact osKernelInit_SlotsTaken k0 mem0 null_task
  have h15 := osCreateTask_seq_takes_slots ts m s 0 res.1 res.2.1 res.2.2 (by omega) h0 hvalid hrun
  rw [hlen] at h15
  simp only [osCreateTask_seq, osCreateTask_fails_when_slots_taken res.2.1 res.2.2 _ h15]

/-- C17, amended, at a concrete run: fifteen calls `osCreateTask(&taskA)` after
`osKernelInit` and `k_mem_init`, then two more. -/
theorem osCreateTask_sixteenth_call_fails_witness :
    mBoot.kernel_config = (osKernelInit kZero (fun _ => 0) NULL_TASK_ADDR).1 ∧
    (List.replicate 15 taskA).length = 15 ∧
    osCreateTask_seq (List.replicate 15 taskA) mBoot memBoot = some fifteenTasks ∧
    osCreateTask_seq [taskA, taskA] fifteenTasks.2.1 fifteenTasks.2.2 =
      some ([RTX_ERR, RTX_ERR], fifteenTasks.2.1, fifteenTasks.2.2) :=
  have h : osCreateTask_seq (List.replicate 15 taskA) mBoot memBoot = some fifteenTasks :=
    eq_some_getD_of_isSome (osCreateTask_seq (List.replicate 15 taskA) mBoot memBoot)
      ([], mBoot, memBoot) (by decide!)
  ⟨rfl, rfl, h,
    osCreateTask_sixteenth_call_fails kZero (fun _ => 0) NULL_TASK_ADDR mBoot memBoot
      (List.replicate 15 taskA) taskA taskA fifteenTasks rfl rfl
      (fun t ht => by rw [List.eq_of_mem_replicate ht]; decide) h⟩

/-- C20, amended: `osTaskExit` called while the idle task (TID 0) is the
running task returns `RTX_ERR` and leaves the kernel state (TCB table,
`num_running_tasks`) and the allocator state unchanged whenever the kernel is
not running or `k_mem_dealloc` rejects the idle task's `p_stack_mem`: the
allocator is not initialised, the pointer is NULL, or the header below it has
no secret key, is not marked allocated, or has an owner tag other than 0. -/
theorem osTaskExit_from_idle_rejected (m : Machine) (s : KMem)
    (hidle : m.kernel_config.running_task = 0)
    (h : m.kernel_config.is_running = FALSE ∨ s.init_called = 0 ∨
      (m.kernel_config.TCBS 0).p_stack_mem = NULL ∨
      get_secret_key s.mem (subU32 (m.kernel_config.TCBS 0).p_stack_mem SIZEOF_METADATA) ≠
        METADATA_SECRET_KEY ∨
      get_is_allocated s.mem (subU32 (m.kernel_config.TCBS 0).p_stack_mem SIZEOF_METADATA) = 0 ∨
      get_task_tid s.mem (subU32 (m.kernel_config.TCBS 0).p_stack_mem SIZEOF_METADATA) ≠ 0) :
    osTaskExit m s = some (RTX_ERR, m, s) := by
  unfold osTaskExit
  dsimp only
  by_cases h0 : m.kernel_config.is_running = FALSE ∨ m.kernel_config.running_task = TID_DORMANT
  · rw [if_pos h0]
  · rw [if_neg h0]
    have hrun : ¬ m.kernel_config.is_running = FALSE := fun hc => h0 (Or.inl hc)
    have hdorm : ¬ m.kernel_config.running_task = TID_DORMANT := fun hc => h0 (Or.inr hc)
    have htid : osGetTID m.kernel_config = 0 := by
      unfold osGetTID
      rw [if_neg h0, hidle]
    rw [htid, if_neg (by decide)]
    have hd : k_mem_dealloc m.kernel_config s (m.kernel_config.TCBS 0).p_stack_mem =
        some (RTX_ERR, s) := by
      unfold k_mem_dealloc
      dsimp only
      rw [htid]
      rcases h with h | h | h | h | h | h
      · exact absurd h hrun
      · rw [if_pos h]
      · split_ifs <;> rfl
      · split_ifs <;> rfl
      · split_ifs <;> rfl
      · split_ifs <;> rfl
    rw [hd]
    rfl

/-- C20, amended, at a concrete state: after `osKernelInit` and `k_mem_init`
over a memory of zeros, the idle task's `p_stack_mem` has no header with the
secret key below it. -/
theorem osTaskExit_from_idle_rejected_witness :
    osTaskExit mBootIdle memBoot = some (RTX_ERR, mBootIdle, memBoot) :=
  osTaskExit_from_idle_rejected mBootIdle memBoot rfl
    (Or.inr (Or.inr (Or.inr (Or.inl (by decide!)))))

/-! ## Properties of dispatch -/

/-- With no RUNNING user slot and every READY user slot below `INT_MAX`,
`scheduler` returns the index of a slot. -/
theorem scheduler_lt_MAX_TASKS (k : KERNEL_CONFIG)
    (hrun : ∀ j, 1 ≤ j → j ≤ 15 → (k.TCBS j).state ≠ RUNNING)
    (hlt : ∀ j, 1 ≤ j → j ≤ 15 → (k.TCBS j).state = READY →
      ((k.TCBS j).remaining_time : Int) < INT_MAX) :
    scheduler k < MAX_TASKS := by
  obtain ⟨_, hcase⟩ := schedInv_loop k (MAX_TASKS - 1) hlt
  unfold scheduler
  dsimp only
  rcases hcase with ⟨_, hno⟩ | ⟨a, b, _⟩
  · have hs := scheduler_loop_no_ready_running k (MAX_TASKS - 1)
      (fun i h1 h2 => ⟨hno i h1 h2, hrun i h1 h2⟩)
    rw [if_pos (Or.inr (by rw [hs]; decide))]
    decide
  · split_ifs
    · decide
    · unfold MAX_TASKS at *
      omega

theorem new_task_save_TCBS (m : Machine) (j : Nat) :
    (new_task_save m).TCBS j =
      if j = m.kernel_config.running_task then
        { m.kernel_config.TCBS j with
          SP := m.PSP,
          state := if (m.kernel_config.TCBS j).state = RUNNING then READY
            else (m.kernel_config.TCBS j).state }
      else m.kernel_config.TCBS j := by
  unfold new_task_save
  dsimp only
  by_cases hj : j = m.kernel_config.running_task
  · subst hj
    by_cases hs : (m.kernel_config.TCBS m.kernel_config.running_task).state = RUNNING
    · simp [setTCB, hs]
    · simp [setTCB, hs]
  · by_cases hs : (m.kernel_config.TCBS m.kernel_config.running_task).state = RUNNING
    · simp [setTCB, hs, hj]
    · simp [setTCB, hs, hj]

theorem new_task_save_globals (m : Machine) :
    (new_task_save m).running_task = m.kernel_config.running_task ∧
    (new_task_save m).num_running_tasks = m.kernel_config.num_running_tasks ∧
    (new_task_save m).is_running = m.kernel_config.is_running := by
  unfold new_task_save
  dsimp only
  split_ifs <;> exact ⟨rfl, rfl, rfl⟩

/-- One step of `new_task` from a state with running task `r`, where no
other user slot is RUNNING and the READY and RUNNING user slots have
`remaining_time` below `INT_MAX`, so that `scheduler` returns a slot of the
table.  The table `new_task_save m` is the old one with the process stack
pointer in `SP` of slot `r` and with the state of slot `r` changed to READY
exactly when it was RUNNING; `running_task` becomes the slot `n` that
`scheduler` returns on that table; slot `n` gets the state RUNNING and its `SP`
is loaded as the process stack pointer; no other field of any slot and no
other part of the state changes. -/
theorem new_task_effect (m : Machine) (r : Nat) (hr : m.kernel_config.running_task = r)
    (hr2 : r < MAX_TASKS)
    (hone : ∀ j, 1 ≤ j → j ≤ 15 → j ≠ r → (m.kernel_config.TCBS j).state ≠ RUNNING)
    (hlt : ∀ j, 1 ≤ j → j ≤ 15 →
      (m.kernel_config.TCBS j).state = READY ∨ (m.kernel_config.TCBS j).state = RUNNING →
      ((m.kernel_config.TCBS j).remaining_time : Int) < INT_MAX) :
    ∃ m1, new_task m = some m1 ∧
      (new_task_save m).TCBS r =
        { m.kernel_config.TCBS r with
          SP := m.PSP,
          state := if (m.kernel_config.TCBS r).state = RUNNING then READY
            else (m.kernel_config.TCBS r).state } ∧
      (∀ j, j ≠ r → (new_task_save m).TCBS j = m.kernel_config.TCBS j) ∧
      scheduler (new_task_save m) < MAX_TASKS ∧
      m1.kernel_config.running_task = scheduler (new_task_save m) ∧
      m1.kernel_config.TCBS (scheduler (new_task_save m)) =
        { (new_task_save m).TCBS (scheduler (new_task_save m)) with state := RUNNING } ∧
      (∀ j, j ≠ scheduler (new_task_save m) →
        m1.kernel_config.TCBS j = (new_task_save m).TCBS j) ∧
      m1.PSP = ((new_task_save m).TCBS (scheduler (new_task_save m))).SP ∧
      m1.kernel_config.num_running_tasks = m.kernel_config.num_running_tasks ∧
      m1.kernel_config.is_running = m.kernel_config.is_running ∧
      m1.PENDSVSET = m.PENDSVSET := by
  have hsave := new_task_save_TCBS m
  rw [hr] at hsave
  have hn : scheduler (new_task_save m) < MAX_TASKS := by
    apply scheduler_lt_MAX_TASKS
    · intro j h1 h2
      rw [hsave j]
      by_cases hj : j = r
      · rw [if_pos hj]
        dsimp only
        split_ifs with hs
        · decide
        · exact hs
      · rw [if_neg hj]
        exact hone j h1 h2 hj
    · intro j h1 h2
      rw [hsave j]
      by_cases hj : j = r
      · rw [if_pos hj]
        dsimp only
        intro hst
        apply hlt j h1 h2
        by_cases hs : (m.kernel_config.TCBS j).state = RUNNING
        · exact Or.inr hs
        · rw [if_neg hs] at hst
          exact Or.inl hst
      · rw [if_neg hj]
        intro hst
        exact hlt j h1 h2 (Or.inl hst)
  have hres : new_task m = some
      { m with
        kernel_config := setTCB { new_task_save m with running_task := scheduler (new_task_save m) }
          (scheduler (new_task_save m))
          { (new_task_save m).TCBS (scheduler (new_task_save m)) with state := RUNNING },
        PSP := ((new_task_save m).TCBS (scheduler (new_task_save m))).SP } := by
    unfold new_task
    rw [if_neg (by rw [hr]; omega)]
    dsimp only
    rw [if_neg (by omega)]
    simp [setTCB]
  refine ⟨_, hres, ?_, ?_, hn, rfl, ?_, ?_, rfl, ?_, ?_, rfl⟩
  · rw [hsave r, if_pos rfl]
  · intro j hj
    rw [hsave j, if_neg hj]
  · simp [setTCB]
  · intro j hj
    simp [setTCB, hj]
  · exact (new_task_save_globals m).2.1
  · exact (new_task_save_globals m).2.2

/-- The step of `new_task` at a concrete machine: task 1 is the only task and
is RUNNING; it is saved, made READY, selected again and made RUNNING. -/
theorem new_task_effect_witness :
    ∃ m1, new_task mOneRunning = some m1 ∧
      (new_task_save mOneRunning).TCBS 1 =
        { mOneRunning.kernel_config.TCBS 1 with
          SP := mOneRunning.PSP,
          state := if (mOneRunning.kernel_config.TCBS 1).state = RUNNING then READY
            else (mOneRunning.kernel_config.TCBS 1).state } ∧
      (∀ j, j ≠ 1 → (new_task_save mOneRunning).TCBS j = mOneRunning.kernel_config.TCBS j) ∧
      scheduler (new_task_save mOneRunning) < MAX_TASKS ∧
      m1.kernel_config.running_task = scheduler (new_task_save mOneRunning) ∧
      m1.kernel_config.TCBS (scheduler (new_task_save mOneRunning)) =
        { (new_task_save mOneRunning).TCBS (scheduler (new_task_save mOneRunning)) with
          state := RUNNING } ∧
      (∀ j, j ≠ scheduler (new_task_save mOneRunning) →
        m1.kernel_config.TCBS j = (new_task_save mOneRunning).TCBS j) ∧
      m1.PSP = ((new_task_save mOneRunning).TCBS (scheduler (new_task_save mOneRunning))).SP ∧
      m1.kernel_config.num_running_tasks = mOneRunning.kernel_config.num_running_tasks ∧
      m1.kernel_config.is_running = mOneRunning.kernel_config.is_running ∧
      m1.PENDSVSET = mOneRunning.PENDSVSET :=
  new_task_effect mOneRunning 1 rfl (by decide)
    (fun j h1 h2 h3 => by interval_cases j <;> first | decide | exact absurd rfl h3)
    (fun j h1 h2 hs => by interval_cases j <;> first | decide | exact absurd hs (by decide))

/-- The state that `osPeriodYield` produces for a running task below
`MAX_TASKS`. -/
theorem osPeriodYield_result (m : Machine) (hr : m.kernel_config.running_task < MAX_TASKS) :
    ∃ m1, osPeriodYield m = some m1 ∧
      m1.kernel_config.is_running = m.kernel_config.is_running ∧
      m1.kernel_config.TCBS m.kernel_config.running_task =
        { m.kernel_config.TCBS m.kernel_config.running_task with
          state := SLEEPING,
          remaining_sleep_time :=
            (m.kernel_config.TCBS m.kernel_config.running_task).remaining_time } := by
  unfold osPeriodYield
  rw [if_pos hr]
  refine ⟨_, rfl, ?_, ?_⟩
  · rw [(ContextSwitch_kernel_config _).1]
    rfl
  · rw [(ContextSwitch_kernel_config _).1]
    simp [setTCB]

/-- C28: a running user task `r` with deadline `d ≥ 1` and `remaining_time = t`
that calls `osPeriodYield` is SLEEPING with `remaining_sleep_time = t`, stays
SLEEPING through the next `t` tick-handler invocations, and invocation `t + 1`
makes it READY with `remaining_time = d - 1`.  So with `t = d - 1`, the value
it has when it yields in the tick in which it was woken, it is SLEEPING through
`d - 1` invocations and READY again at invocation `d`. -/
theorem osPeriodYield_wakes_after_period (m : Machine) (r d t : Nat)
    (hrun : m.kernel_config.is_running ≠ 0)
    (hr : m.kernel_config.running_task = r) (hr1 : 1 ≤ r) (hr2 : r < MAX_TASKS)
    (hd : (m.kernel_config.TCBS r).deadline = d) (hd1 : 1 ≤ d) (hd2 : d < 4294967296)
    (ht : (m.kernel_config.TCBS r).remaining_time = t) :
    ∃ m1, osPeriodYield m = some m1 ∧
      (m1.kernel_config.TCBS r).state = SLEEPING ∧
      (m1.kernel_config.TCBS r).remaining_sleep_time = t ∧
      (∀ n, n ≤ t → ((ticks n m1).kernel_config.TCBS r).state = SLEEPING) ∧
      ((ticks (t + 1) m1).kernel_config.TCBS r).state = READY ∧
      ((ticks (t + 1) m1).kernel_config.TCBS r).remaining_time = d - 1 ∧
      (t = d - 1 →
        (∀ n, n < d → ((ticks n m1).kernel_config.TCBS r).state = SLEEPING) ∧
        ((ticks d m1).kernel_config.TCBS r).state = READY ∧
        ((ticks d m1).kernel_config.TCBS r).remaining_time = d - 1) := by
  obtain ⟨m1, h1, h2, h3⟩ := osPeriodYield_result m (by rw [hr]; exact hr2)
  rw [hr] at h3
  have hst : (m1.kernel_config.TCBS r).state = SLEEPING := by rw [h3]
  have hrst : (m1.kernel_config.TCBS r).remaining_sleep_time = t := by rw [h3]; exact ht
  have hdl : (m1.kernel_config.TCBS r).deadline = d := by rw [h3]; exact hd
  have hrun1 : m1.kernel_config.is_running ≠ 0 := by rw [h2]; exact hrun
  have hkeep : ∀ n, n ≤ t → ((ticks n m1).kernel_config.TCBS r).state = SLEEPING :=
    fun n hn => (ticks_keep_sleeping m1 r t n hrun1 hr1 hr2 hst hrst hn).2.1
  have hwake : ((ticks (t + 1) m1).kernel_config.TCBS r).state = READY ∧
      ((ticks (t + 1) m1).kernel_config.TCBS r).remaining_time = d - 1 := by
    obtain ⟨a, b, c, e⟩ := ticks_keep_sleeping m1 r t t hrun1 hr1 hr2 hst hrst (le_refl _)
    have hw := tick_wakes_sleeper (ticks t m1) r a hr1 hr2 b (by omega)
    refine ⟨hw.1, ?_⟩
    show ((SysTick_Handler (ticks t m1)).kernel_config.TCBS r).remaining_time = d - 1
    rw [hw.2, e, hdl]
    exact subU32_one d hd1 hd2
  refine ⟨m1, h1, hst, hrst, hkeep, hwake.1, hwake.2, fun htd => ?_⟩
  have hd' : d = t + 1 := by omega
  rw [hd']
  exact ⟨fun n hn => hkeep n (by omega), hwake.1, by rw [hwake.2]; omega⟩

/-- C28 at a concrete machine: task 1 with deadline 10 and 9 ms left. -/
theorem osPeriodYield_wakes_after_period_witness :
    ∃ m1, osPeriodYield mPeriodic = some m1 ∧
      (m1.kernel_config.TCBS 1).state = SLEEPING ∧
      (m1.kernel_config.TCBS 1).remaining_sleep_time = 9 ∧
      (∀ n, n ≤ 9 → ((ticks n m1).kernel_config.TCBS 1).state = SLEEPING) ∧
      ((ticks (9 + 1) m1).kernel_config.TCBS 1).state = READY ∧
      ((ticks (9 + 1) m1).kernel_config.TCBS 1).remaining_time = 10 - 1 ∧
      (9 = 10 - 1 →
        (∀ n, n < 10 → ((ticks n m1).kernel_config.TCBS 1).state = SLEEPING) ∧
        ((ticks 10 m1).kernel_config.TCBS 1).state = READY ∧
        ((ticks 10 m1).kernel_config.TCBS 1).remaining_time = 10 - 1) :=
  osPeriodYield_wakes_after_period mPeriodic 1 10 9 (by decide) (by decide) (by decide)
    (by decide) (by decide) (by decide) (by decide) (by decide)

/-! ## The claims that the code breaks at a concrete input -/

/-- C24 (the code breaks it): `new_task` uses the value that `scheduler`
returns as an index of `TCBS` without testing it.  After `osKernelInit`,
`k_mem_init`, `osCreateDeadlineTask(4, &taskA)` and `osKernelStart`, the running
task 1 calls `osCreateDeadlineTask(INT_MAX, &taskA)` and `osSleep(5)`, all with
the result `RTX_OK`.  Slot 1 is then SLEEPING and slot 2 is READY with
`remaining_time = INT_MAX`, which is not below the initial `earliest_deadline =
INT_MAX` of `scheduler`; so `scheduler` returns `TID_DORMANT = 0xFFFFFFFF` on
the table that `new_task` has saved, `running_task` becomes `0xFFFFFFFF`, and
the write of `TCBS[0xFFFFFFFF].state` is outside the 16 entries of the table:
`new_task` has no result. -/
theorem new_task_indexes_with_TID_DORMANT :
    sysOneTask.map (fun r => r.ret) = some RTX_OK ∧
    sysOneStarted.map (fun r => (r.1, r.2.kernel_config.running_task)) = some (RTX_OK, 1) ∧
    sysLateTask.map (fun r => r.ret) = some RTX_OK ∧
    sysSleepBeforeSwitch.map (fun m => (m.kernel_config.running_task, m.PENDSVSET,
      slot_states m.kernel_config)) =
      some (1, true, [DORMANT, SLEEPING, READY, 0, 0, 0, 0, 0, 0, 0, 0, 0, 0, 0, 0, 0]) ∧
    sysSleepBeforeSwitch.map (fun m => ((m.kernel_config.TCBS 2).remaining_time : Int)) =
      some INT_MAX ∧
    sysSleepBeforeSwitch.map (fun m => scheduler (new_task_save m)) = some TID_DORMANT ∧
    ¬ TID_DORMANT < MAX_TASKS ∧
    sysSleepBeforeSwitch.map (fun m => (new_task m).isSome) = some false := by
  refine ⟨by decide!, by decide!, by decide!, by decide!, by decide!, by decide!, by decide,
    by decide!⟩

/-- C23 (the code breaks it): `osKernelStart` tests `is_running` and the state
of slot 1 only.  After `osKernelInit`, `k_mem_init` and two successful
`osCreateDeadlineTask(4, ...)`, `osKernelStart` returns `RTX_OK` with task 1
RUNNING; a second `osKernelStart`, made while task 1 runs, returns `RTX_OK`
again, sets `running_task` to 2 and makes slot 2 RUNNING.  Without a user task
it returns `RTX_ERR`. -/
theorem osKernelStart_restarts_running_kernel :
    (osKernelStart mBoot).map Prod.fst = some RTX_ERR ∧
    sysTwoStarted.map (fun r => (r.1, r.2.kernel_config.running_task,
        slot_states r.2.kernel_config))
      = some (RTX_OK, 1, [0, 2, 1, 0, 0, 0, 0, 0, 0, 0, 0, 0, 0, 0, 0, 0]) ∧
    sysTwoStartedTwice.map (fun r => (r.1, r.2.kernel_config.running_task,
        slot_states r.2.kernel_config))
      = some (RTX_OK, 2, [0, 2, 2, 0, 0, 0, 0, 0, 0, 0, 0, 0, 0, 0, 0, 0]) := by
  refine ⟨by decide!, by decide!, by decide!⟩

/-- C26 (the code breaks it): after `osKernelInit`, `k_mem_init`, two
successful `osCreateDeadlineTask(4, ...)` and `osKernelStart`, exactly slot 1
is RUNNING and it is `running_task`; after a second `osKernelStart` the slots 1
and 2 are both RUNNING. -/
theorem two_slots_running_after_second_start :
    sysTwoTasks.map (fun r => r.ret) = some RTX_OK ∧
    sysTwoStarted.map (fun r => (r.1, (r.2.kernel_config.TCBS 1).state,
        (r.2.kernel_config.TCBS 2).state, r.2.kernel_config.running_task))
      = some (RTX_OK, RUNNING, READY, 1) ∧
    sysTwoStartedTwice.map (fun r => (r.1, (r.2.kernel_config.TCBS 1).state,
        (r.2.kernel_config.TCBS 2).state, r.2.kernel_config.running_task))
      = some (RTX_OK, RUNNING, RUNNING, 2) := by
  refine ⟨by decide!, by decide!, by decide!⟩

/-- C25 (the code breaks it): for `stack_size = 512` the level loop of
`k_mem_alloc` selects level 6, whose blocks have 512 bytes, header included.
The first `osCreateDeadlineTask(4, &taskA)` gets the block at `HEAP`, so
`p_stack_mem = HEAP + 24` and `stack_high = HEAP + 536`, 24 bytes past the end
of the block.  The next block, at `HEAP + 512`, is the head of `free_list[6]`
with `level_pos = 1`, `next = NULL` and `prev = HEAP` before the frame is
written; afterwards its header holds `secret_key = 0xA`, `level_pos = 0xA`,
`next = 0xA` and the entry address as `prev`. -/
theorem osCreateDeadlineTask_frame_overruns_block :
    alloc_level 512 MAX_LEVEL = 6 ∧ 2 ^ (MAX_LEVEL - 6) = 512 ∧
    sysOneTask.map (fun r => (r.ret, (r.machine.kernel_config.TCBS 1).p_stack_mem,
        (r.machine.kernel_config.TCBS 1).stack_high, (r.machine.kernel_config.TCBS 1).SP))
      = some (RTX_OK, HEAP + 24, HEAP + 536, HEAP + 472) ∧
    memStackAlloc.map (fun r => (r.1, r.2.free_list 6, get_secret_key r.2.mem (HEAP + 512),
        get_level_pos r.2.mem (HEAP + 512), get_next r.2.mem (HEAP + 512),
        get_prev r.2.mem (HEAP + 512)))
      = some (HEAP + 24, HEAP + 512, 0, 1, NULL, HEAP) ∧
    sysOneTask.map (fun r => (r.kmem.free_list 6, get_secret_key r.kmem.mem (HEAP + 512),
        get_level_pos r.kmem.mem (HEAP + 512), get_next r.kmem.mem (HEAP + 512),
        get_prev r.kmem.mem (HEAP + 512)))
      = some (HEAP + 512, 10, 10, 10, taskA.ptask) := by
  refine ⟨by decide, by decide, by decide!, by decide!, by decide!⟩

/-- C27 (the code breaks it): after a successful `k_mem_init` and the calls
`opsStaleLink`, all of them `k_mem_alloc` calls and `k_mem_dealloc` calls on
pointers that `k_mem_alloc` returned, `k_mem_alloc(56)` returns `HEAP + 344`
and marks the header at `HEAP + 320` allocated; yet the bits of the two nodes
whose block starts at `HEAP + 320`, node 5 of level 9 and node 10 of level 10,
are both 0, and the block is still the head of `free_list[9]`. -/
theorem k_mem_alloc_leaves_block_bit_clear :
    (k_mem_init kInit memZero HEAP).1 = RTX_OK ∧
    memWrongLevel.map (fun r => (r.1, get_is_allocated r.2.mem (HEAP + 320),
        r.2.bitarray (2 ^ 9 - 1 + 5), r.2.bitarray (2 ^ 10 - 1 + 10), r.2.free_list 9))
      = some (HEAP + 344, 1, 0, 0, HEAP + 320) := by
  refine ⟨by decide, by decide!⟩

/-- C29 (the code breaks it): the level loop of `k_mem_alloc` starts at
`MAX_LEVEL = 15` and stops as soon as `level_to_block_size` is not below the
size: for size 40 it selects level 11 and for size 1 level 15, so the read of
`free_list[lvl]` is outside the 11 entries of `free_list`. -/
theorem k_mem_alloc_small_size_out_of_range :
    alloc_level 40 MAX_LEVEL = 11 ∧ alloc_level 1 MAX_LEVEL = 15 ∧
    ¬ 11 < FREE_LIST_LEN ∧ ¬ 15 < FREE_LIST_LEN ∧
    (k_mem_alloc kOneRunning memInit 40).isSome = false ∧
    (k_mem_alloc kOneRunning memInit 1).isSome = false := by
  refine ⟨by decide, by decide, by decide, by decide, by decide!, by decide!⟩

/-- C30 (the code breaks it): after `osKernelInit` no task has been dispatched
and `running_task` is `TID_DORMANT = 0xFFFFFFFF`.  In that state, which is the
one in which `main` creates its tasks, a successful `osCreateDeadlineTask`
reads `TCBS[0xFFFFFFFF]`, and `osSleep(5)` and `osPeriodYield` write to it. -/
theorem TCBS_index_out_of_range_before_start :
    mBoot.kernel_config.running_task = TID_DORMANT ∧ ¬ TID_DORMANT < MAX_TASKS ∧
    sysOneTask.map (fun r => r.ret) = some RTX_OK ∧
    current_task_index mBoot = 4294967295 ∧
    (osSleep mBoot 5).isSome = false ∧ (osPeriodYield mBoot).isSome = false := by
  refine ⟨by decide!, by decide, by decide!, by decide!, by decide!, by decide!⟩

/-! ## The release of a block by `k_mem_dealloc`

For a pointer into the heap whose path to the root holds a marked node, the
two loops of `k_mem_dealloc` stay inside `bitarray` and `free_list`, the call
returns `RTX_OK`, the bit of the node is cleared and the block, or the block it
was merged into, is the head of a free list. -/

/-- The path of `osTaskExit` that returns `RTX_OK`: the slot of the running
task gets `state` DORMANT and `tid` TID_DORMANT and keeps its other fields,
the counter goes down by one (in `U8`), nothing else in the kernel state
changes. -/
theorem osTaskExit_ok_fields (m : Machine) (s : KMem) (res : Int × Machine × KMem)
    (h : osTaskExit m s = some res) (hok : res.1 = RTX_OK) :
    m.kernel_config.running_task < MAX_TASKS ∧
    res.2.1.kernel_config.TCBS m.kernel_config.running_task =
      { m.kernel_config.TCBS m.kernel_config.running_task with
        state := DORMANT, tid := TID_DORMANT } ∧
    (∀ j, j ≠ m.kernel_config.running_task →
      res.2.1.kernel_config.TCBS j = m.kernel_config.TCBS j) ∧
    res.2.1.kernel_config.num_running_tasks = (m.kernel_config.num_running_tasks + 255) % 256 ∧
    res.2.1.kernel_config.is_running = m.kernel_config.is_running ∧
    res.2.1.kernel_config.running_task = m.kernel_config.running_task := by
  unfold osTaskExit at h
  dsimp only at h
  by_cases h0 : m.kernel_config.is_running = FALSE ∨ m.kernel_config.running_task = TID_DORMANT
  · rw [if_pos h0] at h
    simp only [Option.some.injEq] at h
    rw [← h] at hok
    simp [RTX_OK, RTX_ERR] at hok
  · rw [if_neg h0] at h
    have htid : osGetTID m.kernel_config = m.kernel_config.running_task := by
      unfold osGetTID
      rw [if_neg h0]
    rw [htid, if_neg (fun hc => h0 (Or.inr hc))] at h
    cases hd : k_mem_dealloc m.kernel_config s
        (m.kernel_config.TCBS m.kernel_config.running_task).p_stack_mem with
    | none =>
      rw [hd] at h
      simp at h
    | some v =>
      obtain ⟨r, s1⟩ := v
      rw [hd] at h
      dsimp only at h
      by_cases hr : r = -1
      · rw [if_pos hr] at h
        simp only [Option.some.injEq] at h
        rw [← h] at hok
        simp [RTX_OK, RTX_ERR] at hok
      · rw [if_neg hr] at h
        by_cases hb : m.kernel_config.running_task < MAX_TASKS
        · rw [if_neg (not_not.mpr hb)] at h
          simp only [Option.some.injEq] at h
          rw [← h]
          refine ⟨hb, ?_, ?_, ?_, ?_, ?_⟩
          · simp [ContextSwitch_kernel_config, setTCB]
          · intro j hj
            simp [ContextSwitch_kernel_config, setTCB, hj]
          · simp [ContextSwitch_kernel_config, setTCB]
          · simp [ContextSwitch_kernel_config, setTCB]
          · simp [ContextSwitch_kernel_config, setTCB]
        · rw [if_pos hb] at h
          simp at h

/-- C22 as stated fails.  After `osKernelInit` and `k_mem_init`,
`osCreateDeadlineTask(4, &taskA)` returns `RTX_OK` for slot 1, `osKernelStart`
dispatches task 1 and task 1 calls `osTaskExit`, which returns `RTX_OK`.
Slot 1 then has `stack_size` 512, `p_stack_mem` HEAP + 24, `SP` HEAP + 472
and `deadline` 4, where it had `stack_size` 16384, `p_stack_mem` 0, `SP` 0
and `deadline` 0xFFFFFFFF before the create call; and `free_list[6]` is 10
where it was NULL. -/
theorem create_exit_does_not_restore_slot :
    sysOneTask.map (fun r => r.ret) = some RTX_OK ∧
    sysOneExited.map (fun r => (r.1, (r.2.1.kernel_config.TCBS 1).state,
      (r.2.1.kernel_config.TCBS 1).tid)) = some (RTX_OK, DORMANT, TID_DORMANT) ∧
    sysOneExited.map (fun r => [(r.2.1.kernel_config.TCBS 1).stack_size,
      (r.2.1.kernel_config.TCBS 1).p_stack_mem, (r.2.1.kernel_config.TCBS 1).SP,
      (r.2.1.kernel_config.TCBS 1).deadline, r.2.2.free_list 6]) =
      some [512, HEAP + 24, HEAP + 472, 4, 10] ∧
    [(mBoot.kernel_config.TCBS 1).state, (mBoot.kernel_config.TCBS 1).tid] =
      [DORMANT, TID_DORMANT] ∧
    [(mBoot.kernel_config.TCBS 1).stack_size, (mBoot.kernel_config.TCBS 1).p_stack_mem,
      (mBoot.kernel_config.TCBS 1).SP, (mBoot.kernel_config.TCBS 1).deadline,
      memBoot.free_list 6] = [16384, 0, 0, 4294967295, NULL] := by
  decide!

/-- C22, amended: if `osCreateDeadlineTask` returns `RTX_OK` and has created
task `c`, and task `c` is then the running task with no other change to the
TCB table or the counter than its `state` RUNNING, and its call of
`osTaskExit` returns `RTX_OK`, then slot `c` (`1 ≤ c ≤ 15`) has `state`
DORMANT and `tid` TID_DORMANT, its other fields are the ones the create call
wrote (the caller's `ptask` and `stack_size`, the deadline, the non-null
`p_stack_mem`; they are not reset), every other slot of the table is equal to
what it was before the create call, and so is `num_running_tasks`. -/
theorem create_exit_restores_other_slots (m : Machine) (s : KMem) (deadline : Int)
    (task : Option TCB) (r : CreateResult) (tk : TCB) (m2 : Machine)
    (res : Int × Machine × KMem)
    (hc : osCreateDeadlineTask m s deadline task = some r) (hok : r.ret = RTX_OK)
    (htk : r.task = some tk)
    (hd1 : m2.kernel_config.running_task = tk.tid)
    (hd2 : m2.kernel_config.TCBS tk.tid =
      { r.machine.kernel_config.TCBS tk.tid with state := RUNNING })
    (hd3 : ∀ j, j < MAX_TASKS → j ≠ tk.tid →
      m2.kernel_config.TCBS j = r.machine.kernel_config.TCBS j)
    (hd4 : m2.kernel_config.num_running_tasks = r.machine.kernel_config.num_running_tasks)
    (he : osTaskExit m2 r.kmem = some res) (hret : res.1 = RTX_OK) :
    1 ≤ tk.tid ∧ tk.tid ≤ 15 ∧
    res.2.1.kernel_config.TCBS tk.tid =
      { r.machine.kernel_config.TCBS tk.tid with state := DORMANT, tid := TID_DORMANT } ∧
    (∃ t, task = some t ∧ (res.2.1.kernel_config.TCBS tk.tid).ptask = t.ptask ∧
      (res.2.1.kernel_config.TCBS tk.tid).stack_size = t.stack_size) ∧
    (res.2.1.kernel_config.TCBS tk.tid).deadline = toU32 deadline ∧
    (res.2.1.kernel_config.TCBS tk.tid).remaining_time = toU32 deadline ∧
    (res.2.1.kernel_config.TCBS tk.tid).p_stack_mem ≠ NULL ∧
    (∀ j, j < MAX_TASKS → j ≠ tk.tid →
      res.2.1.kernel_config.TCBS j = m.kernel_config.TCBS j) ∧
    res.2.1.kernel_config.num_running_tasks = m.kernel_config.num_running_tasks := by
  obtain ⟨t, c, p, s1, ht, _, _, _, hnum, hf, _, hp, _, _, _, _, _, _, _, hdl, hrt,
    _, hpt, hss, hpm, _, _, hoth, hn, _, _, hrtask⟩ :=
    osCreateDeadlineTask_ok_fields m s deadline task r hc hok
  obtain ⟨hc1, hc2, _, _⟩ := find_dormant_slot_some _ _ _ _ hf
  have hcid : tk.tid = c := by
    rw [htk] at hrtask
    simp only [Option.some.injEq] at hrtask
    rw [hrtask]
  rw [hcid] at hd1 hd2 hd3 ⊢
  obtain ⟨_, e1, e2, e3, _, _⟩ := osTaskExit_ok_fields m2 r.kmem res he hret
  rw [hd1] at e1 e2
  have hslot : res.2.1.kernel_config.TCBS c =
      { r.machine.kernel_config.TCBS c with state := DORMANT, tid := TID_DORMANT } := by
    rw [e1, hd2]
  unfold MAX_TASKS at hnum hc2
  refine ⟨hc1, by omega, hslot, ⟨t, ht, ?_, ?_⟩, ?_, ?_, ?_, ?_, ?_⟩
  · rw [hslot]; exact hpt
  · rw [hslot]; exact hss
  · rw [hslot]; exact hdl
  · rw [hslot]; exact hrt
  · rw [hslot]; exact hpm.symm ▸ hp
  · intro j hj1 hj2
    rw [e2 j hj2, hd3 j hj1 hj2, hoth j hj2]
  · rw [e3, hd4, hn]
    omega

/-- C22, amended, at a concrete run: `osCreateDeadlineTask(4, &taskA)` after
`osKernelInit` and `k_mem_init`, `osKernelStart`, then `osTaskExit` by
task 1. -/
theorem create_exit_restores_other_slots_witness :
    1 ≤ ({ taskA with tid := 1 } : TCB).tid ∧ ({ taskA with tid := 1 } : TCB).tid ≤ 15 ∧
    oneExitResult.2.1.kernel_config.TCBS ({ taskA with tid := 1 } : TCB).tid =
      { oneTaskResult.machine.kernel_config.TCBS ({ taskA with tid := 1 } : TCB).tid with
        state := DORMANT, tid := TID_DORMANT } ∧
    (∃ t, some taskA = some t ∧
      (oneExitResult.2.1.kernel_config.TCBS ({ taskA with tid := 1 } : TCB).tid).ptask =
        t.ptask ∧
      (oneExitResult.2.1.kernel_config.TCBS ({ taskA with tid := 1 } : TCB).tid).stack_size =
        t.stack_size) ∧
    (oneExitResult.2.1.kernel_config.TCBS ({ taskA with tid := 1 } : TCB).tid).deadline =
      toU32 4 ∧
    (oneExitResult.2.1.kernel_config.TCBS ({ taskA with tid := 1 } : TCB).tid).remaining_time =
      toU32 4 ∧
    (oneExitResult.2.1.kernel_config.TCBS ({ taskA with tid := 1 } : TCB).tid).p_stack_mem ≠
      NULL ∧
    (∀ j, j < MAX_TASKS → j ≠ ({ taskA with tid := 1 } : TCB).tid →
      oneExitResult.2.1.kernel_config.TCBS j = mBoot.kernel_config.TCBS j) ∧
    oneExitResult.2.1.kernel_config.num_running_tasks = mBoot.kernel_config.num_running_tasks :=
  create_exit_restores_other_slots mBoot memBoot 4 (some taskA) oneTaskResult
    { taskA with tid := 1 } mOneStarted oneExitResult
    (eq_some_getD_of_isSome sysOneTask
      { ret := RTX_ERR, machine := mBoot, kmem := memBoot, task := none } (by decide!))
    (by decide!) (by decide!) (by decide!) (by decide!)
    (fun j h1 h2 => by
      unfold MAX_TASKS at h1
      interval_cases j <;> first | exact absurd rfl h2 | decide!)
    (by decide!)
    (eq_some_getD_of_isSome (osTaskExit mOneStarted oneTaskResult.kmem)
      (RTX_ERR, mBoot, memBoot) (by decide!))
    (by decide!)

/-! ## The bounds on the counters along a run -/

theorem SysTick_slot_CounterInv (t : TCB) (b : Nat) (h : CounterInv t b) :
    CounterInv (SysTick_slot t) b ∧ TickNoWrap t (SysTick_slot t) := by
  obtain ⟨h1, h2, h3, h4⟩ := h
  unfold SysTick_slot
  split_ifs with c1 c2 c3 c4
  · refine ⟨⟨h1, h2, le_refl _, ?_⟩, Or.inr (Or.inr (Or.inl rfl)), Or.inl rfl⟩
    intro hs
    exact h4 hs
  · refine ⟨⟨h1, h2, ?_, ?_⟩, Or.inr (Or.inl ?_), Or.inl rfl⟩
    · show t.remaining_time - 1 ≤ t.deadline
      omega
    · intro hs
      exact h4 hs
    · show t.remaining_time - 1 + 1 = t.remaining_time
      omega
  · refine ⟨⟨h1, h2, ?_, ?_⟩, Or.inr (Or.inr (Or.inr ?_)), Or.inl rfl⟩
    · show subU32 t.deadline 1 ≤ t.deadline
      rw [subU32_one _ h1 h2]
      omega
    · intro hs
      exact absurd (show TASK_READY = SLEEPING from hs) (by decide)
    · show subU32 t.deadline 1 + 1 = t.deadline
      rw [subU32_one _ h1 h2]
      omega
  · refine ⟨⟨h1, h2, h3, ?_⟩, Or.inl rfl, Or.inr ?_⟩
    · intro hs
      have := h4 hs
      show t.remaining_sleep_time - 1 ≤ b
      omega
    · show t.remaining_sleep_time - 1 + 1 = t.remaining_sleep_time
      omega
  · exact ⟨⟨h1, h2, h3, h4⟩, Or.inl rfl, Or.inl rfl⟩

theorem SysTick_Handler_slot (m : Machine) (j : Nat) :
    (SysTick_Handler m).kernel_config.TCBS j = m.kernel_config.TCBS j ∨
    (SysTick_Handler m).kernel_config.TCBS j = SysTick_slot (m.kernel_config.TCBS j) := by
  by_cases hrun : m.kernel_config.is_running = 0
  · left
    unfold SysTick_Handler
    rw [if_pos hrun]
  · rw [SysTick_Handler_TCBS m hrun j]
    split_ifs
    · exact Or.inr rfl
    · exact Or.inl rfl

theorem SysTick_Handler_CounterInv (m : Machine) (j b : Nat)
    (h : CounterInv (m.kernel_config.TCBS j) b) :
    CounterInv ((SysTick_Handler m).kernel_config.TCBS j) b ∧
      TickNoWrap (m.kernel_config.TCBS j) ((SysTick_Handler m).kernel_config.TCBS j) := by
  rcases SysTick_Handler_slot m j with e | e
  · rw [e]
    exact ⟨h, Or.inl rfl, Or.inl rfl⟩
  · rw [e]
    exact SysTick_slot_CounterInv _ b h

theorem SysTick_Handler_running_task (m : Machine) :
    (SysTick_Handler m).kernel_config.running_task = m.kernel_config.running_task := by
  by_cases hrun : m.kernel_config.is_running = 0
  · unfold SysTick_Handler
    rw [if_pos hrun]
  · rw [(SysTick_Handler_kernel_config m hrun).1]
    exact (SysTick_loop_globals _ _).2.2

/-- The slot `j` after `osYield`. -/
theorem osYield_TCBS (m m1 : Machine) (h : osYield m = some m1) (j : Nat) :
    m1.kernel_config.running_task = m.kernel_config.running_task ∧
    (m1.kernel_config.TCBS j = m.kernel_config.TCBS j ∨
      m1.kernel_config.TCBS j =
        { m.kernel_config.TCBS j with remaining_time := (m.kernel_config.TCBS j).deadline }) := by
  unfold osYield at h
  dsimp only at h
  split_ifs at h with c1 c2
  · simp only [Option.some.injEq] at h
    rw [← h]
    exact ⟨rfl, Or.inl rfl⟩
  · simp only [Option.some.injEq] at h
    rw [← h]
    refine ⟨rfl, ?_⟩
    by_cases hj : j = m.kernel_config.running_task
    · right
      simp [setTCB, hj]
    · left
      simp [setTCB, hj]

/-- The slot `j` after `osSleep`. -/
theorem osSleep_TCBS (m m1 : Machine) (ms : Int) (h : osSleep m ms = some m1) (j : Nat) :
    m1.kernel_config.running_task = m.kernel_config.running_task ∧
    m1.kernel_config.TCBS j =
      if 0 < ms ∧ j = m.kernel_config.running_task then
        { m.kernel_config.TCBS j with state := SLEEPING, remaining_sleep_time := toU32 ms }
      else m.kernel_config.TCBS j := by
  unfold osSleep at h
  split_ifs at h with c1 c2
  · simp only [Option.some.injEq] at h
    rw [← h, if_neg (by omega)]
    exact ⟨rfl, rfl⟩
  · simp only [Option.some.injEq] at h
    rw [← h, (ContextSwitch_kernel_config _).1]
    refine ⟨rfl, ?_⟩
    by_cases hj : j = m.kernel_config.running_task
    · rw [if_pos ⟨by omega, hj⟩]
      simp [setTCB, hj]
    · rw [if_neg (fun hc => hj hc.2)]
      simp [setTCB, hj]

/-- The slot `j` after `osPeriodYield`. -/
theorem osPeriodYield_TCBS (m m1 : Machine) (h : osPeriodYield m = some m1) (j : Nat) :
    m1.kernel_config.running_task = m.kernel_config.running_task ∧
    m1.kernel_config.TCBS j =
      if j = m.kernel_config.running_task then
        { m.kernel_config.TCBS j with
          state := SLEEPING, remaining_sleep_time := (m.kernel_config.TCBS j).remaining_time }
      else m.kernel_config.TCBS j := by
  unfold osPeriodYield at h
  split_ifs at h with c1
  simp only [Option.some.injEq] at h
  rw [← h, (ContextSwitch_kernel_config _).1]
  refine ⟨rfl, ?_⟩
  by_cases hj : j = m.kernel_config.running_task
  · rw [if_pos hj]
    simp [setTCB, hj]
  · rw [if_neg hj]
    simp [setTCB, hj]

/-- The slot `j` after `osSetDeadline`. -/
theorem osSetDeadline_TCBS (m : Machine) (deadline : Int) (TID j : Nat) :
    (osSetDeadline m deadline TID).2.kernel_config.running_task = m.kernel_config.running_task ∧
    ((osSetDeadline m deadline TID).2.kernel_config.TCBS j = m.kernel_config.TCBS j ∨
      (0 < deadline ∧ (osSetDeadline m deadline TID).2.kernel_config.TCBS j =
        { m.kernel_config.TCBS j with
          deadline := toU32 deadline, remaining_time := toU32 deadline })) := by
  unfold osSetDeadline
  dsimp only
  by_cases hc : deadline ≤ 0 ∨ TID ≤ 0 ∨ TID ≥ MAX_TASKS ∨
      (m.kernel_config.TCBS TID).tid = TID_DORMANT ∨ TID = m.kernel_config.running_task
  · rw [if_pos hc]
    exact ⟨rfl, Or.inl rfl⟩
  · rw [if_neg hc]
    have hd : 0 < deadline := by
      by_contra hn
      exact hc (Or.inl (by omega))
    have hk : ∀ (c : Prop) [Decidable c] (m2 : Machine),
        (if c then (RTX_OK, ContextSwitch m2) else (RTX_OK, m2)).2.kernel_config =
          m2.kernel_config := by
      intro c _ m2
      split_ifs
      · exact (ContextSwitch_kernel_config m2).1
      · rfl
    rw [hk]
    refine ⟨rfl, ?_⟩
    by_cases hj : j = TID
    · right
      refine ⟨hd, ?_⟩
      simp [setTCB, hj]
    · left
      simp [setTCB, hj]

/-- The slot `j` after `new_task`: only `SP` and `state` change, and the new
state is READY or RUNNING unless it is the old one. -/
theorem new_task_TCBS (m m1 : Machine) (h : new_task m = some m1) (j : Nat) :
    (m1.kernel_config.TCBS j).deadline = (m.kernel_config.TCBS j).deadline ∧
    (m1.kernel_config.TCBS j).remaining_time = (m.kernel_config.TCBS j).remaining_time ∧
    (m1.kernel_config.TCBS j).remaining_sleep_time =
      (m.kernel_config.TCBS j).remaining_sleep_time ∧
    ((m1.kernel_config.TCBS j).state = (m.kernel_config.TCBS j).state ∨
      (m1.kernel_config.TCBS j).state = READY ∨ (m1.kernel_config.TCBS j).state = RUNNING) := by
  have hsave : ((new_task_save m).TCBS j).deadline = (m.kernel_config.TCBS j).deadline ∧
      ((new_task_save m).TCBS j).remaining_time = (m.kernel_config.TCBS j).remaining_time ∧
      ((new_task_save m).TCBS j).remaining_sleep_time =
        (m.kernel_config.TCBS j).remaining_sleep_time ∧
      (((new_task_save m).TCBS j).state = (m.kernel_config.TCBS j).state ∨
        ((new_task_save m).TCBS j).state = READY) := by
    rw [new_task_save_TCBS m j]
    by_cases a : j = m.kernel_config.running_task
    · rw [if_pos a]
      by_cases b : (m.kernel_config.TCBS j).state = RUNNING
      · exact ⟨rfl, rfl, rfl, Or.inr (if_pos b)⟩
      · exact ⟨rfl, rfl, rfl, Or.inl (if_neg b)⟩
    · rw [if_neg a]
      exact ⟨rfl, rfl, rfl, Or.inl rfl⟩
  obtain ⟨s1, s2, s3, s4⟩ := hsave
  unfold new_task at h
  dsimp only at h
  split_ifs at h with c1 c2
  simp only [Option.some.injEq] at h
  have e : m1.kernel_config.TCBS j =
      if j = scheduler (new_task_save m) then
        { (new_task_save m).TCBS (scheduler (new_task_save m)) with state := RUNNING }
      else (new_task_save m).TCBS j := by
    rw [← h]
    rfl
  by_cases hn : j = scheduler (new_task_save m)
  · rw [e, if_pos hn, ← hn]
    exact ⟨s1, s2, s3, Or.inr (Or.inr rfl)⟩
  · rw [e, if_neg hn]
    refine ⟨s1, s2, s3, ?_⟩
    rcases s4 with s | s
    · exact Or.inl s
    · exact Or.inr (Or.inl s)

/-- One operation of a run keeps the bounds of every slot. -/
theorem stepOp_CounterInv (op : KernelOp) (m m1 : Machine) (g : Nat → Nat) (j : Nat)
    (hint : ∀ d tid, op = KernelOp.setDeadline d tid → d ≤ INT_MAX)
    (h : stepOp op m = some m1) (hinv : CounterInv (m.kernel_config.TCBS j) (g j)) :
    CounterInv (m1.kernel_config.TCBS j) (sleepStart op m g j) := by
  obtain ⟨h1, h2, h3, h4⟩ := hinv
  cases op with
  | tick =>
    simp only [stepOp, Option.some.injEq] at h
    rw [← h]
    exact (SysTick_Handler_CounterInv m j (g j) ⟨h1, h2, h3, h4⟩).1
  | yield =>
    rcases (osYield_TCBS m m1 h j).2 with e | e
    · rw [e]
      exact ⟨h1, h2, h3, h4⟩
    · rw [e]
      exact ⟨h1, h2, le_refl _, h4⟩
  | sleep ms =>
    have e := (osSleep_TCBS m m1 ms h j).2
    rw [e]
    unfold sleepStart
    dsimp only
    by_cases hms : 0 < ms
    · rw [if_pos hms]
      by_cases hj : j = m.kernel_config.running_task
      · rw [if_pos ⟨hms, hj⟩]
        rw [if_pos hj]
        exact ⟨h1, h2, h3, fun _ => le_refl _⟩
      · rw [if_neg (fun hc => hj hc.2)]
        rw [if_neg hj]
        exact ⟨h1, h2, h3, h4⟩
    · rw [if_neg hms, if_neg (fun hc => hms hc.1)]
      exact ⟨h1, h2, h3, h4⟩
  | periodYield =>
    have e := (osPeriodYield_TCBS m m1 h j).2
    rw [e]
    unfold sleepStart
    dsimp only
    by_cases hj : j = m.kernel_config.running_task
    · rw [if_pos hj, if_pos hj, ← hj]
      exact ⟨h1, h2, h3, fun _ => le_refl _⟩
    · rw [if_neg hj, if_neg hj]
      exact ⟨h1, h2, h3, h4⟩
  | setDeadline d tid =>
    simp only [stepOp, Option.some.injEq] at h
    rw [← h]
    rcases (osSetDeadline_TCBS m d tid j).2 with e | ⟨hd, e⟩
    · rw [e]
      exact ⟨h1, h2, h3, h4⟩
    · rw [e]
      have hmax := hint d tid rfl
      have hu : toU32 d = d.toNat := toU32_of_pos d hd hmax
      unfold INT_MAX at hmax
      refine ⟨?_, ?_, le_refl _, h4⟩
      · show 1 ≤ toU32 d
        rw [hu]
        omega
      · show toU32 d < 4294967296
        rw [hu]
        omega
  | switch =>
    obtain ⟨e1, e2, e3, e4⟩ := new_task_TCBS m m1 h j
    refine ⟨by rw [e1]; exact h1, by rw [e1]; exact h2, by rw [e1, e2]; exact h3, ?_⟩
    intro hs
    rw [e3]
    rcases e4 with e | e | e
    · exact h4 (e ▸ hs)
    · rw [e] at hs
      exact absurd hs (by decide)
    · rw [e] at hs
      exact absurd hs (by decide)

/-- Without a context switch an operation of a run keeps `running_task`, and
it has a result when `running_task` is a slot of the table. -/
theorem stepOp_returns (op : KernelOp) (m : Machine) (hop : op ≠ KernelOp.switch)
    (hr : m.kernel_config.running_task < MAX_TASKS) :
    ∃ m1, stepOp op m = some m1 ∧
      m1.kernel_config.running_task = m.kernel_config.running_task := by
  cases op with
  | tick => exact ⟨_, rfl, SysTick_Handler_running_task m⟩
  | yield =>
    have hex : ∃ m1, osYield m = some m1 := by
      unfold osYield
      dsimp only
      split_ifs
      · exact ⟨_, rfl⟩
      · exact ⟨_, rfl⟩
    obtain ⟨m1, e⟩ := hex
    exact ⟨m1, e, (osYield_TCBS m m1 e 0).1⟩
  | sleep ms =>
    have hex : ∃ m1, osSleep m ms = some m1 := by
      unfold osSleep
      split_ifs
      · exact ⟨_, rfl⟩
      · exact ⟨_, rfl⟩
    obtain ⟨m1, e⟩ := hex
    exact ⟨m1, e, (osSleep_TCBS m m1 ms e 0).1⟩
  | periodYield =>
    obtain ⟨m1, e, _⟩ := osPeriodYield_result m hr
    exact ⟨m1, e, (osPeriodYield_TCBS m m1 e 0).1⟩
  | setDeadline d tid => exact ⟨_, rfl, (osSetDeadline_TCBS m d tid 0).1⟩
  | switch => exact absurd rfl hop

theorem runKernelOps_CounterInv (ops : List KernelOp) :
    ∀ (m : Machine) (g : Nat → Nat) (j : Nat) (res : Machine × (Nat → Nat)),
      (∀ d tid, KernelOp.setDeadline d tid ∈ ops → d ≤ INT_MAX) →
      CounterInv (m.kernel_config.TCBS j) (g j) →
      runKernelOps ops m g = some res →
      CounterInv (res.1.kernel_config.TCBS j) (res.2 j) := by
  induction ops with
  | nil =>
    intro m g j res _ hinv h
    simp only [runKernelOps, Option.some.injEq] at h
    rw [← h]
    exact hinv
  | cons op rest ih =>
    intro m g j res hint hinv h
    rw [runKernelOps] at h
    cases hs : stepOp op m with
    | none =>
      rw [hs] at h
      simp at h
    | some m1 =>
      rw [hs] at h
      dsimp only at h
      have h1 := stepOp_CounterInv op m m1 g j
        (fun d tid e => hint d tid (by rw [e]; exact List.mem_cons_self _ _)) hs hinv
      exact ih m1 (sleepStart op m g) j res
        (fun d tid hm => hint d tid (List.mem_cons_of_mem _ hm)) h1 h

theorem runKernelOps_returns (ops : List KernelOp) :
    ∀ (m : Machine) (g : Nat → Nat), (∀ op, op ∈ ops → op ≠ KernelOp.switch) →
      m.kernel_config.running_task < MAX_TASKS →
      (runKernelOps ops m g).isSome = true := by
  induction ops with
  | nil =>
    intro m g _ _
    rfl
  | cons op rest ih =>
    intro m g hops hr
    obtain ⟨m1, e, er⟩ := stepOp_returns op m (hops op (List.mem_cons_self _ _)) hr
    rw [runKernelOps, e]
    dsimp only
    exact ih m1 _ (fun o ho => hops o (List.mem_cons_of_mem _ ho)) (by rw [er]; exact hr)

/-- C31: take a slot `i` of the TCB table (in particular a user slot) whose
`deadline` is a `U32` of at least 1 and whose `remaining_time` is at most
`deadline`, as a successful `osCreateDeadlineTask` leaves it, and if it is
SLEEPING let `g i` bound its `remaining_sleep_time`.  After every run of tick
handler invocations, `osYield`, `osSleep`, `osPeriodYield`, `osSetDeadline`
(with arguments in the range of `int`) and context-switch steps that has a
result, slot `i` still has `1 ≤ deadline < 2^32` and `remaining_time ≤
deadline`, and while it is SLEEPING its `remaining_sleep_time` is at most the
value it was last put to sleep with (the argument of `osSleep`, or the
`remaining_time` that `osPeriodYield` copied).  A tick taken in the state
reached changes the counters without a wrap: `remaining_time` stays, goes down
by one, or becomes `deadline` or `deadline - 1`, and `remaining_sleep_time`
stays or goes down by one.  A run without context-switch steps from a state
whose `running_task` is a slot of the table always has a result. -/
theorem counters_stay_bounded (ops : List KernelOp) (m : Machine) (g : Nat → Nat) (i : Nat)
    (hint : ∀ d tid, KernelOp.setDeadline d tid ∈ ops → d ≤ INT_MAX)
    (hd1 : 1 ≤ (m.kernel_config.TCBS i).deadline)
    (hd2 : (m.kernel_config.TCBS i).deadline < 4294967296)
    (hrt : (m.kernel_config.TCBS i).remaining_time ≤ (m.kernel_config.TCBS i).deadline)
    (hsl : (m.kernel_config.TCBS i).state = SLEEPING →
      (m.kernel_config.TCBS i).remaining_sleep_time ≤ g i) :
    (∀ res, runKernelOps ops m g = some res →
      1 ≤ (res.1.kernel_config.TCBS i).deadline ∧
      (res.1.kernel_config.TCBS i).deadline < 4294967296 ∧
      (res.1.kernel_config.TCBS i).remaining_time ≤ (res.1.kernel_config.TCBS i).deadline ∧
      ((res.1.kernel_config.TCBS i).state = SLEEPING →
        (res.1.kernel_config.TCBS i).remaining_sleep_time ≤ res.2 i) ∧
      TickNoWrap (res.1.kernel_config.TCBS i) ((SysTick_Handler res.1).kernel_config.TCBS i)) ∧
    ((∀ op, op ∈ ops → op ≠ KernelOp.switch) → m.kernel_config.running_task < MAX_TASKS →
      (runKernelOps ops m g).isSome = true) := by
  constructor
  · intro res hres
    have hinv := runKernelOps_CounterInv ops m g i res hint ⟨hd1, hd2, hrt, hsl⟩ hres
    have htick := (SysTick_Handler_CounterInv res.1 i (res.2 i) hinv).2
    obtain ⟨a, b, c, d⟩ := hinv
    exact ⟨a, b, c, d, htick⟩
  · intro hops hr
    exact runKernelOps_returns ops m g hops hr

/-- C31 at a concrete run: the run `opsCounters` from the machine with two
created tasks after `osKernelStart`, for slot 1; the run has a result, in
which slot 1 is RUNNING with deadline 3, `remaining_time` 2 and
`remaining_sleep_time` 0, and was last put to sleep with the value 2. -/
theorem counters_stay_bounded_witness :
    (runKernelOps opsCounters mTwoStarted (fun _ => 0)).map (fun r =>
      [(r.1.kernel_config.TCBS 1).state, (r.1.kernel_config.TCBS 1).deadline,
        (r.1.kernel_config.TCBS 1).remaining_time,
        (r.1.kernel_config.TCBS 1).remaining_sleep_time, r.2 1]) = some [RUNNING, 3, 2, 0, 2] ∧
    ((∀ res, runKernelOps opsCounters mTwoStarted (fun _ => 0) = some res →
      1 ≤ (res.1.kernel_config.TCBS 1).deadline ∧
      (res.1.kernel_config.TCBS 1).deadline < 4294967296 ∧
      (res.1.kernel_config.TCBS 1).remaining_time ≤ (res.1.kernel_config.TCBS 1).deadline ∧
      ((res.1.kernel_config.TCBS 1).state = SLEEPING →
        (res.1.kernel_config.TCBS 1).remaining_sleep_time ≤ res.2 1) ∧
      TickNoWrap (res.1.kernel_config.TCBS 1) ((SysTick_Handler res.1).kernel_config.TCBS 1)) ∧
    ((∀ op, op ∈ opsCounters → op ≠ KernelOp.switch) →
      mTwoStarted.kernel_config.running_task < MAX_TASKS →
      (runKernelOps opsCounters mTwoStarted (fun _ => 0)).isSome = true)) :=
  ⟨by decide!,
    counters_stay_bounded opsCounters mTwoStarted (fun _ => 0) 1
      (fun d tid h => by
        simp only [opsCounters, List.mem_cons, KernelOp.setDeadline.injEq, reduceCtorEq,
          List.mem_singleton, false_or, or_false, List.not_mem_nil] at h
        rcases h with ⟨rfl, _⟩ | ⟨rfl, _⟩ <;> decide)
      (by decide!) (by decide!) (by decide!) (by decide!)⟩

end RTOS
